import Mathlib

/-!
# CRE local environment: provisioning orchestrator

A shallow embedding of the provisioning orchestrator of the CRE local
environment tool (`core/scripts/cre/environment/environment/environment.go`
and `system-tests/lib/cre/environment/{jobs,dons}.go`).

Conventions of the embedding

* A Go `error` is a value of `GoErr` (a tree of wrapped messages); a Go
  `error` variable is `GoError = Option GoErr`, `none` being `nil`.
* A Go map is an association list; a map that is ranged over is given as the
  list of its entries in the order in which the runtime visits them.
* Calls to collaborators that are not part of the sources (container
  framework, telemetry tracker, key generator, ...) are fields of an
  environment record; every call that matters is recorded in a trace of
  `Event`s, in program order.
* A panic is an explicit outcome (`Outcome.panic`).
* Of the console output, everything written to standard error is recorded,
  and so are the plain messages on standard output; the banner, the topology
  summary and the timing line, which go through formatting helpers outside
  the sources, are not.
-/

namespace Cre

/-! ## Go errors -/

/-- A Go error value: a leaf message, an error wrapped under a message
(`errors.Wrap(cause, msg)` and `fmt.Errorf(msg + ": %w", cause)`), or the join
of two errors (`errors.Join`). -/
inductive GoErr where
  | new (msg : String)
  | wrap (cause : GoErr) (msg : String)
  | join (a b : GoErr)
  deriving DecidableEq, Repr

/-- The method `Error()` of a Go error: the message of the whole chain. -/
def GoErr.Error : GoErr → String
  | .new msg => msg
  | .wrap cause msg => msg ++ ": " ++ cause.Error
  | .join a b => a.Error ++ "\n" ++ b.Error

/-- A Go variable of type `error`; `none` is `nil`. -/
abbrev GoError := Option GoErr

/-- The value carried by a panic: an `error` (runtime errors are errors) or
any other value, kept as its `%v` rendering. -/
inductive PanicValue where
  | err (e : GoErr)
  | value (rendered : String)
  deriving DecidableEq, Repr

/-- The result of running a piece of Go code: it returns, or it panics. -/
inductive Outcome (α : Type) where
  | ret (a : α)
  | panic (p : PanicValue)
  deriving DecidableEq, Repr

/-- The runtime error of indexing an empty slice at 0. -/
def indexOutOfRange0 : PanicValue :=
  .err (.new "runtime error: index out of range [0] with length 0")

/-- The runtime error of dereferencing a nil pointer. -/
def nilDereference : PanicValue :=
  .err (.new "runtime error: invalid memory address or nil pointer dereference")

/-! ## Standard-library functions used by the sources -/

namespace hex

/-- One hexadecimal digit of the table `0123456789abcdef`. -/
def hexDigit (n : Nat) : Char :=
  "0123456789abcdef".toList.getD n '0'

/-- Go `hex.EncodeToString`: two lower-case hexadecimal digits per byte. -/
def EncodeToString (bs : List Nat) : String :=
  String.mk (bs.flatMap (fun b => [hexDigit (b % 256 / 16), hexDigit (b % 16)]))

end hex

/-- Value of a decimal digit character, if it is one. -/
def digitVal (c : Char) : Option Nat :=
  if '0' ≤ c ∧ c ≤ '9' then some (c.toNat - '0'.toNat) else none

/-- What the digit loop of `strconv.ParseUint` finds. -/
inductive DigitsResult where
  | value (n : Nat)
  | invalid
  | outOfRange
  deriving DecidableEq, Repr

/-- The digit loop of `strconv.ParseUint` for base 10 and 64 bits, from left
to right: a character that is not a digit ends it as invalid, a value that
leaves the 64 bits ends it as out of range, whichever comes first. -/
def parseDigits : List Char → Nat → DigitsResult
  | [], acc => .value acc
  | c :: cs, acc =>
    match digitVal c with
    | none => .invalid
    | some d =>
      if acc * 10 + d ≥ 2 ^ 64 then .outOfRange else parseDigits cs (acc * 10 + d)

/-- Go `strconv.IsPrint` up to U+00FF; the tables of the printable characters
beyond are not modelled, these characters count as printable. -/
def isPrint (c : Char) : Bool :=
  let n := c.toNat
  if n < 0x20 then false
  else if n < 0x7f then true
  else if n < 0xa1 then false
  else if n = 0xad then false
  else true

/-- The lower-case hexadecimal digits of `n`, `width` of them. -/
def lowerHex (n : Nat) : Nat → List Char
  | 0 => []
  | width + 1 => lowerHex (n / 16) width ++ [hex.hexDigit (n % 16)]

/-- One character of a string as Go `strconv.Quote` writes it. -/
def quoteChar (c : Char) : List Char :=
  if c = '"' then ['\\', '"']
  else if c = '\\' then ['\\', '\\']
  else if isPrint c then [c]
  else if c.toNat = 0x07 then ['\\', 'a']
  else if c.toNat = 0x08 then ['\\', 'b']
  else if c.toNat = 0x0c then ['\\', 'f']
  else if c = '\n' then ['\\', 'n']
  else if c = '\r' then ['\\', 'r']
  else if c = '\t' then ['\\', 't']
  else if c.toNat = 0x0b then ['\\', 'v']
  else if c.toNat < 0x20 ∨ c.toNat = 0x7f then ['\\', 'x'] ++ lowerHex c.toNat 2
  else if c.toNat < 0x10000 then ['\\', 'u'] ++ lowerHex c.toNat 4
  else ['\\', 'U'] ++ lowerHex c.toNat 8

/-- Go `strconv.Quote`: the string as a double-quoted Go string literal. -/
def Quote (s : String) : String :=
  String.mk (['"'] ++ s.toList.flatMap quoteChar ++ ['"'])

/-- The error of `strconv.Atoi` for a string that is not a number. -/
def atoiSyntaxErr (s : String) : GoErr :=
  .new ("strconv.Atoi: parsing " ++ Quote s ++ ": invalid syntax")

/-- The error of `strconv.Atoi` for a number outside the 64-bit `int`. -/
def atoiRangeErr (s : String) : GoErr :=
  .new ("strconv.Atoi: parsing " ++ Quote s ++ ": value out of range")

/-- Go `strconv.Atoi` on a 64-bit platform: an optional sign followed by at
least one decimal digit, within the range of `int`. -/
def Atoi (s : String) : Except GoErr Int :=
  let (neg, digits) :=
    match s.toList with
    | '-' :: cs => (true, cs)
    | '+' :: cs => (false, cs)
    | cs => (false, cs)
  if digits = [] then .error (atoiSyntaxErr s)
  else
    match parseDigits digits 0 with
    | .invalid => .error (atoiSyntaxErr s)
    | .outOfRange => .error (atoiRangeErr s)
    | .value n =>
      if neg then
        if n ≤ 2 ^ 63 then .ok (-(n : Int)) else .error (atoiRangeErr s)
      else
        if n < 2 ^ 63 then .ok (n : Int) else .error (atoiRangeErr s)

/-- Conversion `libc.MustSafeUint64(int64(x))`: panics on a negative input.
Modelled from its name and use; the package `conversions` is not among the
sources. -/
def MustSafeUint64 (x : Int) : Outcome Nat :=
  if x < 0 then
    .panic (.err (.new ("input " ++ toString x ++ " is less than 0 and cannot be converted to uint64")))
  else .ret x.toNat

namespace filepath

/-- Split a path at every slash. -/
def splitSlash : List Char → List (List Char)
  | [] => [[]]
  | c :: cs =>
    match splitSlash cs with
    | [] => [[]]
    | h :: t => if c = '/' then [] :: h :: t else (c :: h) :: t

/-- Go `filepath.Base` (Unix): the last element of the path. -/
def Base (path : String) : String :=
  if path = "" then "."
  else
    let stripped := path.toList.reverse.dropWhile (fun c => c == '/')
    let last := stripped.takeWhile (fun c => c != '/')
    if last = [] then "/" else String.mk last.reverse

/-- One element of a path being cleaned; the stack holds the elements kept so
far, last first. -/
def cleanStep (rooted : Bool) (stack : List String) (c : String) : List String :=
  if c = "" ∨ c = "." then stack
  else if c = ".." then
    match stack with
    | top :: rest => if top = ".." then ".." :: stack else rest
    | [] => if rooted then [] else [".."]
  else c :: stack

/-- Go `filepath.Clean` (Unix): the shortest equivalent path by lexical
processing. -/
def Clean (path : String) : String :=
  if path = "" then "."
  else
    let rooted := path.toList.head? = some '/'
    let comps := ((splitSlash path.toList).map String.mk).foldl (cleanStep rooted) []
    let body := "/".intercalate comps.reverse
    if rooted then "/" ++ body else if body = "" then "." else body

/-- Go `filepath.Join`: leading empty elements are ignored, the rest is joined
with slashes and cleaned. -/
def Join (elem : List String) : String :=
  match elem.dropWhile (fun e => e == "") with
  | [] => ""
  | rest => Clean ("/".intercalate rest)

end filepath

/-! ## Data model -/

/-- The fields of a node input (`NodeSpecs[i].Node`) that the orchestrator
reads or writes. -/
structure NodeInput where
  Image : String
  DockerContext : String
  DockerFilePath : String
  deriving DecidableEq, Repr

/-- A node spec; its `Node` is a pointer and may be nil. -/
structure NodeSpec where
  Node : Option NodeInput
  deriving DecidableEq, Repr

/-- A node-set input (`ns.Input`). -/
structure NsInput where
  Name : String
  NodeSpecs : List NodeSpec
  deriving DecidableEq, Repr

/-- A requested blockchain (`cretypes.WrappedBlockchainInput`). -/
structure WrappedBlockchainInput where
  ChainID : String
  ReadOnly : Bool
  deriving DecidableEq, Repr

/-- Modelled from the spec: the output type of the Job Distributor provider
(`jd.Output`) is not among the sources; the spec describes it as a running
service handle with an external address. -/
structure JdOutput where
  ExternalAddress : String
  deriving DecidableEq, Repr

/-- The Job Distributor input (`jd.Input`). -/
structure JdInput where
  Image : String
  CSAEncryptionKey : String
  Out : Option JdOutput
  deriving DecidableEq, Repr

/-- The CRIB part of the infrastructure input. -/
structure CribInput where
  Namespace : String
  deriving DecidableEq, Repr

/-- The infrastructure target (`libtypes.InfraInput`). -/
structure InfraInput where
  InfraType : String
  CRIB : CribInput
  deriving DecidableEq, Repr

/-- The infrastructure type of a remote cluster (`libtypes.CRIB`). -/
def CRIB : String := "crib"

/-- Optional capability binaries of the TOML configuration. -/
structure ExtraCapabilitiesConfig where
  CronCapabilityBinaryPath : String
  LogEventTriggerBinaryPath : String
  ReadContractBinaryPath : String
  deriving DecidableEq, Repr

/-- The declarative configuration of the start command (`Config`). -/
structure Config where
  Blockchains : List WrappedBlockchainInput
  NodeSets : List NsInput
  JD : JdInput
  Infra : InfraInput
  ExtraCapabilities : ExtraCapabilitiesConfig
  S3ProviderInput : Option String
  deriving DecidableEq, Repr

/-- The method `Config.Validate`. -/
def Config.Validate (c : Config) : GoError :=
  if c.JD.CSAEncryptionKey = "" then
    some (.new "jd.csa_encryption_key must be provided")
  else none

def TopologySimplified : String := "simplified"
def TopologyFull : String := "full"
def WorkflowTriggerWebTrigger : String := "web-trigger"
def WorkflowTriggerCron : String := "cron"

/-- Modelled from the spec: the capability flag constants of package
`cretypes` are not among the sources; they are distinct strings, here the
consensus capability. -/
def OCR3Capability : String := "ocr3"
/-- Modelled from the spec: capability flag of the scheduled trigger. -/
def CronCapability : String := "cron"
/-- Modelled from the spec: capability flag of custom compute. -/
def CustomComputeCapability : String := "custom-compute"
/-- Modelled from the spec: capability flag of the EVM write target. -/
def WriteEVMCapability : String := "write-evm"
/-- Modelled from the spec: capability flag of contract reads. -/
def ReadContractCapability : String := "read-contract"
/-- Modelled from the spec: capability flag of the log-event trigger. -/
def LogTriggerCapability : String := "log-event-trigger"
/-- Modelled from the spec: capability flag of the web API target. -/
def WebAPITargetCapability : String := "web-api-target"
/-- Modelled from the spec: capability flag of the web API trigger. -/
def WebAPITriggerCapability : String := "web-api-trigger"

/-- Modelled from the spec: DON role tags of package `cretypes`. -/
def WorkflowDON : String := "workflow"
/-- Modelled from the spec: DON role tag of the capabilities group. -/
def CapabilitiesDON : String := "capabilities"
/-- Modelled from the spec: DON role tag of the gateway group. -/
def GatewayDON : String := "gateway"

/-- A node-group descriptor (`cretypes.CapabilitiesAwareNodeSet`); the
embedded `*ns.Input` is the field `Input`. -/
structure CapabilitiesAwareNodeSet where
  Input : NsInput
  Capabilities : List String
  DONTypes : List String
  BootstrapNodeIndex : Int
  GatewayNodeIndex : Int
  deriving DecidableEq, Repr

/-- A capability contract/config factory, as data: which constructor of
the capability packages produced it, with its arguments. -/
inductive CapabilityFactory where
  | WebAPITrigger
  | WebAPITarget
  | Compute
  | OCR3
  | Cron
  | WriteEVM (chainID : Nat)
  | ReadContract (chainID : Nat) (family : String)
  | LogEventTrigger (chainID : Nat) (family : String)
  deriving DecidableEq, Repr

/-- A job-spec factory, as data; `Extension` stands for a function supplied
by the caller, identified by a tag. -/
inductive JobSpecFactory where
  | WebAPITrigger
  | WebAPITarget
  | Consensus (chainID : Nat)
  | Cron (binaryPath : String)
  | Gateway (extraAllowedPorts : List Int) (extraAllowedIPs : List String)
      (extraAllowedIPsCIDR : List String)
  | Compute
  | LogEventTrigger (chainID : Int) (family : String) (binaryPath : String)
  | ReadContract (chainID : Int) (family : String) (binaryPath : String)
  | Extension (tag : Nat)
  deriving DecidableEq, Repr

/-- A node config factory. -/
inductive ConfigFactory where
  | GatewayGenerateConfig
  deriving DecidableEq, Repr

/-- A Go `map[string]string` as an association list. -/
abbrev StringMap := List (String × String)

/-- The map assignment `m[k] = v`. -/
def StringMap.set (m : StringMap) (k v : String) : StringMap :=
  if m.any (fun e => e.1 == k) then m.map (fun e => if e.1 = k then (k, v) else e)
  else m ++ [(k, v)]

/-- The input of the provider `creenv.SetupTestEnvironment`
(`creenv.SetupInput`); `CustomBinariesPaths` is `none` when the field is left
unset. -/
structure SetupInput where
  CapabilitiesAwareNodeSets : List CapabilitiesAwareNodeSet
  CapabilitiesContractFactoryFunctions : List CapabilityFactory
  BlockchainsInput : List WrappedBlockchainInput
  JdInput : JdInput
  InfraInput : InfraInput
  JobSpecFactoryFunctions : List JobSpecFactory
  ConfigFactoryFunctions : List ConfigFactory
  S3ProviderInput : Option String
  CustomBinariesPaths : Option StringMap
  deriving DecidableEq, Repr

/-- A node of a provisioned blockchain. -/
structure BlockchainNode where
  ExternalHTTPUrl : String
  deriving DecidableEq, Repr

/-- Modelled from the spec: per-chain connection info of the provisioning
result (selector, chain ID, RPC endpoints, deployer address); the type
`cretypes.WrappedBlockchainOutput` is not among the sources. -/
structure WrappedBlockchainOutput where
  ChainSelector : Nat
  ChainID : Nat
  Nodes : List BlockchainNode
  RootKeyAddress : String
  deriving DecidableEq, Repr

/-- Modelled from the spec: the provisioning result (`creenv.SetupOutput`),
which is not among the sources: per-chain blockchain connection info, the
resolved topology and the infrastructure target. -/
structure SetupOutput where
  BlockchainOutput : List WrappedBlockchainOutput
  WorkflowDonID : Nat
  GatewayURL : String
  InfraType : String
  deriving DecidableEq, Repr

/-! ## Effects -/

/-- A value of a telemetry property. -/
inductive PropValue where
  | bool (b : Bool)
  | str (s : String)
  | num (n : Nat)
  deriving DecidableEq, Repr

/-- The observable actions of the orchestrator, recorded in program order. -/
inductive Event where
  | stdout (msg : String)
  | stderr (msg : String)
  | stackTrace
  | printCRELogo
  | runSetup
  | setenv (key value : String)
  | load
  | generateKey
  | setupTestEnvironment (input : SetupInput)
  | track (name : String) (props : List (String × PropValue))
  | waitToCleanUp (d : Nat)
  | removeTestContainers
  | removeTestStack (name : String)
  | prepareCRECLISettingsFile
  | writeFile (path content : String)
  | startBeholder
  | deployExampleWorkflow
  | deployJd
  | createJobDistributor (input : JdInput)
  | deployDons
  | newSharedDBNodeSet (input : NsInput)
  deriving DecidableEq, Repr

/-- The result of an internal stage of a function returning `(value, error)`:
it goes on with a value, makes the function return the error, or panics. -/
inductive Step (α : Type) where
  | ok (a : α)
  | fail (e : GoErr)
  | panic (p : PanicValue)
  deriving DecidableEq, Repr

/-- What a call of the provider `creenv.SetupTestEnvironment` does: it returns
an output and a nil error, a nil output and a nil error, an error (whatever
comes with it), or panics. The provider is not among the sources. -/
inductive ProviderResult where
  | ok (out : SetupOutput)
  | nilOutput
  | fail (e : GoErr)
  | panics (p : PanicValue)
  deriving DecidableEq, Repr

/-- The collaborators of `StartCLIEnvironment`. `GenerateKey` is
`ecdsa.GenerateKey` followed by `crypto.FromECDSA`: an error, or the bytes of
the private key. -/
structure StartEnv where
  CTF_CONFIGS : String
  DefaultContainerDirectory : String → Except GoErr String
  GenerateKey : Except GoErr (List Nat)
  SetupTestEnvironment : SetupInput → ProviderResult

/-! ## Topology planning (`StartCLIEnvironment`, lines 445-551) -/

/-- The guard of line 445: the example workflow with the cron trigger is
requested, and neither a cron binary nor a shared image is configured. -/
def cronPrecheckFails (cfg : Config) (workflowTrigger img : String)
    (withExampleFlag : Bool) : Prop :=
  withExampleFlag = true ∧ workflowTrigger = WorkflowTriggerCron ∧
    cfg.ExtraCapabilities.CronCapabilityBinaryPath = "" ∧ img = ""

instance (cfg : Config) (workflowTrigger img : String) (withExampleFlag : Bool) :
    Decidable (cronPrecheckFails cfg workflowTrigger img withExampleFlag) := by
  unfold cronPrecheckFails; infer_instance

/-- The error of the guard of line 445. -/
def cronPrecheckErr (env : StartEnv) : GoErr :=
  .new ("either cron binary path must be set in TOML config (" ++ env.CTF_CONFIGS ++
    ") or you must use Docker image with all capabilities included and passed via withPluginsDockerImageFlag")

/-- The capability list and the binary-path map while they are built. -/
structure CapState where
  caps : List String
  paths : StringMap
  deriving DecidableEq, Repr

/-- The gated append of one capability (lines 458-461 and their siblings). -/
def addCapability (img : String) (st : CapState) (name path : String) : CapState :=
  if path ≠ "" ∨ img ≠ "" then
    { caps := st.caps ++ [name], paths := st.paths.set name path }
  else st

/-- The loop over the extra binaries (lines 473-478 and 506-511); the list
gives the entries of the map in the order of the iteration. -/
def addExtraBinaries (img : String) (extraBinaries : List (String × String))
    (st : CapState) : CapState :=
  extraBinaries.foldl (fun acc e => addCapability img acc e.1 e.2) st

/-- Capability list and binary paths of the single group of the simplified
topology (lines 457-478). -/
def simplifiedCapabilities (cfg : Config) (img : String)
    (extraBinaries : List (String × String)) : CapState :=
  let st0 : CapState :=
    { caps := [OCR3Capability, CustomComputeCapability, WriteEVMCapability,
        WebAPITriggerCapability, WebAPITargetCapability],
      paths := [] }
  let st1 := addCapability img st0 CronCapability cfg.ExtraCapabilities.CronCapabilityBinaryPath
  let st2 := addCapability img st1 LogTriggerCapability cfg.ExtraCapabilities.LogEventTriggerBinaryPath
  let st3 := addCapability img st2 ReadContractCapability cfg.ExtraCapabilities.ReadContractBinaryPath
  addExtraBinaries img extraBinaries st3

/-- Capability list and binary paths of the workflow group of the full
topology (lines 495-511). -/
def fullWorkflowCapabilities (cfg : Config) (img : String)
    (extraBinaries : List (String × String)) : CapState :=
  let st0 : CapState :=
    { caps := [OCR3Capability, CustomComputeCapability, WebAPITriggerCapability],
      paths := [] }
  let st1 := addCapability img st0 CronCapability cfg.ExtraCapabilities.CronCapabilityBinaryPath
  let st2 := addCapability img st1 LogTriggerCapability cfg.ExtraCapabilities.LogEventTriggerBinaryPath
  addExtraBinaries img extraBinaries st2

/-- Capability list of the capabilities group of the full topology, and the
binary paths after it (lines 513-517); `paths` is the map left by the workflow
group. -/
def fullCapabilitiesDONCapabilities (cfg : Config) (img : String)
    (paths : StringMap) : CapState :=
  addCapability img { caps := [WriteEVMCapability, WebAPITargetCapability], paths := paths }
    ReadContractCapability cfg.ExtraCapabilities.ReadContractBinaryPath

/-- Topology planning (lines 449-540): the node-group descriptors and the
binary-path map, or the error of a node-set count that does not match the
topology. -/
def planTopology (cfg : Config) (topologyFlag img : String)
    (extraBinaries : List (String × String)) :
    Except GoErr (List CapabilitiesAwareNodeSet × StringMap) :=
  if topologyFlag = TopologySimplified then
    match cfg.NodeSets with
    | [n0] =>
      let st := simplifiedCapabilities cfg img extraBinaries
      .ok ([{ Input := n0, Capabilities := st.caps, DONTypes := [WorkflowDON, GatewayDON],
              BootstrapNodeIndex := 0, GatewayNodeIndex := 0 }], st.paths)
    | sets => .error (.new ("expected 1 nodeset, got " ++ toString sets.length))
  else
    match cfg.NodeSets with
    | [n0, n1, n2] =>
      let wf := fullWorkflowCapabilities cfg img extraBinaries
      let cp := fullCapabilitiesDONCapabilities cfg img wf.paths
      .ok ([{ Input := n0, Capabilities := wf.caps, DONTypes := [WorkflowDON],
              BootstrapNodeIndex := 0, GatewayNodeIndex := 0 },
            { Input := n1, Capabilities := cp.caps, DONTypes := [CapabilitiesDON],
              BootstrapNodeIndex := -1, GatewayNodeIndex := 0 },
            { Input := n2, Capabilities := [], DONTypes := [GatewayDON],
              BootstrapNodeIndex := -1, GatewayNodeIndex := 0 }], cp.paths)
    | sets => .error (.new ("expected 3 nodesets, got " ++ toString sets.length))

/-- The override of one node set's specs by the shared image (lines 545-549):
the specs as they are left, and whether a nil `Node` made it panic. -/
def overrideNodeSpecs (img : String) : List NodeSpec → List NodeSpec × Bool
  | [] => ([], false)
  | s :: rest =>
    match s.Node with
    | none => (s :: rest, true)
    | some n =>
      let r := overrideNodeSpecs img rest
      ({ Node := some { n with Image := img, DockerContext := "", DockerFilePath := "" } } :: r.1,
        r.2)

/-- The override of every node set by the shared image (lines 544-550). -/
def overrideNodeSets (img : String) :
    List CapabilitiesAwareNodeSet → List CapabilitiesAwareNodeSet × Bool
  | [] => ([], false)
  | s :: rest =>
    let r := overrideNodeSpecs img s.Input.NodeSpecs
    let s1 := { s with Input := { s.Input with NodeSpecs := r.1 } }
    if r.2 then (s1 :: rest, true)
    else
      let rs := overrideNodeSets img rest
      (s1 :: rs.1, rs.2)

/-- Lines 542-551: with a shared image every node spec gets the image and
loses its build directives; without one nothing changes. -/
def applyPluginsImage (img : String) (sets : List CapabilitiesAwareNodeSet) :
    List CapabilitiesAwareNodeSet × Bool :=
  if img ≠ "" then overrideNodeSets img sets else (sets, false)

/-! ## Factory assembly and provisioning (`StartCLIEnvironment`, lines 565-672) -/

/-- The two factory lists while they are built. -/
structure Factories where
  caps : List CapabilityFactory
  jobs : List JobSpecFactory
  deriving DecidableEq, Repr

/-- The capability factories present before the loop over the chains
(lines 566-572). -/
def baseCapabilityFactories : List CapabilityFactory :=
  [.WebAPITrigger, .WebAPITarget, .Compute, .OCR3, .Cron]

/-- The binary name of a capability (lines 584-597): the well-known name with
a shared image, the base name of the host path without. -/
def binaryName (img hostPath wellKnown : String) : String :=
  if img ≠ "" then wellKnown else filepath.Base hostPath

/-- The job-spec factories present before the loop over the chains
(lines 599-609): the built-in ones, then the caller's. -/
def baseJobSpecFactories (homeChainID : Nat) (containerPath cronBinaryName : String)
    (extraAllowedGatewayPorts : List Int) (extraJobFactoryFns : List JobSpecFactory) :
    List JobSpecFactory :=
  [.WebAPITrigger, .WebAPITarget, .Consensus homeChainID,
   .Cron (filepath.Join [containerPath, cronBinaryName]),
   .Gateway extraAllowedGatewayPorts [] ["0.0.0.0/0"],
   .Compute] ++ extraJobFactoryFns

/-- The loop over the requested chains (lines 611-636). -/
def chainLoop (containerPath logEventTriggerBinaryName readContractBinaryName : String) :
    List WrappedBlockchainInput → Factories → Step Factories
  | [], acc => .ok acc
  | blockchain :: rest, acc =>
    match Atoi blockchain.ChainID with
    | .error chainErr => .fail (.wrap chainErr "failed to convert chain ID to int")
    | .ok chainIDInt =>
      match MustSafeUint64 chainIDInt with
      | .panic p => .panic p
      | .ret chainID =>
        let caps1 :=
          if blockchain.ReadOnly then acc.caps else acc.caps ++ [.WriteEVM chainID]
        let caps2 := caps1 ++ [.ReadContract chainID "evm", .LogEventTrigger chainID "evm"]
        let jobs2 := acc.jobs ++
          [.LogEventTrigger chainIDInt "evm"
              (filepath.Join [containerPath, logEventTriggerBinaryName]),
           .ReadContract chainIDInt "evm"
              (filepath.Join [containerPath, readContractBinaryName])]
        chainLoop containerPath logEventTriggerBinaryName readContractBinaryName rest
          { caps := caps2, jobs := jobs2 }

/-- Lines 565-636: the capability factories and the job-spec factories. -/
def assembleFactories (env : StartEnv) (cfg : Config) (img : String)
    (extraAllowedGatewayPorts : List Int) (extraJobFactoryFns : List JobSpecFactory) :
    Step Factories :=
  match env.DefaultContainerDirectory cfg.Infra.InfraType with
  | .error pathErr => .fail (.wrap pathErr "failed to get default container directory")
  | .ok containerPath =>
    match cfg.Blockchains with
    | [] => .panic indexOutOfRange0
    | home :: _ =>
      match Atoi home.ChainID with
      | .error chainErr => .fail (.wrap chainErr "failed to convert chain ID to int")
      | .ok homeChainIDInt =>
        let cronBinaryName :=
          binaryName img cfg.ExtraCapabilities.CronCapabilityBinaryPath "cron"
        let logEventTriggerBinaryName :=
          binaryName img cfg.ExtraCapabilities.LogEventTriggerBinaryPath "log-event-trigger"
        let readContractBinaryName :=
          binaryName img cfg.ExtraCapabilities.ReadContractBinaryPath "readcontract"
        match MustSafeUint64 homeChainIDInt with
        | .panic p => .panic p
        | .ret homeChainID =>
          chainLoop containerPath logEventTriggerBinaryName readContractBinaryName
            cfg.Blockchains
            { caps := baseCapabilityFactories,
              jobs := baseJobSpecFactories homeChainID containerPath cronBinaryName
                extraAllowedGatewayPorts extraJobFactoryFns }

/-- The key derived from the private-key bytes:
`hex.EncodeToString(crypto.FromECDSA(key)[:32])`; the slice expression panics
on fewer than 32 bytes. -/
def csaKeyOfBytes (bs : List Nat) : Outcome String :=
  if bs.length < 32 then
    .panic (.err (.new ("runtime error: slice bounds out of range [:32] with capacity " ++
      toString bs.length)))
  else .ret (hex.EncodeToString (bs.take 32))

/-- What a call of `StartCLIEnvironment` leaves behind: the trace of its
effects, the request `*in` as it is when the call ends, and the pair it
returns or the panic that ends it. -/
structure StartResult where
  trace : List Event
  cfg : Config
  outcome : Outcome (Option SetupOutput × GoError)

/-- Lines 647-662: the input handed to the provider; `cfg` is the request
after the key stage. The binary paths are passed only without a shared
image. -/
def universalSetupInput (cfg : Config) (img : String)
    (sets : List CapabilitiesAwareNodeSet) (paths : StringMap) (fs : Factories) : SetupInput :=
  { CapabilitiesAwareNodeSets := sets
    CapabilitiesContractFactoryFunctions := fs.caps
    BlockchainsInput := cfg.Blockchains
    JdInput := cfg.JD
    InfraInput := cfg.Infra
    JobSpecFactoryFunctions := fs.jobs
    ConfigFactoryFunctions := [.GatewayGenerateConfig]
    S3ProviderInput := cfg.S3ProviderInput
    CustomBinariesPaths := if img = "" then some paths else none }

/-- Lines 664-671: the provider is called on the assembled input and its
error is wrapped. -/
def provision (env : StartEnv) (cfg : Config) (img : String)
    (sets : List CapabilitiesAwareNodeSet) (paths : StringMap) (fs : Factories)
    (before : List Event) : StartResult :=
  let input := universalSetupInput cfg img sets paths fs
  let trace := before ++ [.setupTestEnvironment input]
  match env.SetupTestEnvironment input with
  | .panics p => { trace := trace, cfg := cfg, outcome := .panic p }
  | .fail setupErr =>
    { trace := trace, cfg := cfg,
      outcome := .ret (none, some (.wrap setupErr "failed to setup test environment")) }
  | .ok universalSetupOutput =>
    { trace := trace, cfg := cfg, outcome := .ret (some universalSetupOutput, none) }
  | .nilOutput => { trace := trace, cfg := cfg, outcome := .ret (none, none) }

/-- Lines 638-646 and on: a missing CSA encryption key is generated and
written into the request, then the provider is called. -/
def keyStage (env : StartEnv) (cfg : Config) (img : String)
    (sets : List CapabilitiesAwareNodeSet) (paths : StringMap) (fs : Factories) :
    StartResult :=
  if cfg.JD.CSAEncryptionKey = "" then
    match env.GenerateKey with
    | .error keyErr =>
      { trace := [.generateKey], cfg := cfg,
        outcome := .ret (none, some (.wrap keyErr "failed to generate CSA encryption key")) }
    | .ok bs =>
      match csaKeyOfBytes bs with
      | .panic p => { trace := [.generateKey], cfg := cfg, outcome := .panic p }
      | .ret key =>
        let cfg1 := { cfg with JD := { cfg.JD with CSAEncryptionKey := key } }
        provision env cfg1 img sets paths fs
          [.generateKey, .stdout ("Generated new CSA encryption key for JD: " ++ key ++ "\n")]
  else provision env cfg img sets paths fs []

/-- The function `StartCLIEnvironment`. The request `in` is `cfg`; the node
sets of the descriptors alias those of the request, so the override by the
shared image shows in the request as well. The console summary of the
topology (lines 553-563) is not recorded. -/
def StartCLIEnvironment (env : StartEnv) (cfg : Config)
    (topologyFlag workflowTrigger withPluginsDockerImageFlag : String)
    (withExampleFlag : Bool) (extraAllowedGatewayPorts : List Int)
    (extraBinaries : List (String × String)) (extraJobFactoryFns : List JobSpecFactory) :
    StartResult :=
  if cronPrecheckFails cfg workflowTrigger withPluginsDockerImageFlag withExampleFlag then
    { trace := [], cfg := cfg, outcome := .ret (none, some (cronPrecheckErr env)) }
  else
    match planTopology cfg topologyFlag withPluginsDockerImageFlag extraBinaries with
    | .error e => { trace := [], cfg := cfg, outcome := .ret (none, some e) }
    | .ok (planned, capabilitiesBinaryPaths) =>
      let overridden := applyPluginsImage withPluginsDockerImageFlag planned
      let capabilitiesAwareNodeSets := overridden.1
      let cfg1 := { cfg with NodeSets := capabilitiesAwareNodeSets.map (fun s => s.Input) }
      if overridden.2 then { trace := [], cfg := cfg1, outcome := .panic nilDereference }
      else
        match assembleFactories env cfg1 withPluginsDockerImageFlag extraAllowedGatewayPorts
            extraJobFactoryFns with
        | .panic p => { trace := [], cfg := cfg1, outcome := .panic p }
        | .fail e => { trace := [], cfg := cfg1, outcome := .ret (none, some e) }
        | .ok fs =>
          keyStage env cfg1 withPluginsDockerImageFlag capabilitiesAwareNodeSets
            capabilitiesBinaryPaths fs

/-! ## Bringing up the Job Distributor and the node groups (`jobs.go`, `dons.go`) -/

/-- Modelled from the spec: a running node-group handle exposing per-node
external endpoints (`ns.Output`, not among the sources). -/
structure NodeSetOutput where
  ExternalEndpoints : List String
  deriving DecidableEq, Repr

/-- The output of one started node group (`cretypes.WrappedNodeOutput`). -/
structure WrappedNodeOutput where
  Output : NodeSetOutput
  NodeSetName : String
  Capabilities : List String
  deriving DecidableEq, Repr

/-- The collaborators of `StartJD` and `StartDONs`: the deployers of the
remote cluster and the providers of the container framework. -/
structure JobsEnv where
  DeployJd : JdInput → String → Except GoErr JdOutput
  CreateJobDistributor : JdInput → Except GoErr JdOutput
  DeployDons : List CapabilitiesAwareNodeSet → String →
    Except GoErr (List CapabilitiesAwareNodeSet)
  NewSharedDBNodeSet : NsInput → Except GoErr NodeSetOutput

/-- Go `strings.Contains` on lists of characters. -/
def containsChars (sub : List Char) : List Char → Bool
  | [] => sub.isEmpty
  | c :: cs => sub.isPrefixOf (c :: cs) || containsChars sub cs

/-- Go `strings.Contains`. -/
def stringsContains (s sub : String) : Bool :=
  containsChars sub.toList s.toList

/-- The remediation hint of `StartJD`. -/
def jdImageHint : String :=
  "ensure that you either you have built the local image or you are logged into AWS with a profile that can read it (`aws sso login --profile <foo>)`"

/-- What a task returns together with the trace of its effects. -/
structure TaskResult (α : Type) where
  trace : List Event
  out : Option α
  err : GoError

/-- Lines 42-56 of `jobs.go`: the Job Distributor is created and a failure is
wrapped with the image name and, for a denied pull, joined with the hint. -/
def createJD (env : JobsEnv) (jdInput : JdInput) (before : List Event) :
    TaskResult JdOutput :=
  let trace := before ++ [.createJobDistributor jdInput]
  match env.CreateJobDistributor jdInput with
  | .error e =>
    let jdErr : GoErr := .wrap e ("failed to start JD container for image " ++ jdInput.Image)
    if stringsContains jdErr.Error "pull access denied" ||
        stringsContains jdErr.Error "may require 'docker login'" then
      { trace := trace, out := none, err := some (.join jdErr (.new jdImageHint)) }
    else { trace := trace, out := none, err := some jdErr }
  | .ok jdOutput => { trace := trace, out := some jdOutput, err := none }

/-- The function `StartJD`. -/
def StartJD (env : JobsEnv) (jdInput : JdInput) (infraInput : InfraInput) :
    TaskResult JdOutput :=
  if infraInput.InfraType = CRIB then
    match env.DeployJd jdInput infraInput.CRIB.Namespace with
    | .error jdErr =>
      { trace := [.deployJd], out := none,
        err := some (.wrap jdErr "failed to deploy JD with devspace") }
    | .ok out => createJD env { jdInput with Out := some out } [.deployJd]
  else createJD env jdInput []

/-- The loop of `StartDONs` (lines 42-52 of `dons.go`): node sets are created
one after the other, the first failure ends the loop. -/
def startNodeSets (env : JobsEnv) :
    List CapabilitiesAwareNodeSet → List WrappedNodeOutput → List Event →
      TaskResult (List WrappedNodeOutput)
  | [], nodeSetOutput, trace => { trace := trace, out := some nodeSetOutput, err := none }
  | nodeSetInput :: rest, nodeSetOutput, trace =>
    match env.NewSharedDBNodeSet nodeSetInput.Input with
    | .error nodesetErr =>
      { trace := trace ++ [.newSharedDBNodeSet nodeSetInput.Input], out := none,
        err := some (.wrap nodesetErr
          ("failed to create node set named " ++ nodeSetInput.Input.Name)) }
    | .ok nodeset =>
      startNodeSets env rest
        (nodeSetOutput ++ [{ Output := nodeset, NodeSetName := nodeSetInput.Input.Name,
                             Capabilities := nodeSetInput.Capabilities }])
        (trace ++ [.newSharedDBNodeSet nodeSetInput.Input])

/-- The function `StartDONs`. -/
def StartDONs (env : JobsEnv) (infraInput : InfraInput)
    (capabilitiesAwareNodeSets : List CapabilitiesAwareNodeSet) :
    TaskResult (List WrappedNodeOutput) :=
  if infraInput.InfraType = CRIB then
    match env.DeployDons capabilitiesAwareNodeSets infraInput.CRIB.Namespace with
    | .error devspaceErr =>
      { trace := [.deployDons], out := none,
        err := some (.wrap devspaceErr "failed to deploy Dons with crib-sdk") }
    | .ok deployed => startNodeSets env deployed [] [.deployDons]
  else startNodeSets env capabilitiesAwareNodeSets [] []

/-- What `SetupJobs` returns, with the traces of its two tasks; the tasks run
concurrently, so their traces are kept apart. -/
structure SetupJobsResult where
  jdTrace : List Event
  donsTrace : List Event
  jdOutput : Option JdOutput
  nodeSetOutput : Option (List WrappedNodeOutput)
  err : GoError
  deriving DecidableEq, Repr

/-- The result of `errgroup.Group.Wait` for the two tasks: the first non-nil
error that a task returned. Both tasks run to the end; when both fail,
`jdFirst` tells whether the Job Distributor task returned first. -/
def errgroupWait (jdFirst : Bool) (jdErr donsErr : GoError) : GoError :=
  match jdErr, donsErr with
  | none, none => none
  | some e, none => some e
  | none, some e => some e
  | some e1, some e2 => if jdFirst then some e1 else some e2

/-- The function `SetupJobs`. The two tasks touch disjoint state, so their
interleaving shows only in which error `Wait` reports. -/
def SetupJobs (env : JobsEnv) (jdFirst : Bool) (jdInput : JdInput)
    (infraInput : InfraInput) (capabilitiesAwareNodeSets : List CapabilitiesAwareNodeSet) :
    SetupJobsResult :=
  let jd := StartJD env jdInput infraInput
  let jdTaskErr : GoError := jd.err.map (fun e => .wrap e "failed to start Job Distributor")
  let dons := StartDONs env infraInput capabilitiesAwareNodeSets
  let donsTaskErr : GoError := dons.err.map (fun e => .wrap e "failed to start DONs")
  match errgroupWait jdFirst jdTaskErr donsTaskErr with
  | some jdAndDonErr =>
    { jdTrace := jd.trace, donsTrace := dons.trace, jdOutput := none, nodeSetOutput := none,
      err := some (.wrap jdAndDonErr "failed to start Job Distributor or DONs") }
  | none =>
    { jdTrace := jd.trace, donsTrace := dons.trace, jdOutput := jd.out,
      nodeSetOutput := dons.out, err := none }

/-! ## The start command (`startCmd`, `trackStartup`, the recover handler) -/

/-- The default of the variable `PRIVATE_KEY` (line 267). -/
def defaultPrivateKey : String :=
  "ac0974bec39a17e36ba4a6b4d238ff944bacb478cbed5efcae784d7bf4f2ff80"

def manualCtfCleanupMsg : String :=
  "unexpected startup error. this may have stranded resources. please manually remove containers with 'ctf' label and delete their volumes"

def manualBeholderCleanupMsg : String :=
  "unexpected startup error. this may have stranded resources. please manually remove the 'chip-ingress' stack"

/-- The part of a list of characters before the first separator, and the part
after it. -/
def cutAt (sep : Char) : List Char → Option (List Char × List Char)
  | [] => none
  | c :: cs =>
    if c = sep then some ([], cs)
    else
      match cutAt sep cs with
      | none => none
      | some (a, b) => some (c :: a, b)

/-- At most `k` cuts at the separator; the last piece is the unsplit rest. -/
def splitAtMost (sep : Char) : Nat → List Char → List (List Char)
  | 0, s => [s]
  | k + 1, s =>
    match cutAt sep s with
    | none => [s]
    | some (a, rest) => a :: splitAtMost sep k rest

/-- Go `strings.SplitN` for a separator of one character: no piece for
`n = 0`, at most `n` pieces for `n > 0`, all pieces for `n < 0`. -/
def SplitN (s : String) (sep : Char) (n : Int) : List String :=
  if n = 0 then []
  else if n < 0 then (splitAtMost sep s.length s.toList).map String.mk
  else (splitAtMost sep (n.toNat - 1) s.toList).map String.mk

/-- The index expression `xs[0]`. -/
def index0 {α : Type} : List α → Outcome α
  | [] => .panic indexOutOfRange0
  | x :: _ => .ret x

/-- The text reported to telemetry for an error message:
`strings.SplitN(msg, "\n", 1)[0]`. -/
def telemetryErrText (msg : String) : Outcome String :=
  index0 (SplitN msg '\n' 1)

/-- The inner loop of `hasBuiltDockerImage` with its `break`. -/
def hasBuiltInNodeSpecs : Bool → List NodeSpec → Bool
  | hasBuilt, [] => hasBuilt
  | hasBuilt, nodeSpec :: rest =>
    match nodeSpec.Node with
    | some node => if node.DockerFilePath ≠ "" then true else hasBuiltInNodeSpecs hasBuilt rest
    | none => hasBuiltInNodeSpecs hasBuilt rest

/-- The function `hasBuiltDockerImage`. -/
def hasBuiltDockerImage (cfg : Config) (withPluginsDockerImageFlag : String) : Bool :=
  if withPluginsDockerImageFlag ≠ "" then false
  else cfg.NodeSets.foldl (fun hasBuilt nodeset => hasBuiltInNodeSpecs hasBuilt nodeset.NodeSpecs)
    false

/-- The flags of the start command. -/
structure StartFlags where
  topology : String
  extraAllowedGatewayPorts : List Int
  withExampleFlag : Bool
  exampleWorkflowTrigger : String
  exampleWorkflowTimeout : Nat
  withPluginsDockerImage : String
  doSetup : Bool
  cleanupWait : Nat
  withBeholder : Bool
  protoConfigs : List String
  deriving DecidableEq, Repr

/-- The collaborators of the start command. `getenvCTF` and `getenvPrivateKey`
are the environment variables on entry; `start` gives the collaborators of
`StartCLIEnvironment` (its `CTF_CONFIGS` is replaced by the value the command
leaves in the variable). `protoRegistrationErrMsg` and `DEFAULT_STACK_NAME`
are constants declared outside the sources. -/
structure RunEnv where
  start : StartEnv
  getenvCTF : String
  getenvPrivateKey : String
  RunSetup : GoError
  Setenv : String → String → GoError
  Load : Except GoErr Config
  Track : String → List (String × PropValue) → GoError
  elapsedSeconds : Nat
  RemoveTestContainers : GoError
  RemoveTestStack : String → GoError
  PrepareCRECLISettingsFile : String → Nat → Nat → List (Nat × String) → Except GoErr String
  Getwd : Except GoErr String
  ReadFile : String → Except GoErr String
  WriteFile : String → String → GoError
  startBeholder : GoError
  protoRegistrationErrMsg : String
  DEFAULT_STACK_NAME : String
  deployAndVerifyExampleWorkflow : GoError

/-- The events of `if err != nil { ... }` where the body only reports the
error: the event `report e` for an error `e`, nothing for nil. -/
def whenErr (err : GoError) (report : GoErr → Event) : List Event :=
  match err with
  | some e => [report e]
  | none => []

/-- The function `trackStartup`: the events it emits and the error it
returns. -/
def trackStartup (env : RunEnv) (success hasBuiltDockerImage : Bool) (infraType : String)
    (errorMessage : Option String) (panicked : Option Bool) : List Event × GoError :=
  let metadata : List (String × PropValue) :=
    [("success", .bool success), ("infra", .str infraType)] ++
    (match errorMessage with
     | some m => [("error", .str m)]
     | none => []) ++
    (match panicked with
     | some b => [("panicked", .bool b)]
     | none => [])
  let first : List Event :=
    [.track "cre.local.startup.result" metadata] ++
    whenErr (env.Track "cre.local.startup.result" metadata)
      (fun dxStartupErr => .stderr ("failed to track startup: " ++ dxStartupErr.Error ++ "\n"))
  if success then
    let props : List (String × PropValue) :=
      [("duration_seconds", .num env.elapsedSeconds),
       ("has_built_docker_image", .bool hasBuiltDockerImage)]
    (first ++ [.track "cre.local.startup.time" props] ++
      whenErr (env.Track "cre.local.startup.time" props)
        (fun dxTimeErr => .stderr ("failed to track startup time: " ++ dxTimeErr.Error ++ "\n")),
      none)
  else (first, none)

/-- The events of a call of `trackStartup` at a call site, followed by the
message the call site prints when the call returns an error. -/
def trackStartupAt (env : RunEnv) (success hasBuiltDockerImage : Bool) (infraType : String)
    (errorMessage : Option String) (panicked : Option Bool) : List Event :=
  let r := trackStartup env success hasBuiltDockerImage infraType errorMessage panicked
  r.1 ++ whenErr r.2 (fun dxErr => .stderr ("failed to track startup: " ++ dxErr.Error ++ "\n"))

/-- The assignment `m[k] = v` of a map keyed by chain selectors. -/
def rpcSet (m : List (Nat × String)) (k : Nat) (v : String) : List (Nat × String) :=
  if m.any (fun e => e.1 == k) then m.map (fun e => if e.1 = k then (k, v) else e)
  else m ++ [(k, v)]

/-- The loop of `StartCmdGenerateSettingsFile` that collects the RPC endpoint
of the first node of every chain. -/
def collectRpcs : List WrappedBlockchainOutput → List (Nat × String) →
    Outcome (List (Nat × String))
  | [], rpcs => .ret rpcs
  | bcOut :: rest, rpcs =>
    match bcOut.Nodes with
    | [] => .panic indexOutOfRange0
    | node :: _ => collectRpcs rest (rpcSet rpcs bcOut.ChainSelector node.ExternalHTTPUrl)

/-- What a step of the start command leaves behind. -/
structure RunResult where
  trace : List Event
  outcome : Outcome GoError

/-- The function `StartCmdGenerateSettingsFile`. -/
def StartCmdGenerateSettingsFile (env : RunEnv) (homeChainOut : WrappedBlockchainOutput)
    (output : SetupOutput) : RunResult :=
  match collectRpcs output.BlockchainOutput [] with
  | .panic p => { trace := [], outcome := .panic p }
  | .ret rpcs =>
    match env.PrepareCRECLISettingsFile homeChainOut.RootKeyAddress output.WorkflowDonID
        homeChainOut.ChainSelector rpcs with
    | .error settingsErr =>
      { trace := [.prepareCRECLISettingsFile], outcome := .ret (some settingsErr) }
    | .ok fileName =>
      match env.Getwd with
      | .error cErr => { trace := [.prepareCRECLISettingsFile], outcome := .ret (some cErr) }
      | .ok currentDir =>
        let targetPath := filepath.Join [currentDir, "cre.yaml"]
        match env.ReadFile fileName with
        | .error err => { trace := [.prepareCRECLISettingsFile], outcome := .ret (some err) }
        | .ok input =>
          match env.WriteFile targetPath input with
          | some err =>
            { trace := [.prepareCRECLISettingsFile, .writeFile targetPath input],
              outcome := .ret (some err) }
          | none =>
            { trace := [.prepareCRECLISettingsFile, .writeFile targetPath input,
                .stdout ("CRE CLI settings file created: " ++ targetPath ++ "\n\n")],
              outcome := .ret none }

/-- The function `StartCmdRecoverHandlerFunc`: the events it emits for the
recovered value `p` (`none` when nothing panicked). -/
def StartCmdRecoverHandlerFunc (env : RunEnv) (p : Option PanicValue) (cleanupWait : Nat) :
    List Event :=
  match p with
  | none => []
  | some pv =>
    let report : List Event × Outcome String :=
      match pv with
      | .err err =>
        ([.stderr ("Error: " ++ err.Error ++ "\n"), .stackTrace], telemetryErrText err.Error)
      | .value rendered =>
        ([.stderr ("panic: " ++ rendered ++ "\n"), .stackTrace], telemetryErrText rendered)
    match report.2 with
    | .panic _ => [.stdout "Panicked when starting environment\n"] ++ report.1
    | .ret errText =>
      let props : List (String × PropValue) :=
        [("success", .bool false), ("error", .str errText), ("panicked", .bool true)]
      [.stdout "Panicked when starting environment\n"] ++ report.1 ++
      [.track "startup.result" props] ++
      whenErr (env.Track "startup.result" props)
        (fun tracingErr => .stderr ("failed to track startup: " ++ tracingErr.Error ++ "\n")) ++
      [.waitToCleanUp cleanupWait, .removeTestContainers] ++
      whenErr env.RemoveTestContainers
        (fun removeErr => .stderr (GoErr.wrap removeErr manualCtfCleanupMsg).Error)

/-- Lines 291-307 of the run function: the failure path after
`StartCLIEnvironment` returned `startErr`; `cfg` is the request as the call
left it. -/
def startFailurePath (env : RunEnv) (f : StartFlags) (cfg : Config) (startErr : GoErr)
    (before : List Event) : RunResult :=
  let t1 := before ++ [.stderr ("Error: " ++ startErr.Error ++ "\n"), .stackTrace]
  match telemetryErrText startErr.Error with
  | .panic p => { trace := t1, outcome := .panic p }
  | .ret errText =>
    let t2 := t1 ++
      trackStartupAt env false (hasBuiltDockerImage cfg f.withPluginsDockerImage)
        cfg.Infra.InfraType (some errText) (some false) ++
      [.waitToCleanUp f.cleanupWait, .removeTestContainers]
    match env.RemoveTestContainers with
    | some removeErr =>
      { trace := t2, outcome := .ret (some (.wrap removeErr manualCtfCleanupMsg)) }
    | none =>
      { trace := t2, outcome := .ret (some (.wrap startErr "failed to start environment")) }

/-- Lines 340-352 of the run function: the example workflow and the final
messages. -/
def startExampleAndFinish (env : RunEnv) (f : StartFlags)
    (homeChainOut : WrappedBlockchainOutput) (before : List Event) : RunResult :=
  if f.withExampleFlag then
    match homeChainOut.Nodes with
    | [] => { trace := before, outcome := .panic indexOutOfRange0 }
    | _ :: _ =>
      let t1 := before ++ [.deployExampleWorkflow] ++
        whenErr env.deployAndVerifyExampleWorkflow (fun deployErr =>
          .stdout ("Failed to deploy and verify example workflow: " ++ deployErr.Error ++ "\n"))
      { trace := t1 ++ [.stdout "To terminate execute:`go run . env stop`\n\n"],
        outcome := .ret none }
  else
    { trace := before ++ [.stdout "To terminate execute:`go run . env stop`\n\n"],
      outcome := .ret none }

/-- Lines 309-352 of the run function: the path after `StartCLIEnvironment`
returned `output` and a nil error. -/
def startSuccessPath (env : RunEnv) (f : StartFlags) (cfg : Config)
    (output : Option SetupOutput) (before : List Event) : RunResult :=
  match output with
  | none => { trace := before, outcome := .panic nilDereference }
  | some out =>
    match out.BlockchainOutput with
    | [] => { trace := before, outcome := .panic indexOutOfRange0 }
    | homeChainOut :: _ =>
      let settings := StartCmdGenerateSettingsFile env homeChainOut out
      match settings.outcome with
      | .panic p => { trace := before ++ settings.trace, outcome := .panic p }
      | .ret sErr =>
        let t1 := before ++ settings.trace ++
          whenErr sErr (fun e =>
            .stderr ("failed to create CRE CLI settings file: " ++ e.Error ++
              ". You need to create it manually.")) ++
          trackStartupAt env true (hasBuiltDockerImage cfg f.withPluginsDockerImage)
            out.InfraType none none
        if f.withBeholder then
          match env.startBeholder with
          | some startBeholderErr =>
            let t2 := t1 ++ [.startBeholder] ++
              (if stringsContains startBeholderErr.Error env.protoRegistrationErrMsg then []
               else
                 [.removeTestStack env.DEFAULT_STACK_NAME] ++
                 whenErr (env.RemoveTestStack env.DEFAULT_STACK_NAME) (fun beholderRemoveErr =>
                   .stderr (GoErr.wrap beholderRemoveErr manualBeholderCleanupMsg).Error))
            { trace := t2, outcome := .ret (some (.wrap startBeholderErr "failed to start Beholder")) }
          | none => startExampleAndFinish env f homeChainOut (t1 ++ [.startBeholder])
        else startExampleAndFinish env f homeChainOut t1

/-- The value of `CTF_CONFIGS` that `defaultCtfConfigs` sets when the variable
is empty. -/
def defaultCtfConfigsValue (topologyFlag : String) : String :=
  if topologyFlag = TopologySimplified then "configs/single-don.toml"
  else "configs/workflow-capabilities-don.toml"

/-- Lines 280-290 and on: the configuration is loaded and validated, then
`StartCLIEnvironment` is called with no extra binaries and no extra job-spec
factories; `ctf` is the value of `CTF_CONFIGS` at that point. -/
def loadAndStart (env : RunEnv) (f : StartFlags) (ctf : String) (before : List Event) :
    RunResult :=
  match env.Load with
  | .error err =>
    { trace := before ++ [.load],
      outcome := .ret (some (.wrap err "failed to load test configuration")) }
  | .ok cfg =>
    match cfg.Validate with
    | some err =>
      { trace := before ++ [.load],
        outcome := .ret (some (.wrap err "failed to validate test configuration")) }
    | none =>
      let started := StartCLIEnvironment { env.start with CTF_CONFIGS := ctf } cfg f.topology
        f.exampleWorkflowTrigger f.withPluginsDockerImage f.withExampleFlag
        f.extraAllowedGatewayPorts [] []
      let t1 := before ++ [.load] ++ started.trace
      match started.outcome with
      | .panic p => { trace := t1, outcome := .panic p }
      | .ret (_, some startErr) => startFailurePath env f started.cfg startErr t1
      | .ret (output, none) => startSuccessPath env f started.cfg output t1

/-- Lines 266-278 and on: the variables `PRIVATE_KEY` and
`TESTCONTAINERS_RYUK_DISABLED` are set. -/
def setVariablesAndStart (env : RunEnv) (f : StartFlags) (ctf : String)
    (before : List Event) : RunResult :=
  let defaultKey := defaultPrivateKey
  let ryuk (t : List Event) : RunResult :=
    match env.Setenv "TESTCONTAINERS_RYUK_DISABLED" "true" with
    | some setErr =>
      { trace := t ++ [.setenv "TESTCONTAINERS_RYUK_DISABLED" "true"],
        outcome := .ret (some (.wrap setErr
          "failed to set TESTCONTAINERS_RYUK_DISABLED environment variable")) }
    | none => loadAndStart env f ctf (t ++ [.setenv "TESTCONTAINERS_RYUK_DISABLED" "true"])
  if env.getenvPrivateKey = "" then
    match env.Setenv "PRIVATE_KEY" defaultKey with
    | some setErr =>
      { trace := before ++ [.setenv "PRIVATE_KEY" defaultKey],
        outcome := .ret (some (.wrap setErr "failed to set PRIVATE_KEY environment variable")) }
    | none =>
      ryuk (before ++ [.setenv "PRIVATE_KEY" defaultKey,
        .stdout ("Set PRIVATE_KEY environment variable to default value: " ++ defaultKey ++ "\n")])
  else ryuk before

/-- The body of the run function of the start command (lines 249-352),
without its deferred recover handler. -/
def startCmdBody (env : RunEnv) (f : StartFlags) : RunResult :=
  let afterSetup (t : List Event) : RunResult :=
    if f.topology ≠ TopologySimplified ∧ f.topology ≠ TopologyFull then
      { trace := t,
        outcome := .ret (some (.new ("invalid topology: " ++ f.topology ++
          ". Valid topologies are: " ++ TopologySimplified ++ ", " ++ TopologyFull))) }
    else if env.getenvCTF = "" then
      let v := defaultCtfConfigsValue f.topology
      match env.Setenv "CTF_CONFIGS" v with
      | some setErr =>
        { trace := t ++ [.printCRELogo, .setenv "CTF_CONFIGS" v],
          outcome := .ret (some (.wrap
            (.wrap setErr "failed to set CTF_CONFIGS environment variable")
            "failed to set default CTF configs")) }
      | none =>
        setVariablesAndStart env f v (t ++ [.printCRELogo, .setenv "CTF_CONFIGS" v,
          .stdout ("Set CTF_CONFIGS environment variable to default value: " ++ v ++ "\n")])
    else setVariablesAndStart env f env.getenvCTF (t ++ [.printCRELogo])
  if f.doSetup then
    match env.RunSetup with
    | some setupErr =>
      { trace := [.runSetup], outcome := .ret (some (.wrap setupErr "failed to run setup")) }
    | none => afterSetup [.runSetup]
  else afterSetup []

/-- What the run function of the start command leaves behind: the trace of
the body followed by that of the deferred handler, the error it returns to
its caller, and the panic it recovered from, if any. -/
structure StartCmdResult where
  trace : List Event
  returned : GoError
  recovered : Option PanicValue

/-- The run function of the start command (`RunE`, lines 243-353). Its result
is unnamed, so after the deferred handler recovered from a panic the function
returns the zero value of `error`. -/
def startCmdRunE (env : RunEnv) (f : StartFlags) : StartCmdResult :=
  let body := startCmdBody env f
  match body.outcome with
  | .ret err =>
    { trace := body.trace ++ StartCmdRecoverHandlerFunc env none f.cleanupWait,
      returned := err, recovered := none }
  | .panic p =>
    { trace := body.trace ++ StartCmdRecoverHandlerFunc env (some p) f.cleanupWait,
      returned := none, recovered := some p }

/-- The function `removeAllContainers` (lines 417-429): the events it emits
and the error it returns. The two removals are calls that return. -/
def removeAllContainers (env : RunEnv) : List Event × GoError :=
  ([.removeTestContainers] ++
    whenErr env.RemoveTestContainers
      (fun ctfRemoveErr => .stderr (GoErr.wrap ctfRemoveErr manualCtfCleanupMsg).Error) ++
    [.removeTestStack env.DEFAULT_STACK_NAME] ++
    whenErr (env.RemoveTestStack env.DEFAULT_STACK_NAME)
      (fun beholderRemoveErr =>
        .stderr (GoErr.wrap beholderRemoveErr manualBeholderCleanupMsg).Error),
   none)

/-- The run function of the stop command (`RunE`, lines 406-414): the events
it emits and the error it returns. -/
def stopCmdRunE (env : RunEnv) : List Event × GoError :=
  let removed := removeAllContainers env
  match removed.2 with
  | some removeErr =>
    (removed.1,
      some (.wrap removeErr
        "failed to remove environment containers. Please remove them manually"))
  | none => (removed.1 ++ [.stdout "Environment stopped successfully\n"], none)

/-! ## The action hash of the Hyperliquid changeset (`cs_enable_big_blocks.go`) -/

/-- The libraries that `ActionHash` calls and that are not among the sources:
the MessagePack encoder of an action (`codec.NewEncoder(..).Encode`), which
gives the bytes it writes or an error, and `crypto.Keccak256`. Bytes are
natural numbers below 256. -/
structure HashEnv (Action : Type) where
  msgpackEncode : Action → Except GoErr (List Nat)
  Keccak256 : List Nat → List Nat

/-- The conversion `uint64(n)` of an `int64`. -/
def uint64 (n : Int) : Nat :=
  (n % 2 ^ 64).toNat

/-- Go `binary.BigEndian.PutUint64` into a fresh slice of 8 bytes: the bytes
of `v`, most significant first. -/
def PutUint64 (v : Nat) : List Nat :=
  [v / 2 ^ 56 % 256, v / 2 ^ 48 % 256, v / 2 ^ 40 % 256, v / 2 ^ 32 % 256,
   v / 2 ^ 24 % 256, v / 2 ^ 16 % 256, v / 2 ^ 8 % 256, v % 256]

/-- The bytes of one character in a Go string (UTF-8). -/
def utf8Bytes (c : Char) : List Nat :=
  let n := c.toNat
  if n < 0x80 then [n]
  else if n < 0x800 then [0xC0 + n / 64, 0x80 + n % 64]
  else if n < 0x10000 then [0xE0 + n / 4096, 0x80 + n / 64 % 64, 0x80 + n % 64]
  else [0xF0 + n / 262144, 0x80 + n / 4096 % 64, 0x80 + n / 64 % 64, 0x80 + n % 64]

/-- The conversion of a Go string to a byte slice, as in
`hexutil.Bytes(*vaultAddress)`: the bytes of the string itself. -/
def stringBytes (s : String) : List Nat :=
  s.toList.flatMap utf8Bytes

/-- The function `ActionHash` (lines 241-269); `vaultAddress` is `none` for a
nil pointer, the result is the hash or the error returned with a nil slice. -/
def ActionHash {Action : Type} (env : HashEnv Action) (action : Action)
    (vaultAddress : Option String) (nonce : Int) : Except GoErr (List Nat) :=
  match env.msgpackEncode action with
  | .error err => .error (.wrap err "error encoding action")
  | .ok encoded =>
    if nonce < 0 then
      .error (.new ("nonce must be non-negative, got " ++ toString nonce))
    else
      let buf := encoded ++ PutUint64 (uint64 nonce)
      match vaultAddress with
      | none => .ok (env.Keccak256 (buf ++ [0x00]))
      | some address => .ok (env.Keccak256 (buf ++ [0x01] ++ stringBytes address))

/-! ## Auxiliary definitions for the statements -/

/-- The request with the CSA encryption key replaced. -/
def Config.withKey (cfg : Config) (key : String) : Config :=
  { cfg with JD := { cfg.JD with CSAEncryptionKey := key } }

/-- The request as the planning stages leave it: its node sets are those of
the descriptors. -/
def Config.withNodeSetsOf (cfg : Config) (sets : List CapabilitiesAwareNodeSet) : Config :=
  { cfg with NodeSets := sets.map (fun s => s.Input) }

/-- The run function of the start command gets as far as its call of
`StartCLIEnvironment`, with the request `cfg`: the setup, if asked for,
succeeds, the topology flag is one of the two valid ones, the environment
variables can be set, and the configuration loads as `cfg` and is valid. -/
def ReachesStart (env : RunEnv) (f : StartFlags) (cfg : Config) : Prop :=
  (f.doSetup = true → env.RunSetup = none) ∧
  (f.topology = TopologySimplified ∨ f.topology = TopologyFull) ∧
  (env.getenvCTF = "" → env.Setenv "CTF_CONFIGS" (defaultCtfConfigsValue f.topology) = none) ∧
  (env.getenvPrivateKey = "" → env.Setenv "PRIVATE_KEY" defaultPrivateKey = none) ∧
  env.Setenv "TESTCONTAINERS_RYUK_DISABLED" "true" = none ∧
  env.Load = .ok cfg ∧
  cfg.Validate = none

/-- The value of `CTF_CONFIGS` when the run function calls
`StartCLIEnvironment`. -/
def ctfAtStart (env : RunEnv) (f : StartFlags) : String :=
  if env.getenvCTF = "" then defaultCtfConfigsValue f.topology else env.getenvCTF

/-- The call of `StartCLIEnvironment` that the run function makes on the
request `cfg` (line 290). -/
def startCallOf (env : RunEnv) (f : StartFlags) (cfg : Config) : StartResult :=
  StartCLIEnvironment { env.start with CTF_CONFIGS := ctfAtStart env f } cfg f.topology
    f.exampleWorkflowTrigger f.withPluginsDockerImage f.withExampleFlag
    f.extraAllowedGatewayPorts [] []

/-- The events of the run function before its call of `StartCLIEnvironment`,
on a run that gets that far. -/
def preStartTrace (env : RunEnv) (f : StartFlags) : List Event :=
  (if f.doSetup then [.runSetup] else []) ++
  (if env.getenvCTF = "" then
    [.printCRELogo, .setenv "CTF_CONFIGS" (defaultCtfConfigsValue f.topology),
     .stdout ("Set CTF_CONFIGS environment variable to default value: " ++
       defaultCtfConfigsValue f.topology ++ "\n")]
   else [.printCRELogo]) ++
  (if env.getenvPrivateKey = "" then
    [.setenv "PRIVATE_KEY" defaultPrivateKey,
     .stdout ("Set PRIVATE_KEY environment variable to default value: " ++
       defaultPrivateKey ++ "\n")]
   else []) ++
  [.setenv "TESTCONTAINERS_RYUK_DISABLED" "true", .load]

/-- The run function after its call of `StartCLIEnvironment` (lines 291-352):
the failure path, the success path, or the panic of the call. -/
def afterStart (env : RunEnv) (f : StartFlags) (started : StartResult) (before : List Event) :
    RunResult :=
  match started.outcome with
  | .panic p => { trace := before ++ started.trace, outcome := .panic p }
  | .ret (_, some startErr) =>
    startFailurePath env f started.cfg startErr (before ++ started.trace)
  | .ret (output, none) => startSuccessPath env f started.cfg output (before ++ started.trace)

/-- The job-spec factories the code registers for one chain (lines 623-635):
a log-event-trigger factory and a read-contract factory, each with the chain
ID as parsed and the binary path inside the container. -/
def chainJobSpecFactories (containerPath logEventTriggerBinaryName readContractBinaryName : String)
    (b : WrappedBlockchainInput) : List JobSpecFactory :=
  match Atoi b.ChainID with
  | .ok chainID =>
    [.LogEventTrigger chainID "evm" (filepath.Join [containerPath, logEventTriggerBinaryName]),
     .ReadContract chainID "evm" (filepath.Join [containerPath, readContractBinaryName])]
  | .error _ => []

/-- The six built-in job-spec factories of the literal of lines 599-607. -/
def builtinJobSpecFactories (homeChainID : Nat) (containerPath cronBinaryName : String)
    (extraAllowedGatewayPorts : List Int) : List JobSpecFactory :=
  [.WebAPITrigger, .WebAPITarget, .Consensus homeChainID,
   .Cron (filepath.Join [containerPath, cronBinaryName]),
   .Gateway extraAllowedGatewayPorts [] ["0.0.0.0/0"],
   .Compute]

/-- The part of a descriptor that the override by the shared image does not
touch: name and number of node specs of the node set, capabilities, DON roles
and the two node indices. -/
def descriptorFrame (s : CapabilitiesAwareNodeSet) :
    String × Nat × List String × List String × Int × Int :=
  (s.Input.Name, s.Input.NodeSpecs.length, s.Capabilities, s.DONTypes, s.BootstrapNodeIndex,
    s.GatewayNodeIndex)

/-- The node input that the override by the shared image leaves in every node
spec: the shared image and no build directives. -/
def sharedImageNode (img : String) : NodeInput :=
  { Image := img, DockerContext := "", DockerFilePath := "" }

/-- Whether an event is a call of the telemetry tracker. -/
def Event.isTrack : Event → Bool
  | .track _ _ => true
  | _ => false

/-- The collaborators with the telemetry tracker replaced. -/
def RunEnv.withTrack (env : RunEnv) (track : String → List (String × PropValue) → GoError) :
    RunEnv :=
  { env with Track := track }

/-- The output that `StartDONs` records for a node group whose node set was
created as `o`. -/
def wrapNodeOutput (s : CapabilitiesAwareNodeSet) (o : NodeSetOutput) : WrappedNodeOutput :=
  { Output := o, NodeSetName := s.Input.Name, Capabilities := s.Capabilities }

/-- The property names of a telemetry call; no names for any other event. -/
def Event.propertyKeys : Event → List String
  | .track _ props => props.map Prod.fst
  | _ => []

/-- The first line of a message: its characters before the first newline. -/
def firstLine (msg : String) : String :=
  String.mk (msg.toList.takeWhile (fun c => c ≠ '\n'))

/-- The number that a sequence of bytes denotes when read most significant
byte first. -/
def bigEndianValue (bs : List Nat) : Nat :=
  bs.foldl (fun acc b => acc * 256 + b) 0

/-! ## Statements of the specification, for comparison with the code -/

/-- The capability factories the specification registers for one chain: a
write factory only if the chain is not marked read-only, a read-contract and a
log-event-trigger factory unconditionally. -/
def chainCapabilityFactories (b : WrappedBlockchainInput) : List CapabilityFactory :=
  match Atoi b.ChainID with
  | .ok chainID =>
    (if b.ReadOnly then [] else [.WriteEVM chainID.toNat]) ++
      [.ReadContract chainID.toNat "evm", .LogEventTrigger chainID.toNat "evm"]
  | .error _ => []

/-- Whether a capability factory is a write-EVM factory. -/
def CapabilityFactory.isWriteEVM : CapabilityFactory → Bool
  | .WriteEVM _ => true
  | _ => false

/-- Whether a capability factory is a read-contract factory. -/
def CapabilityFactory.isReadContract : CapabilityFactory → Bool
  | .ReadContract _ _ => true
  | _ => false

/-- Whether a capability factory is a log-event-trigger factory. -/
def CapabilityFactory.isLogEventTrigger : CapabilityFactory → Bool
  | .LogEventTrigger _ _ => true
  | _ => false

/-! ## Example inputs -/

/-- A request with no optional capability binary, one writable and one
read-only chain, and the given node sets. -/
def exampleConfig (nodeSets : List NsInput) : Config :=
  { Blockchains := [{ ChainID := "1337", ReadOnly := false }, { ChainID := "2337", ReadOnly := true }],
    NodeSets := nodeSets,
    JD := { Image := "job-distributor:0.12.7", CSAEncryptionKey := "", Out := none },
    Infra := { InfraType := "docker", CRIB := { Namespace := "" } },
    ExtraCapabilities :=
      { CronCapabilityBinaryPath := "", LogEventTriggerBinaryPath := "",
        ReadContractBinaryPath := "" },
    S3ProviderInput := none }

/-- The example request with a cron binary configured. -/
def exampleConfigCron (nodeSets : List NsInput) : Config :=
  { Blockchains := [{ ChainID := "1337", ReadOnly := false }, { ChainID := "2337", ReadOnly := true }],
    NodeSets := nodeSets,
    JD := { Image := "job-distributor:0.12.7", CSAEncryptionKey := "", Out := none },
    Infra := { InfraType := "docker", CRIB := { Namespace := "" } },
    ExtraCapabilities :=
      { CronCapabilityBinaryPath := "/usr/local/bin/cron", LogEventTriggerBinaryPath := "",
        ReadContractBinaryPath := "" },
    S3ProviderInput := none }

/-- A node set of one node that is built from a Dockerfile. -/
def exampleNodeSet (name : String) : NsInput :=
  { Name := name,
    NodeSpecs := [{ Node := some { Image := "", DockerContext := "../../../..",
                                   DockerFilePath := "plugins/chainlink.Dockerfile" } }] }

/-- A provisioning result with one chain of one node. -/
def exampleOutput : SetupOutput :=
  { BlockchainOutput :=
      [{ ChainSelector := 3379446385462418246, ChainID := 1337,
         Nodes := [{ ExternalHTTPUrl := "http://localhost:8545" }],
         RootKeyAddress := "0xf39Fd6e51aad88F6F4ce6aB8827279cffFb92266" }],
    WorkflowDonID := 1, GatewayURL := "http://localhost:5002/", InfraType := "docker" }

/-- Collaborators of `StartCLIEnvironment` that all succeed; the key
generator yields the bytes 0, 1, ..., 31. -/
def exampleStartEnv : StartEnv :=
  { CTF_CONFIGS := "configs/single-don.toml",
    DefaultContainerDirectory := fun _ => .ok "/home/capabilities",
    GenerateKey := .ok (List.range 32),
    SetupTestEnvironment := fun _ => .ok exampleOutput }

/-- The input that `StartCLIEnvironment` hands to the provider for the
example request with one node set, the simplified topology and no flag set. -/
def exampleSetupInput : SetupInput :=
  { CapabilitiesAwareNodeSets :=
      [{ Input := exampleNodeSet "workflow",
         Capabilities := ["ocr3", "custom-compute", "write-evm", "web-api-trigger",
           "web-api-target"],
         DONTypes := ["workflow", "gateway"], BootstrapNodeIndex := 0, GatewayNodeIndex := 0 }],
    CapabilitiesContractFactoryFunctions :=
      [.WebAPITrigger, .WebAPITarget, .Compute, .OCR3, .Cron,
       .WriteEVM 1337, .ReadContract 1337 "evm", .LogEventTrigger 1337 "evm",
       .ReadContract 2337 "evm", .LogEventTrigger 2337 "evm"],
    BlockchainsInput :=
      [{ ChainID := "1337", ReadOnly := false }, { ChainID := "2337", ReadOnly := true }],
    JdInput :=
      { Image := "job-distributor:0.12.7",
        CSAEncryptionKey := "000102030405060708090a0b0c0d0e0f101112131415161718191a1b1c1d1e1f",
        Out := none },
    InfraInput := { InfraType := "docker", CRIB := { Namespace := "" } },
    JobSpecFactoryFunctions :=
      [.WebAPITrigger, .WebAPITarget, .Consensus 1337, .Cron "/home/capabilities",
       .Gateway [] [] ["0.0.0.0/0"], .Compute,
       .LogEventTrigger 1337 "evm" "/home/capabilities",
       .ReadContract 1337 "evm" "/home/capabilities",
       .LogEventTrigger 2337 "evm" "/home/capabilities",
       .ReadContract 2337 "evm" "/home/capabilities"],
    ConfigFactoryFunctions := [.GatewayGenerateConfig],
    S3ProviderInput := none,
    CustomBinariesPaths := some [] }

/-- The example request as a configuration file gives it: with a CSA
encryption key, as validation demands. -/
def exampleLoadedConfig : Config :=
  { Blockchains := [{ ChainID := "1337", ReadOnly := false }, { ChainID := "2337", ReadOnly := true }],
    NodeSets := [exampleNodeSet "workflow"],
    JD := { Image := "job-distributor:0.12.7",
            CSAEncryptionKey := "d1093c0060d50a3c89c189b2e485da5a3ce57f3dcb38ab7e2c0d5f0bb2314a44",
            Out := none },
    Infra := { InfraType := "docker", CRIB := { Namespace := "" } },
    ExtraCapabilities :=
      { CronCapabilityBinaryPath := "", LogEventTriggerBinaryPath := "",
        ReadContractBinaryPath := "" },
    S3ProviderInput := none }

/-- The default flags of the start command. -/
def exampleFlags : StartFlags :=
  { topology := "simplified", extraAllowedGatewayPorts := [], withExampleFlag := false,
    exampleWorkflowTrigger := "web-trigger", exampleWorkflowTimeout := 300,
    withPluginsDockerImage := "", doSetup := false, cleanupWait := 15,
    withBeholder := false, protoConfigs := ["./proto-configs/default.toml"] }

/-- Collaborators of the start command: everything succeeds but the
provisioning call, which does `provider`, and the removal of the containers,
which returns `removal`. -/
def exampleRunEnv (provider : ProviderResult) (removal : GoError) : RunEnv :=
  { start :=
      { CTF_CONFIGS := "",
        DefaultContainerDirectory := fun _ => .ok "/home/capabilities",
        GenerateKey := .ok (List.range 32),
        SetupTestEnvironment := fun _ => provider },
    getenvCTF := "", getenvPrivateKey := "",
    RunSetup := none,
    Setenv := fun _ _ => none,
    Load := .ok exampleLoadedConfig,
    Track := fun _ _ => none,
    elapsedSeconds := 95,
    RemoveTestContainers := removal,
    RemoveTestStack := fun _ => none,
    PrepareCRECLISettingsFile := fun _ _ _ _ => .ok "/tmp/cre-settings.yaml",
    Getwd := .ok "/work",
    ReadFile := fun _ => .ok "settings",
    WriteFile := fun _ _ => none,
    startBeholder := none,
    protoRegistrationErrMsg := "proto registration failed",
    DEFAULT_STACK_NAME := "chip-ingress",
    deployAndVerifyExampleWorkflow := none }

/-- The example collaborators with a configuration whose only node spec has
no `node` table, so that its `Node` is nil. -/
def exampleRunEnvNilNode : RunEnv :=
  { exampleRunEnv (.ok exampleOutput) none with
    Load := .ok
      { exampleLoadedConfig with
        NodeSets := [{ Name := "workflow", NodeSpecs := [{ Node := none }] }] } }

/-- The default flags with a shared plugins image. -/
def exampleFlagsWithImage : StartFlags :=
  { exampleFlags with withPluginsDockerImage := "chainlink:plugins" }

/-- The input that `StartCLIEnvironment` hands to the provider for the
example request when the caller supplies the two job-spec factories
`Extension 1` and `Extension 2`. -/
def exampleSetupInputWithExtensions : SetupInput :=
  { exampleSetupInput with
    JobSpecFactoryFunctions :=
      [.WebAPITrigger, .WebAPITarget, .Consensus 1337, .Cron "/home/capabilities",
       .Gateway [] [] ["0.0.0.0/0"], .Compute,
       .Extension 1, .Extension 2,
       .LogEventTrigger 1337 "evm" "/home/capabilities",
       .ReadContract 1337 "evm" "/home/capabilities",
       .LogEventTrigger 2337 "evm" "/home/capabilities",
       .ReadContract 2337 "evm" "/home/capabilities"] }

/-- The input that `StartCLIEnvironment` hands to the provider for the
example request under the shared image `chainlink:plugins`. -/
def exampleSetupInputWithImage : SetupInput :=
  { CapabilitiesAwareNodeSets :=
      [{ Input :=
           { Name := "workflow",
             NodeSpecs := [{ Node := some { Image := "chainlink:plugins", DockerContext := "",
                                            DockerFilePath := "" } }] },
         Capabilities := ["ocr3", "custom-compute", "write-evm", "web-api-trigger",
           "web-api-target", "cron", "log-event-trigger", "read-contract"],
         DONTypes := ["workflow", "gateway"], BootstrapNodeIndex := 0, GatewayNodeIndex := 0 }],
    CapabilitiesContractFactoryFunctions :=
      [.WebAPITrigger, .WebAPITarget, .Compute, .OCR3, .Cron,
       .WriteEVM 1337, .ReadContract 1337 "evm", .LogEventTrigger 1337 "evm",
       .ReadContract 2337 "evm", .LogEventTrigger 2337 "evm"],
    BlockchainsInput :=
      [{ ChainID := "1337", ReadOnly := false }, { ChainID := "2337", ReadOnly := true }],
    JdInput :=
      { Image := "job-distributor:0.12.7",
        CSAEncryptionKey := "000102030405060708090a0b0c0d0e0f101112131415161718191a1b1c1d1e1f",
        Out := none },
    InfraInput := { InfraType := "docker", CRIB := { Namespace := "" } },
    JobSpecFactoryFunctions :=
      [.WebAPITrigger, .WebAPITarget, .Consensus 1337, .Cron "/home/capabilities/cron",
       .Gateway [] [] ["0.0.0.0/0"], .Compute,
       .LogEventTrigger 1337 "evm" "/home/capabilities/log-event-trigger",
       .ReadContract 1337 "evm" "/home/capabilities/readcontract",
       .LogEventTrigger 2337 "evm" "/home/capabilities/log-event-trigger",
       .ReadContract 2337 "evm" "/home/capabilities/readcontract"],
    ConfigFactoryFunctions := [.GatewayGenerateConfig],
    S3ProviderInput := none,
    CustomBinariesPaths := none }

/-- The input that `StartCLIEnvironment` hands to the provider for the
example request with the cron binary `/usr/local/bin/cron` and no shared
image. -/
def exampleSetupInputWithCron : SetupInput :=
  { exampleSetupInput with
    CapabilitiesAwareNodeSets :=
      [{ Input := exampleNodeSet "workflow",
         Capabilities := ["ocr3", "custom-compute", "write-evm", "web-api-trigger",
           "web-api-target", "cron"],
         DONTypes := ["workflow", "gateway"], BootstrapNodeIndex := 0, GatewayNodeIndex := 0 }],
    JobSpecFactoryFunctions :=
      [.WebAPITrigger, .WebAPITarget, .Consensus 1337, .Cron "/home/capabilities/cron",
       .Gateway [] [] ["0.0.0.0/0"], .Compute,
       .LogEventTrigger 1337 "evm" "/home/capabilities",
       .ReadContract 1337 "evm" "/home/capabilities",
       .LogEventTrigger 2337 "evm" "/home/capabilities",
       .ReadContract 2337 "evm" "/home/capabilities"],
    CustomBinariesPaths := some [("cron", "/usr/local/bin/cron")] }

/-- Collaborators of `StartJD` and `StartDONs` on the local infrastructure:
the Job Distributor starts, every node set fails to start with `nodeSetErr`. -/
def exampleJobsEnv (nodeSetErr : GoErr) : JobsEnv :=
  { DeployJd := fun _ _ => .ok { ExternalAddress := "jd.crib.local:443" },
    CreateJobDistributor := fun _ => .ok { ExternalAddress := "localhost:14231" },
    DeployDons := fun sets _ => .ok sets,
    NewSharedDBNodeSet := fun _ => .error nodeSetErr }

/-- The descriptor of the example node set `workflow` with the mandatory
capabilities. -/
def exampleDescriptor : CapabilitiesAwareNodeSet :=
  { Input := exampleNodeSet "workflow",
    Capabilities := ["ocr3", "custom-compute", "write-evm", "web-api-trigger", "web-api-target"],
    DONTypes := ["workflow", "gateway"], BootstrapNodeIndex := 0, GatewayNodeIndex := 0 }

/-- The example collaborators, all succeeding, except that the settings file
cannot be written to the current directory. -/
def exampleRunEnvReadOnlyDir : RunEnv :=
  { exampleRunEnv (.ok exampleOutput) none with
    WriteFile := fun _ _ => some (.new "open /work/cre.yaml: permission denied") }

/-- Collaborators of `StartJD` on the local infrastructure whose Job
Distributor provider fails with `jdErr`. -/
def exampleJobsEnvJDFails (jdErr : GoErr) : JobsEnv :=
  { DeployJd := fun _ _ => .ok { ExternalAddress := "jd.crib.local:443" },
    CreateJobDistributor := fun _ => .error jdErr,
    DeployDons := fun sets _ => .ok sets,
    NewSharedDBNodeSet := fun _ => .ok { ExternalEndpoints := ["http://localhost:6688"] } }

/-- Collaborators of `StartDONs` on the local infrastructure: every node set
starts, except the one named `gateway`, whose port is taken. -/
def exampleJobsEnvGatewayFails : JobsEnv :=
  { DeployJd := fun _ _ => .ok { ExternalAddress := "jd.crib.local:443" },
    CreateJobDistributor := fun _ => .ok { ExternalAddress := "localhost:14231" },
    DeployDons := fun sets _ => .ok sets,
    NewSharedDBNodeSet := fun input =>
      if input.Name = "gateway" then .error (.new "port 5002 already allocated")
      else .ok { ExternalEndpoints := ["http://" ++ input.Name ++ ":6688"] } }

/-- A descriptor for the example node set of the given name. -/
def exampleDescriptorNamed (name : String) (capabilities : List String) :
    CapabilitiesAwareNodeSet :=
  { Input := exampleNodeSet name, Capabilities := capabilities, DONTypes := [name],
    BootstrapNodeIndex := -1, GatewayNodeIndex := 0 }

/-- The example collaborators with a configuration that has no CSA encryption
key. -/
def exampleRunEnvNoKey : RunEnv :=
  { exampleRunEnv (.ok exampleOutput) none with
    Load := .ok (exampleConfig [exampleNodeSet "workflow"]) }

/-- The example collaborators with both removals failing. -/
def exampleRunEnvRemovalsFail : RunEnv :=
  { exampleRunEnv (.ok exampleOutput) (some (.new "docker daemon unreachable")) with
    RemoveTestStack := fun _ => some (.new "no such stack") }

/-- A configuration of two node sets: the first has a node spec without a
`node` table and one with a prebuilt image, the second a node spec without a
`node` table and one that is built from a Dockerfile. -/
def exampleConfigMixedNodes : Config :=
  { exampleLoadedConfig with
    NodeSets :=
      [{ Name := "workflow",
         NodeSpecs := [{ Node := none },
           { Node := some { Image := "chainlink:2.24", DockerContext := "",
                            DockerFilePath := "" } }] },
       { Name := "capabilities",
         NodeSpecs := [{ Node := none },
           { Node := some { Image := "", DockerContext := "../../../..",
                            DockerFilePath := "plugins/chainlink.Dockerfile" } }] }] }

/-- An encoder for the example actions, maps from strings to strings with
fewer than 16 entries of fewer than 32 bytes each: the MessagePack `fixmap`
header and a `fixstr` for every key and value; anything larger is refused. -/
def exampleMsgpackEncode (action : List (String × String)) : Except GoErr (List Nat) :=
  if action.length < 16 ∧
      action.all (fun e => (stringBytes e.1).length < 32 ∧ (stringBytes e.2).length < 32) then
    .ok ((0x80 + action.length) ::
      action.flatMap (fun e =>
        ((0xa0 + (stringBytes e.1).length) :: stringBytes e.1) ++
        ((0xa0 + (stringBytes e.2).length) :: stringBytes e.2)))
  else .error (.new "msgpack encode error: unsupported value")

/-- Example libraries of `ActionHash`: the example encoder, and in the place
of the hash function a function that gives 32 bytes for every input. -/
def exampleHashEnv : HashEnv (List (String × String)) :=
  { msgpackEncode := exampleMsgpackEncode,
    Keccak256 := fun buf => (List.range 32).map (fun i => (buf.sum + i) % 256) }

/-- The input that `StartCLIEnvironment` hands to the provider for the
example request with three node sets and the full topology, no flag set. -/
def exampleSetupInputFull : SetupInput :=
  { exampleSetupInput with
    CapabilitiesAwareNodeSets :=
      [{ Input := exampleNodeSet "workflow",
         Capabilities := ["ocr3", "custom-compute", "web-api-trigger"],
         DONTypes := ["workflow"], BootstrapNodeIndex := 0, GatewayNodeIndex := 0 },
       { Input := exampleNodeSet "capabilities",
         Capabilities := ["write-evm", "web-api-target"],
         DONTypes := ["capabilities"], BootstrapNodeIndex := -1, GatewayNodeIndex := 0 },
       { Input := exampleNodeSet "gateway", Capabilities := [],
         DONTypes := ["gateway"], BootstrapNodeIndex := -1, GatewayNodeIndex := 0 }] }

/-! ## Facts about topology planning -/

theorem mem_addCapability_caps (img : String) (st : CapState) (name path x : String) :
    x ∈ (addCapability img st name path).caps ↔
      x ∈ st.caps ∨ (x = name ∧ (path ≠ "" ∨ img ≠ "")) := by
  unfold addCapability
  split
  next h => simp [h]
  next h => simp [h]

theorem mem_addExtraBinaries_caps (img : String) (extraBinaries : List (String × String))
    (st : CapState) (x : String) :
    x ∈ (addExtraBinaries img extraBinaries st).caps ↔
      x ∈ st.caps ∨ ∃ p, (x, p) ∈ extraBinaries ∧ (p ≠ "" ∨ img ≠ "") := by
  unfold addExtraBinaries
  induction extraBinaries generalizing st with
  | nil => simp
  | cons e rest ih =>
    rw [List.foldl_cons, ih, mem_addCapability_caps]
    constructor
    · rintro ((h | ⟨h1, h2⟩) | ⟨p, hp, hg⟩)
      · exact Or.inl h
      · exact Or.inr ⟨e.2, by simp [h1], h2⟩
      · exact Or.inr ⟨p, List.mem_cons_of_mem _ hp, hg⟩
    · rintro (h | ⟨p, hp, hg⟩)
      · exact Or.inl (Or.inl h)
      · rcases List.mem_cons.mp hp with h | h
        · refine Or.inl (Or.inr ⟨?_, ?_⟩)
          · rw [← h]
          · rw [← h]; exact hg
        · exact Or.inr ⟨p, h, hg⟩

theorem planTopology_simplified_one (cfg : Config) (img : String)
    (extraBinaries : List (String × String)) (n0 : NsInput) (h : cfg.NodeSets = [n0]) :
    planTopology cfg TopologySimplified img extraBinaries =
      .ok ([{ Input := n0, Capabilities := (simplifiedCapabilities cfg img extraBinaries).caps,
              DONTypes := [WorkflowDON, GatewayDON], BootstrapNodeIndex := 0,
              GatewayNodeIndex := 0 }],
           (simplifiedCapabilities cfg img extraBinaries).paths) := by
  unfold planTopology
  rw [if_pos rfl, h]

theorem planTopology_full_three (cfg : Config) (topologyFlag img : String)
    (extraBinaries : List (String × String)) (n0 n1 n2 : NsInput)
    (ht : topologyFlag ≠ TopologySimplified) (h : cfg.NodeSets = [n0, n1, n2]) :
    planTopology cfg topologyFlag img extraBinaries =
      .ok ([{ Input := n0, Capabilities := (fullWorkflowCapabilities cfg img extraBinaries).caps,
              DONTypes := [WorkflowDON], BootstrapNodeIndex := 0, GatewayNodeIndex := 0 },
            { Input := n1,
              Capabilities := (fullCapabilitiesDONCapabilities cfg img
                (fullWorkflowCapabilities cfg img extraBinaries).paths).caps,
              DONTypes := [CapabilitiesDON], BootstrapNodeIndex := -1, GatewayNodeIndex := 0 },
            { Input := n2, Capabilities := [], DONTypes := [GatewayDON],
              BootstrapNodeIndex := -1, GatewayNodeIndex := 0 }],
           (fullCapabilitiesDONCapabilities cfg img
             (fullWorkflowCapabilities cfg img extraBinaries).paths).paths) := by
  unfold planTopology
  rw [if_neg ht, h]

theorem planTopology_simplified_mismatch (cfg : Config) (img : String)
    (extraBinaries : List (String × String)) (h : cfg.NodeSets.length ≠ 1) :
    planTopology cfg TopologySimplified img extraBinaries =
      .error (.new ("expected 1 nodeset, got " ++ toString cfg.NodeSets.length)) := by
  unfold planTopology
  rw [if_pos rfl]
  split
  next n0 hn => rw [hn] at h; exact absurd rfl h
  next => rfl

theorem planTopology_full_mismatch (cfg : Config) (topologyFlag img : String)
    (extraBinaries : List (String × String)) (ht : topologyFlag ≠ TopologySimplified)
    (h : cfg.NodeSets.length ≠ 3) :
    planTopology cfg topologyFlag img extraBinaries =
      .error (.new ("expected 3 nodesets, got " ++ toString cfg.NodeSets.length)) := by
  unfold planTopology
  rw [if_neg ht]
  split
  next n0 n1 n2 hn => rw [hn] at h; exact absurd rfl h
  next => rfl

/-! ## C1: node-set count that does not match the topology -/

/-- C1, as stated, fails: with the example workflow on the cron trigger and
neither a cron binary nor a shared image, the simplified topology with no node
set returns the error of the guard of line 445, whose message names no
count, and not the error of the node-set count. -/
theorem StartCLIEnvironment_mismatch_hidden_by_cron_guard :
    (StartCLIEnvironment exampleStartEnv (exampleConfig []) "simplified" "cron" "" true [] [] []).outcome
      = .ret (none, some (.new
          "either cron binary path must be set in TOML config (configs/single-don.toml) or you must use Docker image with all capabilities included and passed via withPluginsDockerImageFlag")) ∧
    (StartCLIEnvironment exampleStartEnv (exampleConfig []) "simplified" "cron" "" true [] [] []).outcome
      ≠ .ret (none, some (.new "expected 1 nodeset, got 0")) := by
  constructor
  · rfl
  · decide

/-- C1 (amended): when the number of node sets does not match the topology
(simplified: not 1; any other topology string: not 3), `StartCLIEnvironment`
has no effect at all (no provider is called, the request is left as it was)
and returns a nil output with an error: the error of the cron guard of line
445 when that guard fires, and otherwise an error whose message names the
expected and the actual count. -/
theorem StartCLIEnvironment_nodeset_count_mismatch (env : StartEnv) (cfg : Config)
    (topologyFlag workflowTrigger img : String) (withExampleFlag : Bool)
    (ports : List Int) (extraBinaries : List (String × String))
    (extraJobFactoryFns : List JobSpecFactory)
    (hmis : (topologyFlag = TopologySimplified ∧ cfg.NodeSets.length ≠ 1) ∨
            (topologyFlag ≠ TopologySimplified ∧ cfg.NodeSets.length ≠ 3)) :
    (StartCLIEnvironment env cfg topologyFlag workflowTrigger img withExampleFlag ports
        extraBinaries extraJobFactoryFns).trace = [] ∧
    (StartCLIEnvironment env cfg topologyFlag workflowTrigger img withExampleFlag ports
        extraBinaries extraJobFactoryFns).cfg = cfg ∧
    (cronPrecheckFails cfg workflowTrigger img withExampleFlag →
      (StartCLIEnvironment env cfg topologyFlag workflowTrigger img withExampleFlag ports
        extraBinaries extraJobFactoryFns).outcome = .ret (none, some (cronPrecheckErr env))) ∧
    (¬ cronPrecheckFails cfg workflowTrigger img withExampleFlag →
      (StartCLIEnvironment env cfg topologyFlag workflowTrigger img withExampleFlag ports
        extraBinaries extraJobFactoryFns).outcome =
        .ret (none, some (.new
          ((if topologyFlag = TopologySimplified then "expected 1 nodeset, got "
            else "expected 3 nodesets, got ") ++ toString cfg.NodeSets.length)))) := by
  have hplan : planTopology cfg topologyFlag img extraBinaries =
      .error (.new ((if topologyFlag = TopologySimplified then "expected 1 nodeset, got "
            else "expected 3 nodesets, got ") ++ toString cfg.NodeSets.length)) := by
    rcases hmis with ⟨ht, hn⟩ | ⟨ht, hn⟩
    · subst ht
      rw [planTopology_simplified_mismatch cfg img extraBinaries hn, if_pos rfl]
    · rw [planTopology_full_mismatch cfg topologyFlag img extraBinaries ht hn, if_neg ht]
  by_cases hpre : cronPrecheckFails cfg workflowTrigger img withExampleFlag
  · simp [StartCLIEnvironment, hpre]
  · simp [StartCLIEnvironment, hpre, hplan]

/-- C1 (amended), at an input: the full topology with two node sets. -/
theorem StartCLIEnvironment_nodeset_count_mismatch_witness :
    (StartCLIEnvironment exampleStartEnv
        (exampleConfig [exampleNodeSet "workflow", exampleNodeSet "capabilities"])
        "full" "web-trigger" "" false [] [] []).trace = [] ∧
    (StartCLIEnvironment exampleStartEnv
        (exampleConfig [exampleNodeSet "workflow", exampleNodeSet "capabilities"])
        "full" "web-trigger" "" false [] [] []).outcome =
      .ret (none, some (.new "expected 3 nodesets, got 2")) := by
  have h := StartCLIEnvironment_nodeset_count_mismatch exampleStartEnv
    (exampleConfig [exampleNodeSet "workflow", exampleNodeSet "capabilities"])
    "full" "web-trigger" "" false [] [] [] (Or.inr ⟨by decide, by decide⟩)
  exact ⟨h.1, h.2.2.2 (by decide)⟩

/-! ## C2: optional capabilities of the simplified topology -/

/-- C2, as stated, fails: with no cron binary path and no shared image, the
single group of the simplified topology still lists the cron capability when
the extra-binaries map has an entry of that name. -/
theorem simplified_cron_listed_through_extra_binaries :
    planTopology (exampleConfig [exampleNodeSet "workflow"]) "simplified" ""
        [("cron", "/usr/local/bin/cron")] =
      .ok ([{ Input := exampleNodeSet "workflow",
              Capabilities := ["ocr3", "custom-compute", "write-evm", "web-api-trigger",
                "web-api-target", "cron"],
              DONTypes := ["workflow", "gateway"], BootstrapNodeIndex := 0,
              GatewayNodeIndex := 0 }],
           [("cron", "/usr/local/bin/cron")]) ∧
    ¬ (CronCapability ∈ ["ocr3", "custom-compute", "write-evm", "web-api-trigger",
          "web-api-target", "cron"] ↔
        ((exampleConfig [exampleNodeSet "workflow"]).ExtraCapabilities.CronCapabilityBinaryPath ≠ ""
          ∨ ("" : String) ≠ "")) := by
  constructor
  · rfl
  · decide

/-- C2 (amended): for the simplified topology with exactly one node set,
planning succeeds with a single descriptor, and each optional capability
(cron, log-event trigger, read-contract) is in its capability list if and only
if its binary path is non-empty, or the shared image flag is non-empty, or the
extra-binaries map has an entry of that capability's name with a non-empty
path. -/
theorem simplified_optional_capability_listed_iff (cfg : Config) (img : String)
    (extraBinaries : List (String × String)) (n0 : NsInput) (h : cfg.NodeSets = [n0]) :
    ∃ caps paths,
      planTopology cfg TopologySimplified img extraBinaries =
        .ok ([{ Input := n0, Capabilities := caps, DONTypes := [WorkflowDON, GatewayDON],
                BootstrapNodeIndex := 0, GatewayNodeIndex := 0 }], paths) ∧
      (CronCapability ∈ caps ↔
        cfg.ExtraCapabilities.CronCapabilityBinaryPath ≠ "" ∨ img ≠ "" ∨
          ∃ p, (CronCapability, p) ∈ extraBinaries ∧ p ≠ "") ∧
      (LogTriggerCapability ∈ caps ↔
        cfg.ExtraCapabilities.LogEventTriggerBinaryPath ≠ "" ∨ img ≠ "" ∨
          ∃ p, (LogTriggerCapability, p) ∈ extraBinaries ∧ p ≠ "") ∧
      (ReadContractCapability ∈ caps ↔
        cfg.ExtraCapabilities.ReadContractBinaryPath ≠ "" ∨ img ≠ "" ∨
          ∃ p, (ReadContractCapability, p) ∈ extraBinaries ∧ p ≠ "") := by
  refine ⟨_, _, planTopology_simplified_one cfg img extraBinaries n0 h, ?_, ?_, ?_⟩
  all_goals
    unfold simplifiedCapabilities
    simp only [mem_addExtraBinaries_caps, mem_addCapability_caps]
    simp only [OCR3Capability, CustomComputeCapability, WriteEVMCapability,
      WebAPITriggerCapability, WebAPITargetCapability, CronCapability, LogTriggerCapability,
      ReadContractCapability]
    constructor
    · rintro (h1 | ⟨p, hp, hg | hg⟩)
      · simp at h1
        tauto
      · exact Or.inr (Or.inr ⟨p, hp, hg⟩)
      · exact Or.inr (Or.inl hg)
    · rintro (h1 | h1 | ⟨p, hp, hg⟩)
      · left; simp [h1]
      · left; simp [h1]
      · exact Or.inr ⟨p, hp, Or.inl hg⟩

/-- C2 (amended), at an input: one node set and a cron binary path. -/
theorem simplified_optional_capability_listed_iff_witness :
    ∃ caps paths,
      planTopology
          (exampleConfigCron [exampleNodeSet "workflow"]) TopologySimplified "" [] =
        .ok ([{ Input := exampleNodeSet "workflow", Capabilities := caps,
                DONTypes := [WorkflowDON, GatewayDON],
                BootstrapNodeIndex := 0, GatewayNodeIndex := 0 }], paths) ∧
      CronCapability ∈ caps ∧ LogTriggerCapability ∉ caps := by
  obtain ⟨caps, paths, h1, h2, h3, _⟩ := simplified_optional_capability_listed_iff
    (exampleConfigCron [exampleNodeSet "workflow"]) "" [] (exampleNodeSet "workflow") rfl
  refine ⟨caps, paths, h1, h2.mpr (Or.inl (by decide)), ?_⟩
  intro hmem
  rcases h3.mp hmem with h | h | ⟨p, hp, _⟩
  · exact absurd rfl h
  · exact absurd rfl h
  · simp at hp

/-! ## C3: capability placement of the full topology -/

/-- C3, as stated, fails: with an entry named after the read-contract
capability in the extra-binaries map, the full topology puts read-contract on
the workflow group (first descriptor) as well. -/
theorem full_read_contract_on_workflow_group_through_extra_binaries :
    planTopology
        (exampleConfig [exampleNodeSet "workflow", exampleNodeSet "capabilities",
          exampleNodeSet "gateway"])
        "full" "" [("read-contract", "/usr/local/bin/readcontract")] =
      .ok ([{ Input := exampleNodeSet "workflow",
              Capabilities := ["ocr3", "custom-compute", "web-api-trigger", "read-contract"],
              DONTypes := ["workflow"], BootstrapNodeIndex := 0, GatewayNodeIndex := 0 },
            { Input := exampleNodeSet "capabilities",
              Capabilities := ["write-evm", "web-api-target"],
              DONTypes := ["capabilities"], BootstrapNodeIndex := -1, GatewayNodeIndex := 0 },
            { Input := exampleNodeSet "gateway", Capabilities := [],
              DONTypes := ["gateway"], BootstrapNodeIndex := -1, GatewayNodeIndex := 0 }],
           [("read-contract", "/usr/local/bin/readcontract")]) ∧
    ReadContractCapability ∈ ["ocr3", "custom-compute", "web-api-trigger", "read-contract"] := by
  constructor
  · rfl
  · decide

/-- C3 (amended): for the full topology (any topology string other than
`simplified`) with exactly three node sets, planning yields three
descriptors. Cron and log-event trigger are on the workflow group (first
descriptor) exactly when their binary path or the shared image is configured
or the extra-binaries map names them with a non-empty path, and never on the
capabilities group. Read-contract is on the capabilities group (second
descriptor) exactly when its binary path or the shared image is configured,
and it is on the workflow group only when the extra-binaries map has an entry
of its name that passes the gate. The gateway group (third descriptor) has an
empty capability list. -/
theorem full_capability_placement (cfg : Config) (topologyFlag img : String)
    (extraBinaries : List (String × String)) (n0 n1 n2 : NsInput)
    (ht : topologyFlag ≠ TopologySimplified) (h : cfg.NodeSets = [n0, n1, n2]) :
    ∃ wf cp paths,
      planTopology cfg topologyFlag img extraBinaries =
        .ok ([{ Input := n0, Capabilities := wf, DONTypes := [WorkflowDON],
                BootstrapNodeIndex := 0, GatewayNodeIndex := 0 },
              { Input := n1, Capabilities := cp, DONTypes := [CapabilitiesDON],
                BootstrapNodeIndex := -1, GatewayNodeIndex := 0 },
              { Input := n2, Capabilities := [], DONTypes := [GatewayDON],
                BootstrapNodeIndex := -1, GatewayNodeIndex := 0 }], paths) ∧
      (CronCapability ∈ wf ↔
        cfg.ExtraCapabilities.CronCapabilityBinaryPath ≠ "" ∨ img ≠ "" ∨
          ∃ p, (CronCapability, p) ∈ extraBinaries ∧ p ≠ "") ∧
      (LogTriggerCapability ∈ wf ↔
        cfg.ExtraCapabilities.LogEventTriggerBinaryPath ≠ "" ∨ img ≠ "" ∨
          ∃ p, (LogTriggerCapability, p) ∈ extraBinaries ∧ p ≠ "") ∧
      CronCapability ∉ cp ∧ LogTriggerCapability ∉ cp ∧
      (ReadContractCapability ∈ cp ↔
        cfg.ExtraCapabilities.ReadContractBinaryPath ≠ "" ∨ img ≠ "") ∧
      (ReadContractCapability ∈ wf ↔
        ∃ p, (ReadContractCapability, p) ∈ extraBinaries ∧ (p ≠ "" ∨ img ≠ "")) := by
  refine ⟨_, _, _, planTopology_full_three cfg topologyFlag img extraBinaries n0 n1 n2 ht h,
    ?_, ?_, ?_, ?_, ?_, ?_⟩
  · unfold fullWorkflowCapabilities
    simp only [mem_addExtraBinaries_caps, mem_addCapability_caps]
    simp only [OCR3Capability, CustomComputeCapability, WebAPITriggerCapability,
      CronCapability, LogTriggerCapability]
    constructor
    · rintro (h1 | ⟨p, hp, hg | hg⟩)
      · simp at h1
        tauto
      · exact Or.inr (Or.inr ⟨p, hp, hg⟩)
      · exact Or.inr (Or.inl hg)
    · rintro (h1 | h1 | ⟨p, hp, hg⟩)
      · left; simp [h1]
      · left; simp [h1]
      · exact Or.inr ⟨p, hp, Or.inl hg⟩
  · unfold fullWorkflowCapabilities
    simp only [mem_addExtraBinaries_caps, mem_addCapability_caps]
    simp only [OCR3Capability, CustomComputeCapability, WebAPITriggerCapability,
      CronCapability, LogTriggerCapability]
    constructor
    · rintro (h1 | ⟨p, hp, hg | hg⟩)
      · simp at h1
        tauto
      · exact Or.inr (Or.inr ⟨p, hp, hg⟩)
      · exact Or.inr (Or.inl hg)
    · rintro (h1 | h1 | ⟨p, hp, hg⟩)
      · left; simp [h1]
      · left; simp [h1]
      · exact Or.inr ⟨p, hp, Or.inl hg⟩
  · unfold fullCapabilitiesDONCapabilities
    simp only [mem_addCapability_caps]
    simp [WriteEVMCapability, WebAPITargetCapability, CronCapability, ReadContractCapability]
  · unfold fullCapabilitiesDONCapabilities
    simp only [mem_addCapability_caps]
    simp [WriteEVMCapability, WebAPITargetCapability, LogTriggerCapability,
      ReadContractCapability]
  · unfold fullCapabilitiesDONCapabilities
    simp only [mem_addCapability_caps]
    simp [WriteEVMCapability, WebAPITargetCapability, ReadContractCapability]
  · unfold fullWorkflowCapabilities
    simp only [mem_addExtraBinaries_caps, mem_addCapability_caps]
    simp [OCR3Capability, CustomComputeCapability, WebAPITriggerCapability,
      CronCapability, LogTriggerCapability, ReadContractCapability]

/-- C3 (amended), at an input: three node sets, a cron binary and no extra
binaries; cron is on the workflow group, read-contract on no group. -/
theorem full_capability_placement_witness :
    ∃ wf cp paths,
      planTopology
          (exampleConfigCron [exampleNodeSet "workflow", exampleNodeSet "capabilities",
            exampleNodeSet "gateway"])
          "full" "" [] =
        .ok ([{ Input := exampleNodeSet "workflow", Capabilities := wf,
                DONTypes := [WorkflowDON], BootstrapNodeIndex := 0, GatewayNodeIndex := 0 },
              { Input := exampleNodeSet "capabilities", Capabilities := cp,
                DONTypes := [CapabilitiesDON], BootstrapNodeIndex := -1,
                GatewayNodeIndex := 0 },
              { Input := exampleNodeSet "gateway", Capabilities := [],
                DONTypes := [GatewayDON], BootstrapNodeIndex := -1, GatewayNodeIndex := 0 }],
             paths) ∧
      CronCapability ∈ wf ∧ CronCapability ∉ cp ∧ ReadContractCapability ∉ wf := by
  obtain ⟨wf, cp, paths, h1, h2, _, h4, _, _, h7⟩ := full_capability_placement
    (exampleConfigCron [exampleNodeSet "workflow", exampleNodeSet "capabilities",
      exampleNodeSet "gateway"])
    "full" "" [] (exampleNodeSet "workflow") (exampleNodeSet "capabilities")
    (exampleNodeSet "gateway") (by decide) rfl
  refine ⟨wf, cp, paths, h1, h2.mpr (Or.inl (by decide)), h4, ?_⟩
  intro hmem
  obtain ⟨p, hp, _⟩ := h7.mp hmem
  simp at hp

/-! ## Facts about `StartCLIEnvironment` and the input it hands to the provider -/

theorem provision_trace (env : StartEnv) (cfg : Config) (img : String)
    (sets : List CapabilitiesAwareNodeSet) (paths : StringMap) (fs : Factories)
    (before : List Event) :
    (provision env cfg img sets paths fs before).trace =
      before ++ [.setupTestEnvironment (universalSetupInput cfg img sets paths fs)] := by
  simp only [provision]
  split <;> rfl

theorem provision_cfg (env : StartEnv) (cfg : Config) (img : String)
    (sets : List CapabilitiesAwareNodeSet) (paths : StringMap) (fs : Factories)
    (before : List Event) :
    (provision env cfg img sets paths fs before).cfg = cfg := by
  simp only [provision]
  split <;> rfl

/-- Every input that the key stage hands to the provider is assembled from
the request, in which an empty key has been replaced by a generated one. -/
theorem keyStage_setup_input (env : StartEnv) (cfg : Config) (img : String)
    (sets : List CapabilitiesAwareNodeSet) (paths : StringMap) (fs : Factories)
    (si : SetupInput)
    (h : Event.setupTestEnvironment si ∈ (keyStage env cfg img sets paths fs).trace) :
    (cfg.JD.CSAEncryptionKey ≠ "" ∧
      (keyStage env cfg img sets paths fs).trace = [.setupTestEnvironment si] ∧
      (keyStage env cfg img sets paths fs).cfg = cfg ∧
      si = universalSetupInput cfg img sets paths fs) ∨
    (cfg.JD.CSAEncryptionKey = "" ∧ ∃ bs key,
      env.GenerateKey = .ok bs ∧ csaKeyOfBytes bs = .ret key ∧
      (keyStage env cfg img sets paths fs).trace =
        [.generateKey, .stdout ("Generated new CSA encryption key for JD: " ++ key ++ "\n"),
         .setupTestEnvironment si] ∧
      (keyStage env cfg img sets paths fs).cfg = cfg.withKey key ∧
      si = universalSetupInput (cfg.withKey key) img sets paths fs) := by
  unfold keyStage at h ⊢
  by_cases hk : cfg.JD.CSAEncryptionKey = ""
  · simp only [hk, if_true] at h ⊢
    right
    refine ⟨trivial, ?_⟩
    cases hg : env.GenerateKey with
    | error e => simp [hg] at h
    | ok bs =>
      simp only [hg] at h ⊢
      cases hb : csaKeyOfBytes bs with
      | panic p => simp [hb] at h
      | ret key =>
        simp only [hb] at h ⊢
        rw [provision_trace] at h
        simp at h
        subst h
        exact ⟨bs, key, rfl, hb, by rw [provision_trace]; rfl, by rw [provision_cfg]; rfl, rfl⟩
  · simp only [hk, if_false] at h ⊢
    left
    rw [provision_trace] at h
    simp at h
    subst h
    exact ⟨by simpa using hk, by rw [provision_trace]; rfl, by rw [provision_cfg], rfl⟩

/-- When `StartCLIEnvironment` calls the provider, every earlier stage has
succeeded, and the call is made by the key stage on the planned descriptors,
the binary-path map and the assembled factories. -/
theorem StartCLIEnvironment_setup_stages (env : StartEnv) (cfg : Config)
    (topologyFlag workflowTrigger img : String) (withExampleFlag : Bool)
    (ports : List Int) (extraBinaries : List (String × String))
    (extraJobFactoryFns : List JobSpecFactory) (si : SetupInput)
    (h : Event.setupTestEnvironment si ∈
      (StartCLIEnvironment env cfg topologyFlag workflowTrigger img withExampleFlag ports
        extraBinaries extraJobFactoryFns).trace) :
    ∃ planned paths fs,
      ¬ cronPrecheckFails cfg workflowTrigger img withExampleFlag ∧
      planTopology cfg topologyFlag img extraBinaries = .ok (planned, paths) ∧
      (applyPluginsImage img planned).2 = false ∧
      assembleFactories env (cfg.withNodeSetsOf (applyPluginsImage img planned).1) img ports
        extraJobFactoryFns = .ok fs ∧
      StartCLIEnvironment env cfg topologyFlag workflowTrigger img withExampleFlag ports
        extraBinaries extraJobFactoryFns =
        keyStage env (cfg.withNodeSetsOf (applyPluginsImage img planned).1) img
          (applyPluginsImage img planned).1 paths fs := by
  unfold StartCLIEnvironment at h ⊢
  by_cases hpre : cronPrecheckFails cfg workflowTrigger img withExampleFlag
  · simp [hpre] at h
  · simp only [hpre, if_false] at h ⊢
    cases hp : planTopology cfg topologyFlag img extraBinaries with
    | error e => simp [hp] at h
    | ok pr =>
      obtain ⟨planned, paths⟩ := pr
      simp only [hp] at h ⊢
      cases ho : (applyPluginsImage img planned).2 with
      | true => simp [ho] at h
      | false =>
        simp only [ho] at h ⊢
        cases ha : assembleFactories env
            { cfg with NodeSets := (applyPluginsImage img planned).1.map (fun s => s.Input) }
            img ports extraJobFactoryFns with
        | panic p => simp [ha] at h
        | fail e => simp [ha] at h
        | ok fs =>
          refine ⟨planned, paths, fs, not_false, rfl, ho, ha, ?_⟩
          simp [ha, Config.withNodeSetsOf]

/-! ## C4: capability factories per chain -/

/-- The loop over the chains, when it succeeds, appends to the capability
factories exactly the factories of the specification, chain by chain, and
every chain ID has parsed to a non-negative number. -/
theorem chainLoop_caps (containerPath logName readName : String)
    (chains : List WrappedBlockchainInput) (acc fs : Factories)
    (h : chainLoop containerPath logName readName chains acc = .ok fs) :
    fs.caps = acc.caps ++ chains.flatMap chainCapabilityFactories ∧
    ∀ b ∈ chains, ∃ chainID : Int, Atoi b.ChainID = .ok chainID ∧ 0 ≤ chainID := by
  induction chains generalizing acc with
  | nil =>
    simp only [chainLoop] at h
    cases h
    simp
  | cons b rest ih =>
    unfold chainLoop at h
    cases ha : Atoi b.ChainID with
    | error e => simp [ha] at h
    | ok chainID =>
      simp only [ha] at h
      by_cases hneg : chainID < 0
      · simp [MustSafeUint64, hneg] at h
      · simp only [MustSafeUint64, hneg, if_false] at h
        obtain ⟨h1, h2⟩ := ih _ h
        constructor
        · rw [h1]
          cases hro : b.ReadOnly <;>
            simp [List.flatMap_cons, chainCapabilityFactories, ha, hro]
        · intro b' hb'
          rcases List.mem_cons.mp hb' with hb' | hb'
          · subst hb'
            exact ⟨chainID, ha, not_lt.mp hneg⟩
          · exact h2 b' hb'

theorem assembleFactories_caps (env : StartEnv) (cfg : Config) (img : String)
    (ports : List Int) (extraJobFactoryFns : List JobSpecFactory) (fs : Factories)
    (h : assembleFactories env cfg img ports extraJobFactoryFns = .ok fs) :
    fs.caps = baseCapabilityFactories ++ cfg.Blockchains.flatMap chainCapabilityFactories ∧
    ∀ b ∈ cfg.Blockchains, ∃ chainID : Int, Atoi b.ChainID = .ok chainID ∧ 0 ≤ chainID := by
  unfold assembleFactories at h
  cases hd : env.DefaultContainerDirectory cfg.Infra.InfraType with
  | error e => simp [hd] at h
  | ok containerPath =>
    simp only [hd] at h
    cases hb : cfg.Blockchains with
    | nil => simp [hb] at h
    | cons home rest =>
      simp only [hb] at h
      cases ha : Atoi home.ChainID with
      | error e => simp [ha] at h
      | ok homeID =>
        simp only [ha] at h
        cases hm : MustSafeUint64 homeID with
        | panic p => simp [hm] at h
        | ret homeChainID =>
          simp only [hm] at h
          exact chainLoop_caps _ _ _ _ _ _ h

theorem countP_chainCapabilityFactories (chains : List WrappedBlockchainInput)
    (h : ∀ b ∈ chains, ∃ chainID : Int, Atoi b.ChainID = .ok chainID ∧ 0 ≤ chainID) :
    (chains.flatMap chainCapabilityFactories).countP CapabilityFactory.isWriteEVM =
        (chains.filter (fun b => !b.ReadOnly)).length ∧
    (chains.flatMap chainCapabilityFactories).countP CapabilityFactory.isReadContract =
        chains.length ∧
    (chains.flatMap chainCapabilityFactories).countP CapabilityFactory.isLogEventTrigger =
        chains.length := by
  induction chains with
  | nil => simp
  | cons b rest ih =>
    obtain ⟨chainID, ha, _⟩ := h b (List.mem_cons_self _ _)
    obtain ⟨i1, i2, i3⟩ := ih (fun b' hb' => h b' (List.mem_cons_of_mem _ hb'))
    simp only [List.flatMap_cons, List.countP_append, i1, i2, i3]
    cases hro : b.ReadOnly <;>
      simp [chainCapabilityFactories, ha, hro, CapabilityFactory.isWriteEVM,
        CapabilityFactory.isReadContract, CapabilityFactory.isLogEventTrigger,
        List.countP_cons, List.filter_cons] <;> omega

/-- C4: whenever `StartCLIEnvironment` hands an input to the provider, every
chain ID of the request has parsed to a non-negative number and the
capability contract factory list of that input is the five fixed factories
followed, chain by chain in the order of the request, by the factories of the
chain: a write-EVM factory if and only if the chain's `ReadOnly` flag is
false, then exactly one read-contract factory and exactly one
log-event-trigger factory, whatever the flag. Over the whole list there are as
many write factories as chains that are not read-only, and as many
read-contract and log-event-trigger factories as chains. -/
theorem StartCLIEnvironment_capability_factories (env : StartEnv) (cfg : Config)
    (topologyFlag workflowTrigger img : String) (withExampleFlag : Bool)
    (ports : List Int) (extraBinaries : List (String × String))
    (extraJobFactoryFns : List JobSpecFactory) (si : SetupInput)
    (h : Event.setupTestEnvironment si ∈
      (StartCLIEnvironment env cfg topologyFlag workflowTrigger img withExampleFlag ports
        extraBinaries extraJobFactoryFns).trace) :
    si.CapabilitiesContractFactoryFunctions =
      baseCapabilityFactories ++ cfg.Blockchains.flatMap chainCapabilityFactories ∧
    (∀ b ∈ cfg.Blockchains, ∃ chainID : Int, Atoi b.ChainID = .ok chainID ∧ 0 ≤ chainID ∧
      chainCapabilityFactories b =
        (if b.ReadOnly then [] else [.WriteEVM chainID.toNat]) ++
          [.ReadContract chainID.toNat "evm", .LogEventTrigger chainID.toNat "evm"] ∧
      (CapabilityFactory.WriteEVM chainID.toNat ∈ chainCapabilityFactories b ↔
        b.ReadOnly = false) ∧
      (chainCapabilityFactories b).count (.ReadContract chainID.toNat "evm") = 1 ∧
      (chainCapabilityFactories b).count (.LogEventTrigger chainID.toNat "evm") = 1) ∧
    si.CapabilitiesContractFactoryFunctions.countP CapabilityFactory.isWriteEVM =
      (cfg.Blockchains.filter (fun b => !b.ReadOnly)).length ∧
    si.CapabilitiesContractFactoryFunctions.countP CapabilityFactory.isReadContract =
      cfg.Blockchains.length ∧
    si.CapabilitiesContractFactoryFunctions.countP CapabilityFactory.isLogEventTrigger =
      cfg.Blockchains.length := by
  obtain ⟨planned, paths, fs, _, _, _, hfs, hst⟩ :=
    StartCLIEnvironment_setup_stages env cfg topologyFlag workflowTrigger img withExampleFlag
      ports extraBinaries extraJobFactoryFns si h
  rw [hst] at h
  have hsi : si.CapabilitiesContractFactoryFunctions = fs.caps := by
    rcases keyStage_setup_input _ _ _ _ _ _ _ h with ⟨_, _, _, e⟩ | ⟨_, _, _, _, _, _, _, e⟩ <;>
      rw [e] <;> rfl
  obtain ⟨hcaps, hids⟩ := assembleFactories_caps _ _ _ _ _ _ hfs
  have hcaps' : fs.caps =
      baseCapabilityFactories ++ cfg.Blockchains.flatMap chainCapabilityFactories := hcaps
  have hids' : ∀ b ∈ cfg.Blockchains, ∃ chainID : Int,
      Atoi b.ChainID = .ok chainID ∧ 0 ≤ chainID := hids
  obtain ⟨c1, c2, c3⟩ := countP_chainCapabilityFactories cfg.Blockchains hids'
  refine ⟨by rw [hsi, hcaps'], ?_, ?_, ?_, ?_⟩
  · intro b hb
    obtain ⟨chainID, ha, hpos⟩ := hids' b hb
    refine ⟨chainID, ha, hpos, by simp [chainCapabilityFactories, ha], ?_, ?_, ?_⟩
    · cases hro : b.ReadOnly <;> simp [chainCapabilityFactories, ha, hro]
    · cases hro : b.ReadOnly <;> simp [chainCapabilityFactories, ha, hro, List.count_cons]
    · cases hro : b.ReadOnly <;> simp [chainCapabilityFactories, ha, hro, List.count_cons]
  · rw [hsi, hcaps', List.countP_append, c1]
    simp [baseCapabilityFactories, CapabilityFactory.isWriteEVM, List.countP_cons]
  · rw [hsi, hcaps', List.countP_append, c2]
    simp [baseCapabilityFactories, CapabilityFactory.isReadContract, List.countP_cons]
  · rw [hsi, hcaps', List.countP_append, c3]
    simp [baseCapabilityFactories, CapabilityFactory.isLogEventTrigger, List.countP_cons]

/-- The trace of `StartCLIEnvironment` on the example request: a key is
generated and reported, then the provider is called. -/
theorem exampleRun_trace :
    (StartCLIEnvironment exampleStartEnv (exampleConfig [exampleNodeSet "workflow"])
        "simplified" "web-trigger" "" false [] [] []).trace =
      [.generateKey,
       .stdout "Generated new CSA encryption key for JD: 000102030405060708090a0b0c0d0e0f101112131415161718191a1b1c1d1e1f\n",
       .setupTestEnvironment exampleSetupInput] := by
  rfl

/-- C4, at an input: the example request with a writable chain 1337 and a
read-only chain 2337. -/
theorem StartCLIEnvironment_capability_factories_witness :
    Event.setupTestEnvironment exampleSetupInput ∈
      (StartCLIEnvironment exampleStartEnv (exampleConfig [exampleNodeSet "workflow"])
        "simplified" "web-trigger" "" false [] [] []).trace ∧
    exampleSetupInput.CapabilitiesContractFactoryFunctions =
      baseCapabilityFactories ++
        (exampleConfig [exampleNodeSet "workflow"]).Blockchains.flatMap
          chainCapabilityFactories ∧
    exampleSetupInput.CapabilitiesContractFactoryFunctions.countP
        CapabilityFactory.isWriteEVM = 1 := by
  have hmem : Event.setupTestEnvironment exampleSetupInput ∈
      (StartCLIEnvironment exampleStartEnv (exampleConfig [exampleNodeSet "workflow"])
        "simplified" "web-trigger" "" false [] [] []).trace := by
    rw [exampleRun_trace]; simp
  have h := StartCLIEnvironment_capability_factories exampleStartEnv
    (exampleConfig [exampleNodeSet "workflow"]) "simplified" "web-trigger" "" false [] [] []
    exampleSetupInput hmem
  exact ⟨hmem, h.1, h.2.2.1⟩

/-! ## C5: `SetupJobs` fails exactly when one of its two tasks fails -/

/-- C5: for every behaviour of the collaborators and every order in which the
two concurrent tasks end, `SetupJobs` returns a non-nil error if and only if
the `StartJD` task or the `StartDONs` task returns an error, and then both its
outputs are nil; when both tasks succeed it returns the Job Distributor output
of `StartJD`, the node-set outputs of `StartDONs` and a nil error. -/
theorem SetupJobs_error_iff_task_error (env : JobsEnv) (jdFirst : Bool) (jdInput : JdInput)
    (infraInput : InfraInput) (capabilitiesAwareNodeSets : List CapabilitiesAwareNodeSet) :
    ((SetupJobs env jdFirst jdInput infraInput capabilitiesAwareNodeSets).err ≠ none ↔
      (StartJD env jdInput infraInput).err ≠ none ∨
        (StartDONs env infraInput capabilitiesAwareNodeSets).err ≠ none) ∧
    ((SetupJobs env jdFirst jdInput infraInput capabilitiesAwareNodeSets).err ≠ none →
      (SetupJobs env jdFirst jdInput infraInput capabilitiesAwareNodeSets).jdOutput = none ∧
      (SetupJobs env jdFirst jdInput infraInput capabilitiesAwareNodeSets).nodeSetOutput = none) ∧
    ((StartJD env jdInput infraInput).err = none ∧
        (StartDONs env infraInput capabilitiesAwareNodeSets).err = none →
      (SetupJobs env jdFirst jdInput infraInput capabilitiesAwareNodeSets).jdOutput =
        (StartJD env jdInput infraInput).out ∧
      (SetupJobs env jdFirst jdInput infraInput capabilitiesAwareNodeSets).nodeSetOutput =
        (StartDONs env infraInput capabilitiesAwareNodeSets).out ∧
      (SetupJobs env jdFirst jdInput infraInput capabilitiesAwareNodeSets).err = none) := by
  unfold SetupJobs
  cases hj : (StartJD env jdInput infraInput).err <;>
    cases hd : (StartDONs env infraInput capabilitiesAwareNodeSets).err <;>
    cases jdFirst <;>
    simp [errgroupWait, hj, hd]

/-! ## Facts about the run function of the start command -/

theorem SplitN_one (s : String) (sep : Char) : SplitN s sep 1 = [s] := by
  simp [SplitN, splitAtMost]

theorem telemetryErrText_eq (msg : String) : telemetryErrText msg = .ret msg := by
  simp [telemetryErrText, SplitN_one, index0]

/-- On a run that gets as far as the call of `StartCLIEnvironment`, the body
of the run function is the events before the call followed by what the
function does with the result of the call. -/
theorem startCmdBody_of_reaches (env : RunEnv) (f : StartFlags) (cfg : Config)
    (h : ReachesStart env f cfg) :
    startCmdBody env f = afterStart env f (startCallOf env f cfg) (preStartTrace env f) := by
  obtain ⟨hsetup, htopo, hctf, hpk, hryuk, hload, hvalid⟩ := h
  have htopo' : ¬ (f.topology ≠ TopologySimplified ∧ f.topology ≠ TopologyFull) := by
    rcases htopo with h | h <;> simp [h]
  have hla : ∀ ctf before, loadAndStart env f ctf before =
      afterStart env f
        (StartCLIEnvironment { env.start with CTF_CONFIGS := ctf } cfg f.topology
          f.exampleWorkflowTrigger f.withPluginsDockerImage f.withExampleFlag
          f.extraAllowedGatewayPorts [] []) (before ++ [.load]) := by
    intro ctf before
    simp only [loadAndStart, hload, hvalid, afterStart]
  have hsv : ∀ ctf before, setVariablesAndStart env f ctf before =
      afterStart env f
        (StartCLIEnvironment { env.start with CTF_CONFIGS := ctf } cfg f.topology
          f.exampleWorkflowTrigger f.withPluginsDockerImage f.withExampleFlag
          f.extraAllowedGatewayPorts [] [])
        (before ++
          (if env.getenvPrivateKey = "" then
            [.setenv "PRIVATE_KEY" defaultPrivateKey,
             .stdout ("Set PRIVATE_KEY environment variable to default value: " ++
               defaultPrivateKey ++ "\n")]
           else []) ++
          [.setenv "TESTCONTAINERS_RYUK_DISABLED" "true", .load]) := by
    intro ctf before
    simp only [setVariablesAndStart, hryuk, hla]
    by_cases hp : env.getenvPrivateKey = ""
    · simp [hp, hpk hp]
    · simp [hp]
  simp only [startCmdBody, htopo', if_false, hsv, startCallOf, ctfAtStart, preStartTrace]
  by_cases hd : f.doSetup = true <;> by_cases hc : env.getenvCTF = ""
  · simp [hd, hc, hsetup hd, hctf hc]
  · simp [hd, hc, hsetup hd]
  · simp [hd, hc, hctf hc]
  · simp [hd, hc]

theorem keyStage_trace_events (env : StartEnv) (cfg : Config) (img : String)
    (sets : List CapabilitiesAwareNodeSet) (paths : StringMap) (fs : Factories) :
    ∀ ev ∈ (keyStage env cfg img sets paths fs).trace,
      ev = .generateKey ∨ (∃ m, ev = .stdout m) ∨ ∃ si, ev = .setupTestEnvironment si := by
  intro ev hev
  unfold keyStage at hev
  split at hev
  · split at hev
    · simp at hev; exact Or.inl hev
    · split at hev
      · simp at hev; exact Or.inl hev
      · rw [provision_trace] at hev
        simp at hev
        rcases hev with h | h | h
        · exact Or.inl h
        · exact Or.inr (Or.inl ⟨_, h⟩)
        · exact Or.inr (Or.inr ⟨_, h⟩)
  · rw [provision_trace] at hev
    simp at hev
    exact Or.inr (Or.inr ⟨_, hev⟩)

/-- The only effects of `StartCLIEnvironment` are the generation of a key,
the message that reports it, and the call of the provider. -/
theorem StartCLIEnvironment_trace_events (env : StartEnv) (cfg : Config)
    (topologyFlag workflowTrigger img : String) (withExampleFlag : Bool)
    (ports : List Int) (extraBinaries : List (String × String))
    (extraJobFactoryFns : List JobSpecFactory) :
    ∀ ev ∈ (StartCLIEnvironment env cfg topologyFlag workflowTrigger img withExampleFlag ports
        extraBinaries extraJobFactoryFns).trace,
      ev = .generateKey ∨ (∃ m, ev = .stdout m) ∨ ∃ si, ev = .setupTestEnvironment si := by
  intro ev hev
  unfold StartCLIEnvironment at hev
  split at hev
  · simp at hev
  · split at hev
    · simp at hev
    · simp only at hev
      split at hev
      · simp at hev
      · split at hev
        · simp at hev
        · simp at hev
        · exact keyStage_trace_events _ _ _ _ _ _ ev hev

theorem StartCLIEnvironment_no_cleanup (env : StartEnv) (cfg : Config)
    (topologyFlag workflowTrigger img : String) (withExampleFlag : Bool)
    (ports : List Int) (extraBinaries : List (String × String))
    (extraJobFactoryFns : List JobSpecFactory) :
    Event.removeTestContainers ∉
      (StartCLIEnvironment env cfg topologyFlag workflowTrigger img withExampleFlag ports
        extraBinaries extraJobFactoryFns).trace := by
  intro h
  rcases StartCLIEnvironment_trace_events _ _ _ _ _ _ _ _ _ _ h with h | ⟨_, h⟩ | ⟨_, h⟩ <;>
    cases h

theorem preStartTrace_no_cleanup (env : RunEnv) (f : StartFlags) :
    Event.removeTestContainers ∉ preStartTrace env f := by
  unfold preStartTrace
  by_cases h1 : f.doSetup = true <;> by_cases h2 : env.getenvCTF = "" <;>
    by_cases h3 : env.getenvPrivateKey = "" <;> simp [h1, h2, h3]

theorem whenErr_no_cleanup (err : GoError) (report : GoErr → Event)
    (h : ∀ e, report e ≠ .removeTestContainers) :
    Event.removeTestContainers ∉ whenErr err report := by
  cases err with
  | none => simp [whenErr]
  | some e => simpa [whenErr] using (h e).symm

theorem trackStartupAt_no_cleanup (env : RunEnv) (success hasBuilt : Bool) (infraType : String)
    (errorMessage : Option String) (panicked : Option Bool) :
    Event.removeTestContainers ∉
      trackStartupAt env success hasBuilt infraType errorMessage panicked := by
  simp only [trackStartupAt, trackStartup]
  cases success <;>
    simp [whenErr_no_cleanup]

theorem StartCmdGenerateSettingsFile_no_cleanup (env : RunEnv)
    (homeChainOut : WrappedBlockchainOutput) (output : SetupOutput) :
    Event.removeTestContainers ∉
      (StartCmdGenerateSettingsFile env homeChainOut output).trace := by
  unfold StartCmdGenerateSettingsFile
  split
  · simp
  · split
    · simp
    · split
      · simp
      · split
        · simp
        · dsimp only
          split <;> simp

theorem startExampleAndFinish_no_cleanup (env : RunEnv) (f : StartFlags)
    (homeChainOut : WrappedBlockchainOutput) (before : List Event)
    (h : Event.removeTestContainers ∉ before) :
    Event.removeTestContainers ∉ (startExampleAndFinish env f homeChainOut before).trace := by
  unfold startExampleAndFinish
  split
  · split
    · exact h
    · simp [h, whenErr_no_cleanup]
  · simp [h]

/-- The success path of the run function (lines 309-352) removes no
container, whatever the collaborators do and even where it panics. -/
theorem startSuccessPath_no_cleanup (env : RunEnv) (f : StartFlags) (cfg : Config)
    (output : Option SetupOutput) (before : List Event)
    (h : Event.removeTestContainers ∉ before) :
    Event.removeTestContainers ∉ (startSuccessPath env f cfg output before).trace := by
  unfold startSuccessPath
  cases output with
  | none => exact h
  | some out =>
    simp only
    cases hbo : out.BlockchainOutput with
    | nil => exact h
    | cons homeChainOut rest =>
      have hs := StartCmdGenerateSettingsFile_no_cleanup env homeChainOut out
      have ht := trackStartupAt_no_cleanup env true
        (hasBuiltDockerImage cfg f.withPluginsDockerImage) out.InfraType none none
      simp only
      generalize (StartCmdGenerateSettingsFile env homeChainOut out).outcome = so
      cases so with
      | panic p => simp [h, hs]
      | ret sErr =>
        have h1 : Event.removeTestContainers ∉
            before ++ (StartCmdGenerateSettingsFile env homeChainOut out).trace ++
              whenErr sErr (fun e =>
                .stderr ("failed to create CRE CLI settings file: " ++ e.Error ++
                  ". You need to create it manually.")) ++
              trackStartupAt env true (hasBuiltDockerImage cfg f.withPluginsDockerImage)
                out.InfraType none none := by
          simp [h, hs, ht, whenErr_no_cleanup]
        simp only [List.mem_append, not_or] at h1
        obtain ⟨⟨⟨a, b⟩, c⟩, d⟩ := h1
        simp only
        by_cases hb : f.withBeholder = true
        · simp only [hb, if_true]
          cases hsb : env.startBeholder with
          | none =>
            simp only
            apply startExampleAndFinish_no_cleanup
            simp [a, b, c, d]
          | some startBeholderErr =>
            simp only [List.mem_append, not_or]
            refine ⟨⟨⟨⟨⟨a, b⟩, c⟩, d⟩, by simp⟩, ?_⟩
            split
            · simp
            · simp [whenErr_no_cleanup]
        · simp only [hb]
          apply startExampleAndFinish_no_cleanup
          simp [a, b, c, d]

theorem exampleRunEnv_reaches (provider : ProviderResult) (removal : GoError) :
    ReachesStart (exampleRunEnv provider removal) exampleFlags exampleLoadedConfig :=
  ⟨fun _ => rfl, Or.inl rfl, fun _ => rfl, fun _ => rfl, rfl, rfl, rfl⟩

/-- The failure path of the run function: the trace ends with the cleanup
wait and one removal of the containers, and a non-nil error is returned, which
is the wrapped removal error when the removal fails and the wrapped error of
`StartCLIEnvironment` otherwise. -/
theorem startFailurePath_eq (env : RunEnv) (f : StartFlags) (cfg : Config) (startErr : GoErr)
    (before : List Event) :
    startFailurePath env f cfg startErr before =
      { trace := before ++ [.stderr ("Error: " ++ startErr.Error ++ "\n"), .stackTrace] ++
          trackStartupAt env false (hasBuiltDockerImage cfg f.withPluginsDockerImage)
            cfg.Infra.InfraType (some startErr.Error) (some false) ++
          [.waitToCleanUp f.cleanupWait, .removeTestContainers],
        outcome := .ret (some
          (match env.RemoveTestContainers with
           | some removeErr => .wrap removeErr manualCtfCleanupMsg
           | none => .wrap startErr "failed to start environment")) } := by
  simp only [startFailurePath, telemetryErrText_eq]
  cases env.RemoveTestContainers <;> rfl

theorem startCmdRunE_of_ret (env : RunEnv) (f : StartFlags) (err : GoError)
    (h : (startCmdBody env f).outcome = .ret err) :
    startCmdRunE env f =
      { trace := (startCmdBody env f).trace, returned := err, recovered := none } := by
  simp [startCmdRunE, h, StartCmdRecoverHandlerFunc]

/-- After a panic of its body the run function runs the recover handler and
then returns a nil error to its caller. -/
theorem startCmdRunE_of_panic (env : RunEnv) (f : StartFlags) (p : PanicValue)
    (h : (startCmdBody env f).outcome = .panic p) :
    startCmdRunE env f =
      { trace := (startCmdBody env f).trace ++
          StartCmdRecoverHandlerFunc env (some p) f.cleanupWait,
        returned := none, recovered := some p } := by
  simp [startCmdRunE, h]

/-- The events of the recover handler for a recovered value; the text it
reports is the message of an error, the rendering of any other value. -/
theorem StartCmdRecoverHandlerFunc_eq (env : RunEnv) (pv : PanicValue) (cleanupWait : Nat) :
    StartCmdRecoverHandlerFunc env (some pv) cleanupWait =
      [.stdout "Panicked when starting environment\n"] ++
      (match pv with
       | .err err => [.stderr ("Error: " ++ err.Error ++ "\n"), .stackTrace]
       | .value rendered => [.stderr ("panic: " ++ rendered ++ "\n"), .stackTrace]) ++
      [.track "startup.result"
        [("success", .bool false),
         ("error", .str (match pv with
           | .err err => err.Error
           | .value rendered => rendered)),
         ("panicked", .bool true)]] ++
      whenErr (env.Track "startup.result"
          [("success", .bool false),
           ("error", .str (match pv with
             | .err err => err.Error
             | .value rendered => rendered)),
           ("panicked", .bool true)])
        (fun tracingErr => .stderr ("failed to track startup: " ++ tracingErr.Error ++ "\n")) ++
      [.waitToCleanUp cleanupWait, .removeTestContainers] ++
      whenErr env.RemoveTestContainers
        (fun removeErr => .stderr (GoErr.wrap removeErr manualCtfCleanupMsg).Error) := by
  cases pv <;> simp [StartCmdRecoverHandlerFunc, telemetryErrText_eq]

theorem whenErr_stderr_mem (err : GoError) (g : GoErr → String) (ev : Event)
    (h : ev ∈ whenErr err (fun e => .stderr (g e))) : ∃ m, ev = .stderr m := by
  cases err with
  | none => simp [whenErr] at h
  | some e =>
    simp only [whenErr, List.mem_singleton] at h
    exact ⟨_, h⟩

/-- C7, evaluated at two inputs. With a shared image and a node spec whose
`Node` is nil, the override of line 546 panics inside `StartCLIEnvironment`;
the run function recovers, reports the failure to telemetry, waits and removes
the containers, and then returns a nil error to its caller. The same happens
when the provider panics. -/
theorem startCmdRunE_swallows_panic :
    ((startCmdRunE exampleRunEnvNilNode exampleFlagsWithImage).recovered =
        some nilDereference ∧
      (startCmdRunE exampleRunEnvNilNode exampleFlagsWithImage).returned = none ∧
      (startCmdRunE exampleRunEnvNilNode exampleFlagsWithImage).trace.drop 7 =
        [.stdout "Panicked when starting environment\n",
         .stderr "Error: runtime error: invalid memory address or nil pointer dereference\n",
         .stackTrace,
         .track "startup.result"
           [("success", .bool false),
            ("error", .str "runtime error: invalid memory address or nil pointer dereference"),
            ("panicked", .bool true)],
         .waitToCleanUp 15, .removeTestContainers]) ∧
    ((startCmdRunE (exampleRunEnv (.panics (.value "image pull denied")) none)
        exampleFlags).recovered = some (.value "image pull denied") ∧
      (startCmdRunE (exampleRunEnv (.panics (.value "image pull denied")) none)
        exampleFlags).returned = none ∧
      (startCmdRunE (exampleRunEnv (.panics (.value "image pull denied")) none)
        exampleFlags).trace.drop 8 =
        [.stdout "Panicked when starting environment\n",
         .stderr "panic: image pull denied\n", .stackTrace,
         .track "startup.result"
           [("success", .bool false), ("error", .str "image pull denied"),
            ("panicked", .bool true)],
         .waitToCleanUp 15, .removeTestContainers]) := by
  refine ⟨⟨rfl, rfl, rfl⟩, ⟨rfl, rfl, rfl⟩⟩

/-! ## C8: a failed removal replaces the provisioning error -/

/-- C8, evaluated: when `StartCLIEnvironment` fails and the removal of the
containers fails too, the run function returns the removal error wrapped in
the manual-remediation message, not the provisioning error, and writes no
message about the removal to standard error. -/
theorem startCmdRunE_returns_removal_error :
    (startCmdRunE (exampleRunEnv (.fail (.new "node set unhealthy"))
        (some (.new "docker daemon unreachable"))) exampleFlags).returned =
      some (.wrap (.new "docker daemon unreachable") manualCtfCleanupMsg) ∧
    (startCmdRunE (exampleRunEnv (.fail (.new "node set unhealthy"))
        (some (.new "docker daemon unreachable"))) exampleFlags).returned ≠
      some (.wrap (.wrap (.new "node set unhealthy") "failed to setup test environment")
        "failed to start environment") ∧
    (startCmdRunE (exampleRunEnv (.fail (.new "node set unhealthy"))
        (some (.new "docker daemon unreachable"))) exampleFlags).trace.drop 7 =
      [.setupTestEnvironment (universalSetupInput exampleLoadedConfig ""
         [{ Input := exampleNodeSet "workflow",
            Capabilities := ["ocr3", "custom-compute", "write-evm", "web-api-trigger",
              "web-api-target"],
            DONTypes := ["workflow", "gateway"], BootstrapNodeIndex := 0,
            GatewayNodeIndex := 0 }] []
         { caps := exampleSetupInput.CapabilitiesContractFactoryFunctions,
           jobs := exampleSetupInput.JobSpecFactoryFunctions }),
       .stderr "Error: failed to setup test environment: node set unhealthy\n", .stackTrace,
       .track "cre.local.startup.result"
         [("success", .bool false), ("infra", .str "docker"),
          ("error", .str "failed to setup test environment: node set unhealthy"),
          ("panicked", .bool false)],
       .waitToCleanUp 15, .removeTestContainers] := by
  refine ⟨rfl, by decide, rfl⟩

/-- On the failure path of a run that gets as far as the call of
`StartCLIEnvironment`, the error returned is the wrapped removal error when
the removal of the containers fails, and the wrapped error of the call
otherwise. -/
theorem startCmdRunE_failure_returned (env : RunEnv) (f : StartFlags) (cfg : Config)
    (hreach : ReachesStart env f cfg) (o : Option SetupOutput) (startErr : GoErr)
    (ho : (startCallOf env f cfg).outcome = .ret (o, some startErr)) :
    (startCmdRunE env f).returned =
      some (match env.RemoveTestContainers with
        | some removeErr => .wrap removeErr manualCtfCleanupMsg
        | none => .wrap startErr "failed to start environment") := by
  have hb : startCmdBody env f =
      startFailurePath env f (startCallOf env f cfg).cfg startErr
        (preStartTrace env f ++ (startCallOf env f cfg).trace) := by
    rw [startCmdBody_of_reaches env f cfg hreach]; simp only [afterStart, ho]
  rw [startFailurePath_eq] at hb
  rw [startCmdRunE_of_ret env f _ (by rw [hb])]

/-! ## C9: a capability without a binary is omitted, not rejected -/

theorem hexDigit_mem : ∀ n, n < 16 → hex.hexDigit n ∈ "0123456789abcdef".toList := by
  decide

theorem hex_EncodeToString_data (bs : List Nat) :
    (hex.EncodeToString bs).data.length = 2 * bs.length ∧
    ∀ c ∈ (hex.EncodeToString bs).data, c ∈ "0123456789abcdef".toList := by
  unfold hex.EncodeToString
  induction bs with
  | nil => simp
  | cons b rest ih =>
    obtain ⟨ih1, ih2⟩ := ih
    simp only [List.flatMap_cons, List.cons_append, List.nil_append, List.length_cons,
      List.mem_cons] at ih1 ih2 ⊢
    constructor
    · omega
    · intro c hc
      rcases hc with hc | hc | hc
      · rw [hc]; exact hexDigit_mem _ (by omega)
      · rw [hc]; exact hexDigit_mem _ (by omega)
      · exact ih2 c hc

theorem csaKeyOfBytes_ret (bs : List Nat) (key : String) (h : csaKeyOfBytes bs = .ret key) :
    32 ≤ bs.length ∧ key = hex.EncodeToString (bs.take 32) ∧ key.length = 64 ∧ key ≠ "" ∧
    ∀ c ∈ key.toList, c ∈ "0123456789abcdef".toList := by
  unfold csaKeyOfBytes at h
  split at h
  · simp at h
  · next hlen =>
    simp only [Outcome.ret.injEq] at h
    subst h
    obtain ⟨h1, h2⟩ := hex_EncodeToString_data (bs.take 32)
    have hl : (hex.EncodeToString (bs.take 32)).length = 64 := by
      show (hex.EncodeToString (bs.take 32)).data.length = 64
      rw [h1, List.length_take]
      omega
    refine ⟨by omega, rfl, hl, ?_, h2⟩
    intro he
    rw [he] at hl
    simp at hl

/-- C10: whenever `StartCLIEnvironment` hands an input to the provider: if the
CSA encryption key of the request was empty, the key generator was called
exactly once and succeeded, the key is the hexadecimal encoding of the first
32 bytes of the private key (64 characters out of `0123456789abcdef`, so not
empty), and this one key is both the key of the JD input handed to the
provider and the key left in the caller's request; if a key was supplied, no
key is generated and the supplied key is handed to the provider and stays in
the request. -/
theorem StartCLIEnvironment_csa_key (env : StartEnv) (cfg : Config)
    (topologyFlag workflowTrigger img : String) (withExampleFlag : Bool)
    (ports : List Int) (extraBinaries : List (String × String))
    (extraJobFactoryFns : List JobSpecFactory) (si : SetupInput)
    (h : Event.setupTestEnvironment si ∈
      (StartCLIEnvironment env cfg topologyFlag workflowTrigger img withExampleFlag ports
        extraBinaries extraJobFactoryFns).trace) :
    (cfg.JD.CSAEncryptionKey = "" →
      ∃ bs, env.GenerateKey = .ok bs ∧ 32 ≤ bs.length ∧
        si.JdInput.CSAEncryptionKey = hex.EncodeToString (bs.take 32) ∧
        si.JdInput.CSAEncryptionKey.length = 64 ∧
        si.JdInput.CSAEncryptionKey ≠ "" ∧
        (∀ c ∈ si.JdInput.CSAEncryptionKey.toList, c ∈ "0123456789abcdef".toList) ∧
        (StartCLIEnvironment env cfg topologyFlag workflowTrigger img withExampleFlag ports
          extraBinaries extraJobFactoryFns).trace.count .generateKey = 1 ∧
        (StartCLIEnvironment env cfg topologyFlag workflowTrigger img withExampleFlag ports
          extraBinaries extraJobFactoryFns).cfg.JD.CSAEncryptionKey =
            si.JdInput.CSAEncryptionKey) ∧
    (cfg.JD.CSAEncryptionKey ≠ "" →
      (StartCLIEnvironment env cfg topologyFlag workflowTrigger img withExampleFlag ports
          extraBinaries extraJobFactoryFns).trace.count .generateKey = 0 ∧
      si.JdInput.CSAEncryptionKey = cfg.JD.CSAEncryptionKey ∧
      (StartCLIEnvironment env cfg topologyFlag workflowTrigger img withExampleFlag ports
          extraBinaries extraJobFactoryFns).cfg.JD.CSAEncryptionKey =
            cfg.JD.CSAEncryptionKey) := by
  obtain ⟨planned, paths, fs, _, _, _, _, hst⟩ :=
    StartCLIEnvironment_setup_stages env cfg topologyFlag workflowTrigger img withExampleFlag
      ports extraBinaries extraJobFactoryFns si h
  rw [hst] at h ⊢
  have hkey : (cfg.withNodeSetsOf (applyPluginsImage img planned).1).JD.CSAEncryptionKey =
      cfg.JD.CSAEncryptionKey := rfl
  rcases keyStage_setup_input _ _ _ _ _ _ _ h with
    ⟨hne, htr, hcfg, hsi⟩ | ⟨he, bs, key, hg, hk, htr, hcfg, hsi⟩
  · rw [hkey] at hne
    constructor
    · intro he; exact absurd he hne
    · intro _
      rw [htr, hcfg, hsi]
      exact ⟨by simp, rfl, rfl⟩
  · rw [hkey] at he
    constructor
    · intro _
      obtain ⟨k1, k2, k3, k4, k5⟩ := csaKeyOfBytes_ret bs key hk
      have hsk : si.JdInput.CSAEncryptionKey = key := by rw [hsi]; rfl
      rw [htr, hcfg, hsk]
      exact ⟨bs, hg, k1, k2, k3, k4, k5, by simp [List.count_cons], rfl⟩
    · intro hne; exact absurd he hne

/-- C10, at an input: the example request has no key, the generator yields
the bytes 0 to 31. -/
theorem StartCLIEnvironment_csa_key_witness :
    Event.setupTestEnvironment exampleSetupInput ∈
      (StartCLIEnvironment exampleStartEnv (exampleConfig [exampleNodeSet "workflow"])
        "simplified" "web-trigger" "" false [] [] []).trace ∧
    (exampleConfig [exampleNodeSet "workflow"]).JD.CSAEncryptionKey = "" ∧
    exampleSetupInput.JdInput.CSAEncryptionKey.length = 64 ∧
    (StartCLIEnvironment exampleStartEnv (exampleConfig [exampleNodeSet "workflow"])
        "simplified" "web-trigger" "" false [] [] []).cfg.JD.CSAEncryptionKey =
      exampleSetupInput.JdInput.CSAEncryptionKey := by
  have hmem : Event.setupTestEnvironment exampleSetupInput ∈
      (StartCLIEnvironment exampleStartEnv (exampleConfig [exampleNodeSet "workflow"])
        "simplified" "web-trigger" "" false [] [] []).trace := by
    rw [exampleRun_trace]; simp
  obtain ⟨bs, _, _, _, h4, _, _, _, h8⟩ := (StartCLIEnvironment_csa_key exampleStartEnv
    (exampleConfig [exampleNodeSet "workflow"]) "simplified" "web-trigger" "" false [] [] []
    exampleSetupInput hmem).1 rfl
  exact ⟨hmem, rfl, h4, h8⟩

/-! ## The input handed to the provider, field by field -/

/-- The input that `StartCLIEnvironment` hands to the provider: every stage
before the call has succeeded, and apart from the CSA encryption key the input
is assembled from the request, the planned descriptors after the image
override, the binary-path map and the factories. -/
theorem StartCLIEnvironment_setup_input_fields (env : StartEnv) (cfg : Config)
    (topologyFlag workflowTrigger img : String) (withExampleFlag : Bool)
    (ports : List Int) (extraBinaries : List (String × String))
    (extraJobFactoryFns : List JobSpecFactory) (si : SetupInput)
    (h : Event.setupTestEnvironment si ∈
      (StartCLIEnvironment env cfg topologyFlag workflowTrigger img withExampleFlag ports
        extraBinaries extraJobFactoryFns).trace) :
    ∃ planned paths fs,
      ¬ cronPrecheckFails cfg workflowTrigger img withExampleFlag ∧
      planTopology cfg topologyFlag img extraBinaries = .ok (planned, paths) ∧
      (applyPluginsImage img planned).2 = false ∧
      assembleFactories env (cfg.withNodeSetsOf (applyPluginsImage img planned).1) img ports
        extraJobFactoryFns = .ok fs ∧
      si.CapabilitiesAwareNodeSets = (applyPluginsImage img planned).1 ∧
      si.CapabilitiesContractFactoryFunctions = fs.caps ∧
      si.JobSpecFactoryFunctions = fs.jobs ∧
      si.BlockchainsInput = cfg.Blockchains ∧
      si.InfraInput = cfg.Infra ∧
      si.CustomBinariesPaths = (if img = "" then some paths else none) ∧
      (StartCLIEnvironment env cfg topologyFlag workflowTrigger img withExampleFlag ports
        extraBinaries extraJobFactoryFns).cfg.NodeSets =
          (applyPluginsImage img planned).1.map (fun s => s.Input) := by
  obtain ⟨planned, paths, fs, h1, h2, h3, h4, hst⟩ :=
    StartCLIEnvironment_setup_stages env cfg topologyFlag workflowTrigger img withExampleFlag
      ports extraBinaries extraJobFactoryFns si h
  rw [hst] at h ⊢
  refine ⟨planned, paths, fs, h1, h2, h3, h4, ?_⟩
  rcases keyStage_setup_input _ _ _ _ _ _ _ h with
    ⟨_, _, hcfg, hsi⟩ | ⟨_, _, _, _, _, _, hcfg, hsi⟩ <;>
    rw [hcfg, hsi] <;> exact ⟨rfl, rfl, rfl, rfl, rfl, rfl, rfl⟩

theorem chainLoop_jobs (containerPath logName readName : String)
    (chains : List WrappedBlockchainInput) (acc fs : Factories)
    (h : chainLoop containerPath logName readName chains acc = .ok fs) :
    fs.jobs = acc.jobs ++
      chains.flatMap (chainJobSpecFactories containerPath logName readName) := by
  induction chains generalizing acc with
  | nil =>
    simp only [chainLoop] at h
    cases h
    simp
  | cons b rest ih =>
    unfold chainLoop at h
    cases ha : Atoi b.ChainID with
    | error e => simp [ha] at h
    | ok chainID =>
      simp only [ha] at h
      by_cases hneg : chainID < 0
      · simp [MustSafeUint64, hneg] at h
      · simp only [MustSafeUint64, hneg, if_false] at h
        rw [ih _ h]
        simp [List.flatMap_cons, chainJobSpecFactories, ha]

/-- The job-spec factories that the assembly yields: the six built-in ones,
then the caller's, then two per chain. -/
theorem assembleFactories_jobs (env : StartEnv) (cfg : Config) (img : String)
    (ports : List Int) (extraJobFactoryFns : List JobSpecFactory) (fs : Factories)
    (h : assembleFactories env cfg img ports extraJobFactoryFns = .ok fs) :
    ∃ containerPath home rest homeChainID,
      env.DefaultContainerDirectory cfg.Infra.InfraType = .ok containerPath ∧
      cfg.Blockchains = home :: rest ∧
      Atoi home.ChainID = .ok homeChainID ∧ 0 ≤ homeChainID ∧
      fs.jobs =
        builtinJobSpecFactories homeChainID.toNat containerPath
            (binaryName img cfg.ExtraCapabilities.CronCapabilityBinaryPath "cron") ports ++
          extraJobFactoryFns ++
          cfg.Blockchains.flatMap (chainJobSpecFactories containerPath
            (binaryName img cfg.ExtraCapabilities.LogEventTriggerBinaryPath "log-event-trigger")
            (binaryName img cfg.ExtraCapabilities.ReadContractBinaryPath "readcontract")) := by
  unfold assembleFactories at h
  cases hd : env.DefaultContainerDirectory cfg.Infra.InfraType with
  | error e => simp [hd] at h
  | ok containerPath =>
    simp only [hd] at h
    cases hb : cfg.Blockchains with
    | nil => simp [hb] at h
    | cons home rest =>
      simp only [hb] at h
      cases ha : Atoi home.ChainID with
      | error e => simp [ha] at h
      | ok homeID =>
        simp only [ha] at h
        by_cases hneg : homeID < 0
        · simp [MustSafeUint64, hneg] at h
        · simp only [MustSafeUint64, hneg, if_false] at h
          refine ⟨containerPath, home, rest, homeID, rfl, rfl, ha, not_lt.mp hneg, ?_⟩
          rw [chainLoop_jobs _ _ _ _ _ _ h]
          rfl

/-! ## C11: position of the caller's job-spec factories -/

theorem exampleRunWithExtensions_trace :
    (StartCLIEnvironment exampleStartEnv (exampleConfig [exampleNodeSet "workflow"])
        "simplified" "web-trigger" "" false [] [] [.Extension 1, .Extension 2]).trace =
      [.generateKey,
       .stdout "Generated new CSA encryption key for JD: 000102030405060708090a0b0c0d0e0f101112131415161718191a1b1c1d1e1f\n",
       .setupTestEnvironment exampleSetupInputWithExtensions] := by
  rfl

/-- C11, as stated, fails: the caller's factories are appended before the
loop over the chains, so in the list handed to the provider the extension
`Extension 1` stands before the built-in log-event-trigger and read-contract
factories of the chains. -/
theorem extension_factories_before_chain_factories :
    (StartCLIEnvironment exampleStartEnv (exampleConfig [exampleNodeSet "workflow"])
        "simplified" "web-trigger" "" false [] [] [.Extension 1, .Extension 2]).trace =
      [.generateKey,
       .stdout "Generated new CSA encryption key for JD: 000102030405060708090a0b0c0d0e0f101112131415161718191a1b1c1d1e1f\n",
       .setupTestEnvironment exampleSetupInputWithExtensions] ∧
    exampleSetupInputWithExtensions.JobSpecFactoryFunctions.indexOf (.Extension 1) <
      exampleSetupInputWithExtensions.JobSpecFactoryFunctions.indexOf
        (.LogEventTrigger 1337 "evm" "/home/capabilities") ∧
    exampleSetupInputWithExtensions.JobSpecFactoryFunctions.indexOf (.Extension 1) <
      exampleSetupInputWithExtensions.JobSpecFactoryFunctions.indexOf
        (.ReadContract 2337 "evm" "/home/capabilities") := by
  refine ⟨rfl, by decide, by decide⟩

/-- C11 (amended): in the job-spec factory list that `StartCLIEnvironment`
hands to the provider, the caller's extension factories stand in their own
order, as one block, after the six built-in factories of the literal (web API
trigger, web API target, consensus, cron, gateway, compute) and before the
built-in per-chain factories (log-event trigger and read-contract of every
chain, in the order of the chains). -/
theorem StartCLIEnvironment_job_spec_factory_order (env : StartEnv) (cfg : Config)
    (topologyFlag workflowTrigger img : String) (withExampleFlag : Bool)
    (ports : List Int) (extraBinaries : List (String × String))
    (extraJobFactoryFns : List JobSpecFactory) (si : SetupInput)
    (h : Event.setupTestEnvironment si ∈
      (StartCLIEnvironment env cfg topologyFlag workflowTrigger img withExampleFlag ports
        extraBinaries extraJobFactoryFns).trace) :
    ∃ containerPath home rest homeChainID,
      env.DefaultContainerDirectory cfg.Infra.InfraType = .ok containerPath ∧
      cfg.Blockchains = home :: rest ∧
      Atoi home.ChainID = .ok homeChainID ∧ 0 ≤ homeChainID ∧
      si.JobSpecFactoryFunctions =
        builtinJobSpecFactories homeChainID.toNat containerPath
            (binaryName img cfg.ExtraCapabilities.CronCapabilityBinaryPath "cron") ports ++
          extraJobFactoryFns ++
          cfg.Blockchains.flatMap (chainJobSpecFactories containerPath
            (binaryName img cfg.ExtraCapabilities.LogEventTriggerBinaryPath "log-event-trigger")
            (binaryName img cfg.ExtraCapabilities.ReadContractBinaryPath "readcontract")) ∧
      (builtinJobSpecFactories homeChainID.toNat containerPath
          (binaryName img cfg.ExtraCapabilities.CronCapabilityBinaryPath "cron") ports).length
        = 6 ∧
      (si.JobSpecFactoryFunctions.drop 6).take extraJobFactoryFns.length =
        extraJobFactoryFns := by
  obtain ⟨planned, paths, fs, _, _, _, hfs, _, _, hjobs, _⟩ :=
    StartCLIEnvironment_setup_input_fields env cfg topologyFlag workflowTrigger img
      withExampleFlag ports extraBinaries extraJobFactoryFns si h
  obtain ⟨containerPath, home, rest, homeChainID, h1, h2, h3, h4, h5⟩ :=
    assembleFactories_jobs _ _ _ _ _ _ hfs
  have h5' : si.JobSpecFactoryFunctions =
      builtinJobSpecFactories homeChainID.toNat containerPath
            (binaryName img cfg.ExtraCapabilities.CronCapabilityBinaryPath "cron") ports ++
          extraJobFactoryFns ++
          cfg.Blockchains.flatMap (chainJobSpecFactories containerPath
            (binaryName img cfg.ExtraCapabilities.LogEventTriggerBinaryPath "log-event-trigger")
            (binaryName img cfg.ExtraCapabilities.ReadContractBinaryPath "readcontract")) := by
    rw [hjobs]; exact h5
  refine ⟨containerPath, home, rest, homeChainID, h1, h2, h3, h4, h5', rfl, ?_⟩
  rw [h5', List.append_assoc]
  simp [builtinJobSpecFactories]

/-- C11 (amended), at an input: the example request with two extension
factories. -/
theorem StartCLIEnvironment_job_spec_factory_order_witness :
    Event.setupTestEnvironment exampleSetupInputWithExtensions ∈
      (StartCLIEnvironment exampleStartEnv (exampleConfig [exampleNodeSet "workflow"])
        "simplified" "web-trigger" "" false [] [] [.Extension 1, .Extension 2]).trace ∧
    (exampleSetupInputWithExtensions.JobSpecFactoryFunctions.drop 6).take 2 =
      [.Extension 1, .Extension 2] := by
  have hmem : Event.setupTestEnvironment exampleSetupInputWithExtensions ∈
      (StartCLIEnvironment exampleStartEnv (exampleConfig [exampleNodeSet "workflow"])
        "simplified" "web-trigger" "" false [] [] [.Extension 1, .Extension 2]).trace := by
    rw [exampleRunWithExtensions_trace]; simp
  obtain ⟨_, _, _, _, _, _, _, _, _, _, h⟩ := StartCLIEnvironment_job_spec_factory_order
    exampleStartEnv (exampleConfig [exampleNodeSet "workflow"]) "simplified" "web-trigger" ""
    false [] [] [.Extension 1, .Extension 2] exampleSetupInputWithExtensions hmem
  exact ⟨hmem, h⟩

/-! ## C12: override of the node specs by the shared image -/

theorem overrideNodeSpecs_spec (img : String) (specs : List NodeSpec) :
    ((overrideNodeSpecs img specs).2 = false ↔ ∀ spec ∈ specs, spec.Node ≠ none) ∧
    ((overrideNodeSpecs img specs).2 = false →
      (overrideNodeSpecs img specs).1.length = specs.length ∧
      ∀ spec ∈ (overrideNodeSpecs img specs).1, spec.Node = some (sharedImageNode img)) := by
  induction specs with
  | nil => simp [overrideNodeSpecs]
  | cons s rest ih =>
    obtain ⟨ih1, ih2⟩ := ih
    cases hn : s.Node with
    | none =>
      simp only [overrideNodeSpecs, hn]
      refine ⟨⟨fun h => by simp at h, fun h => ?_⟩, fun h => by simp at h⟩
      exact absurd hn (h s (List.mem_cons_self _ _))
    | some n =>
      simp only [overrideNodeSpecs, hn]
      constructor
      · rw [ih1]
        constructor
        · intro h spec hs
          rcases List.mem_cons.mp hs with e | e
          · rw [e, hn]; simp
          · exact h spec e
        · intro h spec hs
          exact h spec (List.mem_cons_of_mem _ hs)
      · intro h
        obtain ⟨l, m⟩ := ih2 h
        refine ⟨by simp [l], ?_⟩
        intro spec hs
        rcases List.mem_cons.mp hs with e | e
        · rw [e]; rfl
        · exact m spec e

theorem overrideNodeSets_spec (img : String) (sets : List CapabilitiesAwareNodeSet) :
    ((overrideNodeSets img sets).2 = false ↔
      ∀ s ∈ sets, ∀ spec ∈ s.Input.NodeSpecs, spec.Node ≠ none) ∧
    ((overrideNodeSets img sets).2 = false →
      (overrideNodeSets img sets).1.map descriptorFrame = sets.map descriptorFrame ∧
      ∀ s ∈ (overrideNodeSets img sets).1, ∀ spec ∈ s.Input.NodeSpecs,
        spec.Node = some (sharedImageNode img)) := by
  induction sets with
  | nil => simp [overrideNodeSets]
  | cons s rest ih =>
    obtain ⟨ih1, ih2⟩ := ih
    obtain ⟨k1, k2⟩ := overrideNodeSpecs_spec img s.Input.NodeSpecs
    cases hb : (overrideNodeSpecs img s.Input.NodeSpecs).2 with
    | true =>
      simp only [overrideNodeSets, hb, if_true]
      refine ⟨⟨fun h => by simp at h, fun h => ?_⟩, fun h => by simp at h⟩
      have := k1.mpr (h s (List.mem_cons_self _ _))
      rw [hb] at this
      exact absurd this (by simp)
    | false =>
      simp only [overrideNodeSets, hb]
      have hall := k1.mp hb
      obtain ⟨l, m⟩ := k2 hb
      constructor
      · simp only [Bool.false_eq_true, if_false]
        rw [ih1]
        constructor
        · intro h s' hs'
          rcases List.mem_cons.mp hs' with e | e
          · rw [e]; exact hall
          · exact h s' e
        · intro h s' hs'
          exact h s' (List.mem_cons_of_mem _ hs')
      · simp only [Bool.false_eq_true, if_false]
        intro h
        obtain ⟨a, b⟩ := ih2 h
        constructor
        · simp only [List.map_cons, a]
          congr 1
          simp [descriptorFrame, l]
        · intro s' hs' spec hspec
          rcases List.mem_cons.mp hs' with e | e
          · rw [e] at hspec
            exact m spec hspec
          · exact b s' e spec hspec

/-- The node sets of the planned descriptors are the node sets of the
request. -/
theorem planTopology_inputs (cfg : Config) (topologyFlag img : String)
    (extraBinaries : List (String × String)) (planned : List CapabilitiesAwareNodeSet)
    (paths : StringMap)
    (h : planTopology cfg topologyFlag img extraBinaries = .ok (planned, paths)) :
    planned.map (fun s => s.Input) = cfg.NodeSets := by
  unfold planTopology at h
  split at h
  · split at h
    · next n0 hn =>
      simp only [Except.ok.injEq, Prod.mk.injEq] at h
      rw [← h.1, hn]; rfl
    · simp at h
  · split at h
    · next n0 n1 n2 hn =>
      simp only [Except.ok.injEq, Prod.mk.injEq] at h
      rw [← h.1, hn]; rfl
    · simp at h

/-- C12: whenever `StartCLIEnvironment` hands an input to the provider, the
descriptors of that input are the planned ones, whose node sets are those of
the request, up to the override. With a shared image every node of every node
spec was non-nil and every node spec of every node group now carries exactly
the shared image with an empty build context and an empty Docker file path,
whatever it carried before, while names, numbers of node specs, capabilities,
roles and node indices are as planned; the request shows the same node sets.
With no shared image the descriptors carry the node sets of the request
unchanged and the request keeps its node sets. -/
theorem StartCLIEnvironment_shared_image_override (env : StartEnv) (cfg : Config)
    (topologyFlag workflowTrigger img : String) (withExampleFlag : Bool)
    (ports : List Int) (extraBinaries : List (String × String))
    (extraJobFactoryFns : List JobSpecFactory) (si : SetupInput)
    (h : Event.setupTestEnvironment si ∈
      (StartCLIEnvironment env cfg topologyFlag workflowTrigger img withExampleFlag ports
        extraBinaries extraJobFactoryFns).trace) :
    ∃ planned paths,
      planTopology cfg topologyFlag img extraBinaries = .ok (planned, paths) ∧
      planned.map (fun s => s.Input) = cfg.NodeSets ∧
      si.CapabilitiesAwareNodeSets.map descriptorFrame = planned.map descriptorFrame ∧
      (StartCLIEnvironment env cfg topologyFlag workflowTrigger img withExampleFlag ports
        extraBinaries extraJobFactoryFns).cfg.NodeSets =
          si.CapabilitiesAwareNodeSets.map (fun s => s.Input) ∧
      (img ≠ "" →
        (∀ n ∈ cfg.NodeSets, ∀ spec ∈ n.NodeSpecs, spec.Node ≠ none) ∧
        ∀ s ∈ si.CapabilitiesAwareNodeSets, ∀ spec ∈ s.Input.NodeSpecs,
          spec.Node = some (sharedImageNode img)) ∧
      (img = "" →
        si.CapabilitiesAwareNodeSets = planned ∧
        si.CapabilitiesAwareNodeSets.map (fun s => s.Input) = cfg.NodeSets) := by
  obtain ⟨planned, paths, fs, _, hplan, hov, _, hsets, _, _, _, _, _, hcfg⟩ :=
    StartCLIEnvironment_setup_input_fields env cfg topologyFlag workflowTrigger img
      withExampleFlag ports extraBinaries extraJobFactoryFns si h
  have hin := planTopology_inputs cfg topologyFlag img extraBinaries planned paths hplan
  refine ⟨planned, paths, hplan, hin, ?_, by rw [hcfg, hsets], ?_, ?_⟩
  · rw [hsets]
    unfold applyPluginsImage at hov ⊢
    by_cases hi : img = ""
    · simp [hi]
    · simp only [ne_eq, hi, not_false_eq_true, if_true] at hov ⊢
      exact ((overrideNodeSets_spec img planned).2 hov).1
  · intro hi
    unfold applyPluginsImage at hov hsets
    simp only [ne_eq, hi, not_false_eq_true, if_true] at hov hsets
    obtain ⟨k1, k2⟩ := overrideNodeSets_spec img planned
    constructor
    · intro n hn spec hspec
      rw [← hin] at hn
      obtain ⟨s, hs, rfl⟩ := List.mem_map.mp hn
      exact k1.mp hov s hs spec hspec
    · rw [hsets]
      exact (k2 hov).2
  · intro hi
    unfold applyPluginsImage at hsets
    simp only [hi, ne_eq, not_true_eq_false, if_false] at hsets
    rw [hsets]
    exact ⟨rfl, hin⟩

theorem exampleRunWithImage_trace :
    (StartCLIEnvironment exampleStartEnv (exampleConfig [exampleNodeSet "workflow"])
        "simplified" "web-trigger" "chainlink:plugins" false [] [] []).trace =
      [.generateKey,
       .stdout "Generated new CSA encryption key for JD: 000102030405060708090a0b0c0d0e0f101112131415161718191a1b1c1d1e1f\n",
       .setupTestEnvironment exampleSetupInputWithImage] := by
  rfl

theorem exampleRunWithCron_trace :
    (StartCLIEnvironment exampleStartEnv (exampleConfigCron [exampleNodeSet "workflow"])
        "simplified" "web-trigger" "" false [] [] []).trace =
      [.generateKey,
       .stdout "Generated new CSA encryption key for JD: 000102030405060708090a0b0c0d0e0f101112131415161718191a1b1c1d1e1f\n",
       .setupTestEnvironment exampleSetupInputWithCron] := by
  rfl

/-- C12, at an input: the example request under the shared image
`chainlink:plugins`; its node was built from a Dockerfile before. -/
theorem StartCLIEnvironment_shared_image_override_witness :
    Event.setupTestEnvironment exampleSetupInputWithImage ∈
      (StartCLIEnvironment exampleStartEnv (exampleConfig [exampleNodeSet "workflow"])
        "simplified" "web-trigger" "chainlink:plugins" false [] [] []).trace ∧
    (∀ s ∈ exampleSetupInputWithImage.CapabilitiesAwareNodeSets, ∀ spec ∈ s.Input.NodeSpecs,
      spec.Node = some (sharedImageNode "chainlink:plugins")) ∧
    (StartCLIEnvironment exampleStartEnv (exampleConfig [exampleNodeSet "workflow"])
        "simplified" "web-trigger" "chainlink:plugins" false [] [] []).cfg.NodeSets =
      exampleSetupInputWithImage.CapabilitiesAwareNodeSets.map (fun s => s.Input) := by
  have hmem : Event.setupTestEnvironment exampleSetupInputWithImage ∈
      (StartCLIEnvironment exampleStartEnv (exampleConfig [exampleNodeSet "workflow"])
        "simplified" "web-trigger" "chainlink:plugins" false [] [] []).trace := by
    rw [exampleRunWithImage_trace]; simp
  obtain ⟨_, _, _, _, _, h4, h5, _⟩ := StartCLIEnvironment_shared_image_override
    exampleStartEnv (exampleConfig [exampleNodeSet "workflow"]) "simplified" "web-trigger"
    "chainlink:plugins" false [] [] [] exampleSetupInputWithImage hmem
  exact ⟨hmem, (h5 (by decide)).2, h4⟩

/-! ## C13: binary paths inside the container -/

/-- C13: whenever `StartCLIEnvironment` hands an input to the provider, the
container directory was resolved, every chain ID has parsed, and in the
job-spec factory list the built-in cron factory (fourth of the list) and the
per-chain log-event-trigger and read-contract factories (all factories after
the six built-in ones and the caller's) carry as binary path
`filepath.Join` of the container directory and a binary name; the name is the
well-known one (`cron`, `log-event-trigger`, `readcontract`) whenever the
shared image flag is non-empty, and `filepath.Base` of the host binary path of
the configuration otherwise. -/
theorem StartCLIEnvironment_binary_paths (env : StartEnv) (cfg : Config)
    (topologyFlag workflowTrigger img : String) (withExampleFlag : Bool)
    (ports : List Int) (extraBinaries : List (String × String))
    (extraJobFactoryFns : List JobSpecFactory) (si : SetupInput)
    (h : Event.setupTestEnvironment si ∈
      (StartCLIEnvironment env cfg topologyFlag workflowTrigger img withExampleFlag ports
        extraBinaries extraJobFactoryFns).trace) :
    ∃ containerPath,
      env.DefaultContainerDirectory cfg.Infra.InfraType = .ok containerPath ∧
      si.JobSpecFactoryFunctions[3]? =
        some (.Cron (filepath.Join [containerPath,
          if img ≠ "" then "cron"
          else filepath.Base cfg.ExtraCapabilities.CronCapabilityBinaryPath])) ∧
      si.JobSpecFactoryFunctions.drop (6 + extraJobFactoryFns.length) =
        cfg.Blockchains.flatMap (chainJobSpecFactories containerPath
          (if img ≠ "" then "log-event-trigger"
           else filepath.Base cfg.ExtraCapabilities.LogEventTriggerBinaryPath)
          (if img ≠ "" then "readcontract"
           else filepath.Base cfg.ExtraCapabilities.ReadContractBinaryPath)) ∧
      ∀ b ∈ cfg.Blockchains, ∃ chainID : Int, Atoi b.ChainID = .ok chainID ∧
        chainJobSpecFactories containerPath
          (if img ≠ "" then "log-event-trigger"
           else filepath.Base cfg.ExtraCapabilities.LogEventTriggerBinaryPath)
          (if img ≠ "" then "readcontract"
           else filepath.Base cfg.ExtraCapabilities.ReadContractBinaryPath) b =
          [.LogEventTrigger chainID "evm" (filepath.Join [containerPath,
              if img ≠ "" then "log-event-trigger"
              else filepath.Base cfg.ExtraCapabilities.LogEventTriggerBinaryPath]),
           .ReadContract chainID "evm" (filepath.Join [containerPath,
              if img ≠ "" then "readcontract"
              else filepath.Base cfg.ExtraCapabilities.ReadContractBinaryPath])] := by
  obtain ⟨planned, paths, fs, _, _, _, hfs, _, _, hjobs, _⟩ :=
    StartCLIEnvironment_setup_input_fields env cfg topologyFlag workflowTrigger img
      withExampleFlag ports extraBinaries extraJobFactoryFns si h
  obtain ⟨containerPath, home, rest, homeChainID, h1, _, _, _, h5⟩ :=
    assembleFactories_jobs _ _ _ _ _ _ hfs
  obtain ⟨_, hids⟩ := assembleFactories_caps _ _ _ _ _ _ hfs
  have hids' : ∀ b ∈ cfg.Blockchains, ∃ chainID : Int,
      Atoi b.ChainID = .ok chainID ∧ 0 ≤ chainID := hids
  have h5' : si.JobSpecFactoryFunctions =
      builtinJobSpecFactories homeChainID.toNat containerPath
            (binaryName img cfg.ExtraCapabilities.CronCapabilityBinaryPath "cron") ports ++
          (extraJobFactoryFns ++
          cfg.Blockchains.flatMap (chainJobSpecFactories containerPath
            (binaryName img cfg.ExtraCapabilities.LogEventTriggerBinaryPath "log-event-trigger")
            (binaryName img cfg.ExtraCapabilities.ReadContractBinaryPath "readcontract"))) := by
    rw [hjobs, ← List.append_assoc]; exact h5
  refine ⟨containerPath, h1, ?_, ?_, ?_⟩
  · rw [h5']
    simp [builtinJobSpecFactories, binaryName]
  · rw [h5', ← List.append_assoc]
    have hlen : (builtinJobSpecFactories homeChainID.toNat containerPath
        (binaryName img cfg.ExtraCapabilities.CronCapabilityBinaryPath "cron") ports ++
        extraJobFactoryFns).length = 6 + extraJobFactoryFns.length := by
      simp [builtinJobSpecFactories]; omega
    rw [List.drop_left' hlen]
    simp [binaryName]
  · intro b hb
    obtain ⟨chainID, ha, _⟩ := hids' b hb
    exact ⟨chainID, ha, by simp [chainJobSpecFactories, ha]⟩

/-- C13, at two inputs: under the shared image the cron factory gets the
well-known name, and with the host binary `/usr/local/bin/cron` and no image
it gets the file name `cron` of that path. -/
theorem StartCLIEnvironment_binary_paths_witness :
    (Event.setupTestEnvironment exampleSetupInputWithImage ∈
      (StartCLIEnvironment exampleStartEnv (exampleConfig [exampleNodeSet "workflow"])
        "simplified" "web-trigger" "chainlink:plugins" false [] [] []).trace ∧
     exampleSetupInputWithImage.JobSpecFactoryFunctions[3]? =
       some (.Cron (filepath.Join ["/home/capabilities", "cron"]))) ∧
    (Event.setupTestEnvironment exampleSetupInputWithCron ∈
      (StartCLIEnvironment exampleStartEnv (exampleConfigCron [exampleNodeSet "workflow"])
        "simplified" "web-trigger" "" false [] [] []).trace ∧
     exampleSetupInputWithCron.JobSpecFactoryFunctions[3]? =
       some (.Cron (filepath.Join ["/home/capabilities",
         filepath.Base "/usr/local/bin/cron"])) ∧
     filepath.Base "/usr/local/bin/cron" = "cron") := by
  have hmem1 : Event.setupTestEnvironment exampleSetupInputWithImage ∈
      (StartCLIEnvironment exampleStartEnv (exampleConfig [exampleNodeSet "workflow"])
        "simplified" "web-trigger" "chainlink:plugins" false [] [] []).trace := by
    rw [exampleRunWithImage_trace]; simp
  have hmem2 : Event.setupTestEnvironment exampleSetupInputWithCron ∈
      (StartCLIEnvironment exampleStartEnv (exampleConfigCron [exampleNodeSet "workflow"])
        "simplified" "web-trigger" "" false [] [] []).trace := by
    rw [exampleRunWithCron_trace]; simp
  obtain ⟨c1, d1, e1, _⟩ := StartCLIEnvironment_binary_paths exampleStartEnv
    (exampleConfig [exampleNodeSet "workflow"]) "simplified" "web-trigger"
    "chainlink:plugins" false [] [] [] exampleSetupInputWithImage hmem1
  obtain ⟨c2, d2, e2, _⟩ := StartCLIEnvironment_binary_paths exampleStartEnv
    (exampleConfigCron [exampleNodeSet "workflow"]) "simplified" "web-trigger"
    "" false [] [] [] exampleSetupInputWithCron hmem2
  have hc1 : c1 = "/home/capabilities" := by
    have : (Except.ok "/home/capabilities" : Except GoErr String) = .ok c1 := d1
    injection this with this; exact this.symm
  have hc2 : c2 = "/home/capabilities" := by
    have : (Except.ok "/home/capabilities" : Except GoErr String) = .ok c2 := d2
    injection this with this; exact this.symm
  subst hc1 hc2
  exact ⟨⟨hmem1, e1⟩, ⟨hmem2, e2, rfl⟩⟩

/-! ## Descriptors of the input handed to the provider -/

/-- The descriptors handed to the provider agree with the planned ones in
everything but the node specs: name, number of node specs, capabilities,
roles and node indices. -/
theorem setup_descriptor_frames (env : StartEnv) (cfg : Config)
    (topologyFlag workflowTrigger img : String) (withExampleFlag : Bool)
    (ports : List Int) (extraBinaries : List (String × String))
    (extraJobFactoryFns : List JobSpecFactory) (si : SetupInput)
    (h : Event.setupTestEnvironment si ∈
      (StartCLIEnvironment env cfg topologyFlag workflowTrigger img withExampleFlag ports
        extraBinaries extraJobFactoryFns).trace) :
    ∃ planned paths,
      planTopology cfg topologyFlag img extraBinaries = .ok (planned, paths) ∧
      si.CapabilitiesAwareNodeSets.map descriptorFrame = planned.map descriptorFrame ∧
      si.CustomBinariesPaths = (if img = "" then some paths else none) := by
  obtain ⟨planned, paths, fs, _, hplan, hov, _, hsets, _, _, _, _, hbin, _⟩ :=
    StartCLIEnvironment_setup_input_fields env cfg topologyFlag workflowTrigger img
      withExampleFlag ports extraBinaries extraJobFactoryFns si h
  refine ⟨planned, paths, hplan, ?_, hbin⟩
  rw [hsets]
  unfold applyPluginsImage at hov ⊢
  by_cases hi : img = ""
  · simp [hi]
  · simp only [ne_eq, hi, not_false_eq_true, if_true] at hov ⊢
    exact ((overrideNodeSets_spec img planned).2 hov).1

theorem descriptorFrame_capabilities (a b : List CapabilitiesAwareNodeSet)
    (h : a.map descriptorFrame = b.map descriptorFrame) :
    a.map (fun s => s.Capabilities) = b.map (fun s => s.Capabilities) := by
  have := congrArg (List.map (fun (t : String × Nat × List String × List String × Int × Int) =>
    t.2.2.1)) h
  simpa [List.map_map, Function.comp_def, descriptorFrame] using this

theorem descriptorFrame_roles (a b : List CapabilitiesAwareNodeSet)
    (h : a.map descriptorFrame = b.map descriptorFrame) :
    a.map (fun s => (s.DONTypes, s.BootstrapNodeIndex)) =
      b.map (fun s => (s.DONTypes, s.BootstrapNodeIndex)) := by
  have := congrArg (List.map (fun (t : String × Nat × List String × List String × Int × Int) =>
    (t.2.2.2.1, t.2.2.2.2.1))) h
  simpa [List.map_map, Function.comp_def, descriptorFrame] using this

/-! ## C14: the mandatory capabilities of the simplified topology -/

/-- C14: for the simplified topology with one node set, no optional
capability binary path, no shared image and no extra binaries, planning
yields one descriptor whose capability list is exactly consensus (OCR3),
custom compute, write-EVM, web-API trigger and web-API target, with none of
cron, log-event trigger and read-contract, and an empty binary-path map; this
is the capability list of the descriptor handed to the provider. -/
theorem simplified_mandatory_capabilities (cfg : Config) (n0 : NsInput)
    (hn : cfg.NodeSets = [n0])
    (hcron : cfg.ExtraCapabilities.CronCapabilityBinaryPath = "")
    (hlog : cfg.ExtraCapabilities.LogEventTriggerBinaryPath = "")
    (hread : cfg.ExtraCapabilities.ReadContractBinaryPath = "") :
    planTopology cfg TopologySimplified "" [] =
      .ok ([{ Input := n0,
              Capabilities := [OCR3Capability, CustomComputeCapability, WriteEVMCapability,
                WebAPITriggerCapability, WebAPITargetCapability],
              DONTypes := [WorkflowDON, GatewayDON], BootstrapNodeIndex := 0,
              GatewayNodeIndex := 0 }], []) ∧
    CronCapability ∉ [OCR3Capability, CustomComputeCapability, WriteEVMCapability,
      WebAPITriggerCapability, WebAPITargetCapability] ∧
    LogTriggerCapability ∉ [OCR3Capability, CustomComputeCapability, WriteEVMCapability,
      WebAPITriggerCapability, WebAPITargetCapability] ∧
    ReadContractCapability ∉ [OCR3Capability, CustomComputeCapability, WriteEVMCapability,
      WebAPITriggerCapability, WebAPITargetCapability] ∧
    ∀ (env : StartEnv) (workflowTrigger : String) (withExampleFlag : Bool) (ports : List Int)
      (extraJobFactoryFns : List JobSpecFactory) (si : SetupInput),
      Event.setupTestEnvironment si ∈
        (StartCLIEnvironment env cfg TopologySimplified workflowTrigger "" withExampleFlag ports
          [] extraJobFactoryFns).trace →
      si.CapabilitiesAwareNodeSets.map (fun s => s.Capabilities) =
        [[OCR3Capability, CustomComputeCapability, WriteEVMCapability,
          WebAPITriggerCapability, WebAPITargetCapability]] ∧
      si.CustomBinariesPaths = some [] := by
  have hplan : planTopology cfg TopologySimplified "" [] =
      .ok ([{ Input := n0,
              Capabilities := [OCR3Capability, CustomComputeCapability, WriteEVMCapability,
                WebAPITriggerCapability, WebAPITargetCapability],
              DONTypes := [WorkflowDON, GatewayDON], BootstrapNodeIndex := 0,
              GatewayNodeIndex := 0 }], []) := by
    rw [planTopology_simplified_one cfg "" [] n0 hn]
    simp [simplifiedCapabilities, addExtraBinaries, addCapability, hcron, hlog, hread]
  refine ⟨hplan, by decide, by decide, by decide, ?_⟩
  intro env workflowTrigger withExampleFlag ports extraJobFactoryFns si h
  obtain ⟨planned, paths, hp, hframe, hbin⟩ := setup_descriptor_frames env cfg
    TopologySimplified workflowTrigger "" withExampleFlag ports [] extraJobFactoryFns si h
  rw [hplan] at hp
  simp only [Except.ok.injEq, Prod.mk.injEq] at hp
  obtain ⟨hp1, hp2⟩ := hp
  subst hp1 hp2
  exact ⟨descriptorFrame_capabilities _ _ hframe, by simpa using hbin⟩

/-- C14, at an input: the example request with one node set. -/
theorem simplified_mandatory_capabilities_witness :
    planTopology (exampleConfig [exampleNodeSet "workflow"]) TopologySimplified "" [] =
      .ok ([{ Input := exampleNodeSet "workflow",
              Capabilities := ["ocr3", "custom-compute", "write-evm", "web-api-trigger",
                "web-api-target"],
              DONTypes := [WorkflowDON, GatewayDON], BootstrapNodeIndex := 0,
              GatewayNodeIndex := 0 }], []) :=
  (simplified_mandatory_capabilities (exampleConfig [exampleNodeSet "workflow"])
    (exampleNodeSet "workflow") rfl rfl rfl rfl).1

/-! ## C15: a read-only chain and the capabilities group -/

/-- C15, as stated, fails: for the full topology with three node sets and the
read-only chain 2337 among the requested chains, with no read-contract binary
and no shared image, the capability list of the capabilities group (second
descriptor) contains the write-EVM capability and does not contain
read-contract. -/
theorem full_capabilities_group_ignores_read_only :
    (exampleConfig [exampleNodeSet "workflow", exampleNodeSet "capabilities",
        exampleNodeSet "gateway"]).Blockchains =
      [{ ChainID := "1337", ReadOnly := false }, { ChainID := "2337", ReadOnly := true }] ∧
    planTopology
        (exampleConfig [exampleNodeSet "workflow", exampleNodeSet "capabilities",
          exampleNodeSet "gateway"])
        "full" "" [] =
      .ok ([{ Input := exampleNodeSet "workflow",
              Capabilities := ["ocr3", "custom-compute", "web-api-trigger"],
              DONTypes := ["workflow"], BootstrapNodeIndex := 0, GatewayNodeIndex := 0 },
            { Input := exampleNodeSet "capabilities",
              Capabilities := ["write-evm", "web-api-target"],
              DONTypes := ["capabilities"], BootstrapNodeIndex := -1, GatewayNodeIndex := 0 },
            { Input := exampleNodeSet "gateway", Capabilities := [],
              DONTypes := ["gateway"], BootstrapNodeIndex := -1, GatewayNodeIndex := 0 }],
           []) ∧
    WriteEVMCapability ∈ ["write-evm", "web-api-target"] ∧
    ReadContractCapability ∉ ["write-evm", "web-api-target"] := by
  refine ⟨rfl, rfl, by decide, by decide⟩

theorem exampleRunFull_trace :
    (StartCLIEnvironment exampleStartEnv
        (exampleConfig [exampleNodeSet "workflow", exampleNodeSet "capabilities",
          exampleNodeSet "gateway"])
        "full" "web-trigger" "" false [] [] []).trace =
      [.generateKey,
       .stdout "Generated new CSA encryption key for JD: 000102030405060708090a0b0c0d0e0f101112131415161718191a1b1c1d1e1f\n",
       .setupTestEnvironment exampleSetupInputFull] := by
  rfl

/-- C15 (amended): for the full topology with three node sets, the capability
list of the capabilities group (second descriptor) does not depend on the
requested chains: planning gives the same result for every list of chains, the
list always contains the write-EVM capability, also when a chain is read-only,
and it contains read-contract if and only if the read-contract binary path or
the shared image is configured. Whenever `StartCLIEnvironment` hands an input
to the provider, the descriptors of that input carry these capability lists,
and a read-only chain shows in the capability contract factory list of that
input instead: the list is the five fixed factories followed by the factories
of every chain; for every read-only entry of the request the chain ID has
parsed, a read-contract and a log-event-trigger factory for that chain ID are
in the list, and a write-EVM factory for that chain ID is in the list only if
another entry of the request with the same chain ID is not read-only. -/
theorem full_capabilities_group_and_read_only_chain (cfg : Config) (topologyFlag img : String)
    (extraBinaries : List (String × String)) (n0 n1 n2 : NsInput)
    (ht : topologyFlag ≠ TopologySimplified) (h : cfg.NodeSets = [n0, n1, n2]) :
    (∀ chains, planTopology { cfg with Blockchains := chains } topologyFlag img extraBinaries =
      planTopology cfg topologyFlag img extraBinaries) ∧
    (∃ wf cp paths,
      planTopology cfg topologyFlag img extraBinaries =
        .ok ([{ Input := n0, Capabilities := wf, DONTypes := [WorkflowDON],
                BootstrapNodeIndex := 0, GatewayNodeIndex := 0 },
              { Input := n1, Capabilities := cp, DONTypes := [CapabilitiesDON],
                BootstrapNodeIndex := -1, GatewayNodeIndex := 0 },
              { Input := n2, Capabilities := [], DONTypes := [GatewayDON],
                BootstrapNodeIndex := -1, GatewayNodeIndex := 0 }], paths) ∧
      WriteEVMCapability ∈ cp ∧
      (ReadContractCapability ∈ cp ↔
        cfg.ExtraCapabilities.ReadContractBinaryPath ≠ "" ∨ img ≠ "") ∧
      ∀ (env : StartEnv) (workflowTrigger : String) (withExampleFlag : Bool)
        (ports : List Int) (extraJobFactoryFns : List JobSpecFactory) (si : SetupInput),
        Event.setupTestEnvironment si ∈
          (StartCLIEnvironment env cfg topologyFlag workflowTrigger img withExampleFlag ports
            extraBinaries extraJobFactoryFns).trace →
        si.CapabilitiesAwareNodeSets.map (fun s => (s.Capabilities, s.DONTypes)) =
          [(wf, [WorkflowDON]), (cp, [CapabilitiesDON]), ([], [GatewayDON])] ∧
        si.CapabilitiesContractFactoryFunctions =
          baseCapabilityFactories ++ cfg.Blockchains.flatMap chainCapabilityFactories ∧
        ∀ b ∈ cfg.Blockchains, b.ReadOnly = true →
          ∃ chainID : Int, Atoi b.ChainID = .ok chainID ∧ 0 ≤ chainID ∧
            CapabilityFactory.ReadContract chainID.toNat "evm" ∈
              si.CapabilitiesContractFactoryFunctions ∧
            CapabilityFactory.LogEventTrigger chainID.toNat "evm" ∈
              si.CapabilitiesContractFactoryFunctions ∧
            (CapabilityFactory.WriteEVM chainID.toNat ∈
                si.CapabilitiesContractFactoryFunctions ↔
              ∃ b' ∈ cfg.Blockchains, b'.ReadOnly = false ∧
                Atoi b'.ChainID = .ok chainID)) := by
  have hplan := planTopology_full_three cfg topologyFlag img extraBinaries n0 n1 n2 ht h
  refine ⟨fun chains => rfl, ⟨_, _, _, hplan, ?_, ?_, ?_⟩⟩
  · unfold fullCapabilitiesDONCapabilities
    simp only [mem_addCapability_caps]
    simp
  · unfold fullCapabilitiesDONCapabilities
    simp only [mem_addCapability_caps]
    simp [WriteEVMCapability, WebAPITargetCapability, ReadContractCapability]
  · intro env workflowTrigger withExampleFlag ports extraJobFactoryFns si hsi
    obtain ⟨planned, paths, fs, _, hp, _, hfs, _, hcf, _⟩ :=
      StartCLIEnvironment_setup_input_fields env cfg topologyFlag workflowTrigger img
        withExampleFlag ports extraBinaries extraJobFactoryFns si hsi
    obtain ⟨planned1, paths1, hp1, hframes, _⟩ :=
      setup_descriptor_frames env cfg topologyFlag workflowTrigger img withExampleFlag ports
        extraBinaries extraJobFactoryFns si hsi
    obtain ⟨hcaps, hids⟩ := assembleFactories_caps _ _ _ _ _ _ hfs
    have hlist : si.CapabilitiesContractFactoryFunctions =
        baseCapabilityFactories ++ cfg.Blockchains.flatMap chainCapabilityFactories := by
      rw [hcf, hcaps]
      rfl
    have hids1 : ∀ b ∈ cfg.Blockchains, ∃ chainID : Int,
        Atoi b.ChainID = .ok chainID ∧ 0 ≤ chainID := hids
    refine ⟨?_, hlist, ?_⟩
    · rw [hplan] at hp1
      simp only [Except.ok.injEq, Prod.mk.injEq] at hp1
      have hd := descriptorFrame_capabilities _ _ hframes
      have hr := descriptorFrame_roles _ _ hframes
      rw [← hp1.1] at hd hr
      simp only [List.map_cons, List.map_nil] at hd hr
      have hlen : si.CapabilitiesAwareNodeSets.length = 3 := by
        have := congrArg List.length hd
        simpa using this
      match hs : si.CapabilitiesAwareNodeSets, hlen with
      | [s0, s1, s2], _ =>
        rw [hs] at hd hr
        simp only [List.map_cons, List.map_nil, List.cons.injEq, Prod.mk.injEq, and_true]
          at hd hr ⊢
        exact ⟨⟨hd.1, hr.1.1⟩, ⟨hd.2.1, hr.2.1.1⟩, hd.2.2, hr.2.2.1⟩
    · intro b hb hro
      obtain ⟨chainID, ha, h0⟩ := hids1 b hb
      have hseg : chainCapabilityFactories b =
          [.ReadContract chainID.toNat "evm", .LogEventTrigger chainID.toNat "evm"] := by
        simp [chainCapabilityFactories, ha, hro]
      refine ⟨chainID, ha, h0, ?_, ?_, ?_⟩
      · rw [hlist]
        apply List.mem_append_right
        rw [List.mem_flatMap]
        exact ⟨b, hb, by rw [hseg]; simp⟩
      · rw [hlist]
        apply List.mem_append_right
        rw [List.mem_flatMap]
        exact ⟨b, hb, by rw [hseg]; simp⟩
      · rw [hlist]
        constructor
        · intro hmem
          rcases List.mem_append.mp hmem with hm | hm
          · simp [baseCapabilityFactories] at hm
          · rw [List.mem_flatMap] at hm
            obtain ⟨b1, hb1, hm1⟩ := hm
            obtain ⟨c1, ha1, h01⟩ := hids1 b1 hb1
            refine ⟨b1, hb1, ?_⟩
            cases hro1 : b1.ReadOnly with
            | true => simp [chainCapabilityFactories, ha1, hro1] at hm1
            | false =>
              simp only [chainCapabilityFactories, ha1, hro1, Bool.false_eq_true, if_false,
                List.mem_append, List.mem_singleton, List.mem_cons, List.not_mem_nil,
                or_false, CapabilityFactory.WriteEVM.injEq] at hm1
              rcases hm1 with hm1 | hm1 | hm1
              · refine ⟨rfl, ?_⟩
                have : chainID = c1 := by omega
                rw [this]
                exact ha1
              · cases hm1
              · cases hm1
        · rintro ⟨b1, hb1, hro1, ha1⟩
          apply List.mem_append_right
          rw [List.mem_flatMap]
          exact ⟨b1, hb1, by simp [chainCapabilityFactories, ha1, hro1]⟩

/-- C15 (amended), at an input: the example request with three node sets, the
writable chain 1337 and the read-only chain 2337, under the full topology. The
capabilities group handed to the provider lists write-EVM and not
read-contract; the factory list handed to the provider has a read-contract and
a log-event-trigger factory for chain 2337 and no write-EVM factory for it. -/
theorem full_capabilities_group_and_read_only_chain_witness :
    Event.setupTestEnvironment exampleSetupInputFull ∈
      (StartCLIEnvironment exampleStartEnv
        (exampleConfig [exampleNodeSet "workflow", exampleNodeSet "capabilities",
          exampleNodeSet "gateway"])
        "full" "web-trigger" "" false [] [] []).trace ∧
    exampleSetupInputFull.CapabilitiesAwareNodeSets.map (fun s => (s.Capabilities, s.DONTypes)) =
      [(["ocr3", "custom-compute", "web-api-trigger"], ["workflow"]),
       (["write-evm", "web-api-target"], ["capabilities"]),
       ([], ["gateway"])] ∧
    CapabilityFactory.ReadContract 2337 "evm" ∈
      exampleSetupInputFull.CapabilitiesContractFactoryFunctions ∧
    CapabilityFactory.LogEventTrigger 2337 "evm" ∈
      exampleSetupInputFull.CapabilitiesContractFactoryFunctions ∧
    CapabilityFactory.WriteEVM 2337 ∉
      exampleSetupInputFull.CapabilitiesContractFactoryFunctions := by
  have hmem : Event.setupTestEnvironment exampleSetupInputFull ∈
      (StartCLIEnvironment exampleStartEnv
        (exampleConfig [exampleNodeSet "workflow", exampleNodeSet "capabilities",
          exampleNodeSet "gateway"])
        "full" "web-trigger" "" false [] [] []).trace := by
    rw [exampleRunFull_trace]
    simp
  obtain ⟨_, wf, cp, paths, h1, _, _, h4⟩ := full_capabilities_group_and_read_only_chain
    (exampleConfig [exampleNodeSet "workflow", exampleNodeSet "capabilities",
      exampleNodeSet "gateway"]) "full" "" [] (exampleNodeSet "workflow")
    (exampleNodeSet "capabilities") (exampleNodeSet "gateway") (by decide) rfl
  obtain ⟨_, _, h7⟩ := h4 exampleStartEnv "web-trigger" false [] [] exampleSetupInputFull hmem
  obtain ⟨chainID, ha, _, hrc, hlet, hw⟩ :=
    h7 { ChainID := "2337", ReadOnly := true } (by simp [exampleConfig]) rfl
  have hid : chainID = 2337 := by
    have : Atoi "2337" = .ok chainID := ha
    have h2 : Atoi "2337" = .ok 2337 := rfl
    rw [h2] at this
    exact (Except.ok.inj this).symm
  subst hid
  exact ⟨hmem, rfl, hrc, hlet, by decide⟩

/-! ## Telemetry events of the start command -/

theorem StartCLIEnvironment_no_track (env : StartEnv) (cfg : Config)
    (topologyFlag workflowTrigger img : String) (withExampleFlag : Bool)
    (ports : List Int) (extraBinaries : List (String × String))
    (extraJobFactoryFns : List JobSpecFactory) :
    (StartCLIEnvironment env cfg topologyFlag workflowTrigger img withExampleFlag ports
        extraBinaries extraJobFactoryFns).trace.filter Event.isTrack = [] := by
  rw [List.filter_eq_nil_iff]
  intro ev hev
  rcases StartCLIEnvironment_trace_events _ _ _ _ _ _ _ _ _ _ hev with h | ⟨_, h⟩ | ⟨_, h⟩ <;>
    rw [h] <;> simp [Event.isTrack]

theorem preStartTrace_no_track (env : RunEnv) (f : StartFlags) :
    (preStartTrace env f).filter Event.isTrack = [] := by
  unfold preStartTrace
  by_cases h1 : f.doSetup = true <;> by_cases h2 : env.getenvCTF = "" <;>
    by_cases h3 : env.getenvPrivateKey = "" <;> simp [h1, h2, h3, Event.isTrack]

theorem whenErr_no_track (err : GoError) (report : GoErr → Event)
    (h : ∀ e, (report e).isTrack = false) :
    (whenErr err report).filter Event.isTrack = [] := by
  cases err with
  | none => simp [whenErr]
  | some e => simp [whenErr, h e]

/-- The request that `StartCLIEnvironment` leaves behind differs from the one
it was given in the node sets and the CSA encryption key at most. -/
theorem StartCLIEnvironment_cfg_frame (env : StartEnv) (cfg : Config)
    (topologyFlag workflowTrigger img : String) (withExampleFlag : Bool)
    (ports : List Int) (extraBinaries : List (String × String))
    (extraJobFactoryFns : List JobSpecFactory) :
    (StartCLIEnvironment env cfg topologyFlag workflowTrigger img withExampleFlag ports
        extraBinaries extraJobFactoryFns).cfg.Infra = cfg.Infra ∧
    (StartCLIEnvironment env cfg topologyFlag workflowTrigger img withExampleFlag ports
        extraBinaries extraJobFactoryFns).cfg.Blockchains = cfg.Blockchains ∧
    (StartCLIEnvironment env cfg topologyFlag workflowTrigger img withExampleFlag ports
        extraBinaries extraJobFactoryFns).cfg.ExtraCapabilities = cfg.ExtraCapabilities := by
  have hk : ∀ c sets paths fs,
      (keyStage env c img sets paths fs).cfg.Infra = c.Infra ∧
      (keyStage env c img sets paths fs).cfg.Blockchains = c.Blockchains ∧
      (keyStage env c img sets paths fs).cfg.ExtraCapabilities = c.ExtraCapabilities := by
    intro c sets paths fs
    unfold keyStage
    split
    · split
      · exact ⟨rfl, rfl, rfl⟩
      · split
        · exact ⟨rfl, rfl, rfl⟩
        · rw [provision_cfg]; exact ⟨rfl, rfl, rfl⟩
    · rw [provision_cfg]; exact ⟨rfl, rfl, rfl⟩
  unfold StartCLIEnvironment
  split
  · exact ⟨rfl, rfl, rfl⟩
  · split
    · exact ⟨rfl, rfl, rfl⟩
    · simp only
      split
      · exact ⟨rfl, rfl, rfl⟩
      · split
        · exact ⟨rfl, rfl, rfl⟩
        · exact ⟨rfl, rfl, rfl⟩
        · exact hk _ _ _ _

/-! ## C16: a failure of the node-group task -/

/-- C16: when the `StartDONs` task fails with `donsErr` while the `StartJD`
task succeeds, the error of `SetupJobs` is `donsErr` wrapped under
`failed to start DONs` and then under `failed to start Job Distributor or
DONs`, whatever the order in which the tasks end. And on the failure path of
the start command, that is on a run that gets as far as the call of
`StartCLIEnvironment` when the call returns an error, the telemetry calls of
the whole run are exactly one `cre.local.startup.result` event, with
`success` = false, the infrastructure type, the error message and
`panicked` = false. -/
theorem StartDONs_failure_reported :
    (∀ (env : JobsEnv) (jdFirst : Bool) (jdInput : JdInput) (infraInput : InfraInput)
      (sets : List CapabilitiesAwareNodeSet) (donsErr : GoErr),
      (StartJD env jdInput infraInput).err = none →
      (StartDONs env infraInput sets).err = some donsErr →
      (SetupJobs env jdFirst jdInput infraInput sets).err =
        some (.wrap (.wrap donsErr "failed to start DONs")
          "failed to start Job Distributor or DONs") ∧
      (SetupJobs env jdFirst jdInput infraInput sets).err.map GoErr.Error =
        some ("failed to start Job Distributor or DONs: failed to start DONs: " ++
          donsErr.Error)) ∧
    (∀ (env : RunEnv) (f : StartFlags) (cfg : Config) (o : Option SetupOutput)
      (startErr : GoErr),
      ReachesStart env f cfg →
      (startCallOf env f cfg).outcome = .ret (o, some startErr) →
      (startCmdRunE env f).trace.filter Event.isTrack =
        [.track "cre.local.startup.result"
          [("success", .bool false), ("infra", .str cfg.Infra.InfraType),
           ("error", .str startErr.Error), ("panicked", .bool false)]]) := by
  constructor
  · intro env jdFirst jdInput infraInput sets donsErr hj hd
    cases jdFirst <;> simp [SetupJobs, errgroupWait, hj, hd, GoErr.Error] <;>
      rw [← String.append_assoc] <;> rfl
  · intro env f cfg o startErr hreach ho
    have hb : startCmdBody env f =
        startFailurePath env f (startCallOf env f cfg).cfg startErr
          (preStartTrace env f ++ (startCallOf env f cfg).trace) := by
      rw [startCmdBody_of_reaches env f cfg hreach]; simp only [afterStart, ho]
    rw [startFailurePath_eq] at hb
    rw [startCmdRunE_of_ret env f _ (by rw [hb]), hb]
    have hinfra : (startCallOf env f cfg).cfg.Infra = cfg.Infra :=
      (StartCLIEnvironment_cfg_frame _ _ _ _ _ _ _ _ _).1
    have hst : (startCallOf env f cfg).trace.filter Event.isTrack = [] :=
      StartCLIEnvironment_no_track _ _ _ _ _ _ _ _ _
    simp only [List.filter_append, preStartTrace_no_track, hst, hinfra, trackStartupAt,
      trackStartup]
    simp [Event.isTrack, whenErr_no_track]

/-- C16, at an input: the node set `workflow` fails to start with
`port 6688 already allocated`, and the provider of the start command fails. -/
theorem StartDONs_failure_reported_witness :
    (SetupJobs (exampleJobsEnv (.new "port 6688 already allocated")) true
        exampleLoadedConfig.JD exampleLoadedConfig.Infra [exampleDescriptor]).err.map GoErr.Error =
      some ("failed to start Job Distributor or DONs: failed to start DONs: " ++
        "failed to create node set named workflow: port 6688 already allocated") ∧
    (startCmdRunE (exampleRunEnv (.fail (.new "node set unhealthy")) none)
        exampleFlags).trace.filter Event.isTrack =
      [.track "cre.local.startup.result"
        [("success", .bool false), ("infra", .str "docker"),
         ("error", .str "failed to setup test environment: node set unhealthy"),
         ("panicked", .bool false)]] := by
  have h := StartDONs_failure_reported
  exact ⟨(h.1 (exampleJobsEnv (.new "port 6688 already allocated")) true
      exampleLoadedConfig.JD exampleLoadedConfig.Infra [exampleDescriptor]
      (.wrap (.new "port 6688 already allocated") "failed to create node set named workflow")
      rfl rfl).2,
    h.2 (exampleRunEnv (.fail (.new "node set unhealthy")) none) exampleFlags
      exampleLoadedConfig none
      (.wrap (.new "node set unhealthy") "failed to setup test environment")
      (exampleRunEnv_reaches _ _) rfl⟩

/-! ## C17: repeated capability names in the simplified topology -/

theorem addExtraBinaries_caps_eq (img : String) (extraBinaries : List (String × String))
    (st : CapState) :
    (addExtraBinaries img extraBinaries st).caps =
      st.caps ++ (extraBinaries.filter (fun e => decide (e.2 ≠ "" ∨ img ≠ ""))).map Prod.fst := by
  unfold addExtraBinaries
  induction extraBinaries generalizing st with
  | nil => simp
  | cons e rest ih =>
    rw [List.foldl_cons, ih]
    by_cases hg : e.2 ≠ "" ∨ img ≠ ""
    · rw [List.filter_cons_of_pos (by simpa using hg)]
      simp [addCapability, hg]
    · rw [List.filter_cons_of_neg (by simpa using hg)]
      simp [addCapability, hg]

theorem simplified_builtin_caps (cfg : Config) (img : String) :
    (simplifiedCapabilities cfg img []).caps =
      [OCR3Capability, CustomComputeCapability, WriteEVMCapability, WebAPITriggerCapability,
        WebAPITargetCapability] ++
      (if cfg.ExtraCapabilities.CronCapabilityBinaryPath ≠ "" ∨ img ≠ "" then [CronCapability]
       else []) ++
      (if cfg.ExtraCapabilities.LogEventTriggerBinaryPath ≠ "" ∨ img ≠ "" then
        [LogTriggerCapability] else []) ++
      (if cfg.ExtraCapabilities.ReadContractBinaryPath ≠ "" ∨ img ≠ "" then
        [ReadContractCapability] else []) := by
  unfold simplifiedCapabilities addExtraBinaries addCapability
  by_cases h1 : cfg.ExtraCapabilities.CronCapabilityBinaryPath ≠ "" ∨ img ≠ "" <;>
    by_cases h2 : cfg.ExtraCapabilities.LogEventTriggerBinaryPath ≠ "" ∨ img ≠ "" <;>
    by_cases h3 : cfg.ExtraCapabilities.ReadContractBinaryPath ≠ "" ∨ img ≠ "" <;>
    simp [h1, h2, h3]

theorem simplified_builtin_caps_nodup (cfg : Config) (img : String) :
    (simplifiedCapabilities cfg img []).caps.Nodup := by
  rw [simplified_builtin_caps]
  by_cases h1 : cfg.ExtraCapabilities.CronCapabilityBinaryPath ≠ "" ∨ img ≠ "" <;>
    by_cases h2 : cfg.ExtraCapabilities.LogEventTriggerBinaryPath ≠ "" ∨ img ≠ "" <;>
    by_cases h3 : cfg.ExtraCapabilities.ReadContractBinaryPath ≠ "" ∨ img ≠ "" <;>
    simp only [h1, h2, h3, if_true, if_false] <;> decide

theorem simplified_caps_split (cfg : Config) (img : String)
    (extraBinaries : List (String × String)) :
    (simplifiedCapabilities cfg img extraBinaries).caps =
      (simplifiedCapabilities cfg img []).caps ++
        (extraBinaries.filter (fun e => decide (e.2 ≠ "" ∨ img ≠ ""))).map Prod.fst := by
  unfold simplifiedCapabilities
  rw [addExtraBinaries_caps_eq]
  simp [addExtraBinaries]

/-- C17, as stated, fails: with the cron binary configured and an entry named
`cron` in the extra-binaries map, the capability list of the simplified
topology contains `cron` twice. -/
theorem simplified_cron_listed_twice :
    planTopology (exampleConfigCron [exampleNodeSet "workflow"]) "simplified" ""
        [("cron", "/opt/plugins/cron")] =
      .ok ([{ Input := exampleNodeSet "workflow",
              Capabilities := ["ocr3", "custom-compute", "write-evm", "web-api-trigger",
                "web-api-target", "cron", "cron"],
              DONTypes := ["workflow", "gateway"], BootstrapNodeIndex := 0,
              GatewayNodeIndex := 0 }],
           [("cron", "/opt/plugins/cron")]) ∧
    (exampleConfigCron [exampleNodeSet "workflow"]).ExtraCapabilities.CronCapabilityBinaryPath
      = "/usr/local/bin/cron" ∧
    ["ocr3", "custom-compute", "write-evm", "web-api-trigger", "web-api-target", "cron",
      "cron"].count CronCapability = 2 ∧
    ¬ ["ocr3", "custom-compute", "write-evm", "web-api-trigger", "web-api-target", "cron",
      "cron"].Nodup := by
  refine ⟨rfl, rfl, by decide, by decide⟩

/-- C17 (amended): for the simplified topology with one node set, the
capability list is the built-in list (the five mandatory capabilities and the
optional ones that pass their gate, all different) followed by the names of
the extra-binaries entries that pass the gate. For an extra-binaries map
(no name twice), the list contains no capability name twice if and only if no
entry that passes the gate is named like a capability of the built-in list;
then every capability of the list, in particular every optional capability
with a binary path configured, appears exactly once. -/
theorem simplified_capabilities_nodup_iff (cfg : Config) (img : String)
    (extraBinaries : List (String × String)) (n0 : NsInput) (hn : cfg.NodeSets = [n0])
    (hmap : (extraBinaries.map Prod.fst).Nodup) :
    ∃ caps paths,
      planTopology cfg TopologySimplified img extraBinaries =
        .ok ([{ Input := n0, Capabilities := caps, DONTypes := [WorkflowDON, GatewayDON],
                BootstrapNodeIndex := 0, GatewayNodeIndex := 0 }], paths) ∧
      caps = (simplifiedCapabilities cfg img []).caps ++
        (extraBinaries.filter (fun e => decide (e.2 ≠ "" ∨ img ≠ ""))).map Prod.fst ∧
      (simplifiedCapabilities cfg img []).caps =
        [OCR3Capability, CustomComputeCapability, WriteEVMCapability, WebAPITriggerCapability,
          WebAPITargetCapability] ++
        (if cfg.ExtraCapabilities.CronCapabilityBinaryPath ≠ "" ∨ img ≠ "" then
          [CronCapability] else []) ++
        (if cfg.ExtraCapabilities.LogEventTriggerBinaryPath ≠ "" ∨ img ≠ "" then
          [LogTriggerCapability] else []) ++
        (if cfg.ExtraCapabilities.ReadContractBinaryPath ≠ "" ∨ img ≠ "" then
          [ReadContractCapability] else []) ∧
      (caps.Nodup ↔
        ∀ e ∈ extraBinaries, (e.2 ≠ "" ∨ img ≠ "") →
          e.1 ∉ (simplifiedCapabilities cfg img []).caps) ∧
      (caps.Nodup → ∀ c ∈ caps, caps.count c = 1) := by
  refine ⟨_, _, planTopology_simplified_one cfg img extraBinaries n0 hn,
    simplified_caps_split cfg img extraBinaries, simplified_builtin_caps cfg img, ?_,
    fun hnd c hc => List.count_eq_one_of_mem hnd hc⟩
  rw [simplified_caps_split, List.nodup_append]
  have hextra : ((extraBinaries.filter (fun e => decide (e.2 ≠ "" ∨ img ≠ ""))).map
      Prod.fst).Nodup :=
    List.Nodup.sublist (List.Sublist.map _ (List.filter_sublist _)) hmap
  constructor
  · rintro ⟨_, _, hdis⟩ e he hg hmem
    exact hdis hmem (List.mem_map.mpr ⟨e, List.mem_filter.mpr ⟨he, by simpa using hg⟩, rfl⟩)
  · intro h
    refine ⟨simplified_builtin_caps_nodup cfg img, hextra, ?_⟩
    intro c hc hc'
    obtain ⟨e, he, rfl⟩ := List.mem_map.mp hc'
    obtain ⟨he1, he2⟩ := List.mem_filter.mp he
    exact h e he1 (by simpa using he2) hc

/-- C17 (amended), at an input: the cron binary is configured and the
extra-binaries map brings the capability `mock`. -/
theorem simplified_capabilities_nodup_iff_witness :
    ([("mock", "/opt/plugins/mock")].map Prod.fst).Nodup ∧
    ∃ caps paths,
      planTopology (exampleConfigCron [exampleNodeSet "workflow"]) TopologySimplified ""
          [("mock", "/opt/plugins/mock")] =
        .ok ([{ Input := exampleNodeSet "workflow", Capabilities := caps,
                DONTypes := [WorkflowDON, GatewayDON],
                BootstrapNodeIndex := 0, GatewayNodeIndex := 0 }], paths) ∧
      caps.Nodup ∧ caps.count CronCapability = 1 := by
  have hmap : ([("mock", "/opt/plugins/mock")].map Prod.fst).Nodup := by decide
  obtain ⟨caps, paths, h1, h2, h3, h4, h5⟩ := simplified_capabilities_nodup_iff
    (exampleConfigCron [exampleNodeSet "workflow"]) ""
    [("mock", "/opt/plugins/mock")] (exampleNodeSet "workflow") rfl hmap
  have hnd : caps.Nodup := by
    rw [h4]
    intro e he _
    simp only [List.mem_singleton] at he
    subst he
    rw [h3]
    decide
  refine ⟨hmap, caps, paths, h1, hnd, h5 hnd _ ?_⟩
  rw [h2, h3]
  decide

/-! ## C18: roles and bootstrap index of the descriptors -/

theorem planTopology_roles (cfg : Config) (topologyFlag img : String)
    (extraBinaries : List (String × String)) (planned : List CapabilitiesAwareNodeSet)
    (paths : StringMap)
    (h : planTopology cfg topologyFlag img extraBinaries = .ok (planned, paths)) :
    planned.map (fun s => (s.DONTypes, s.BootstrapNodeIndex)) =
      if topologyFlag = TopologySimplified then [([WorkflowDON, GatewayDON], 0)]
      else [([WorkflowDON], 0), ([CapabilitiesDON], -1), ([GatewayDON], -1)] := by
  unfold planTopology at h
  split at h
  · next ht =>
    split at h
    · simp only [Except.ok.injEq, Prod.mk.injEq] at h
      rw [← h.1, if_pos ht]; rfl
    · simp at h
  · next ht =>
    split at h
    · simp only [Except.ok.injEq, Prod.mk.injEq] at h
      rw [← h.1, if_neg ht]; rfl
    · simp at h

/-- C18: whenever topology planning succeeds, the descriptors it yields, and
with them the descriptors handed to the provider, have these roles and
bootstrap indices: in the simplified topology one descriptor with roles
[workflow, gateway] and bootstrap index 0; in the full topology three
descriptors with roles [workflow], [capabilities], [gateway], in that order,
and bootstrap indices 0, -1, -1. So every descriptor satisfies the bootstrap
invariant: the group with the workflow role, which has the bootstrap node,
has an index that is not negative, and every other group has index -1. -/
theorem descriptors_bootstrap_invariant (env : StartEnv) (cfg : Config)
    (topologyFlag workflowTrigger img : String) (withExampleFlag : Bool)
    (ports : List Int) (extraBinaries : List (String × String))
    (extraJobFactoryFns : List JobSpecFactory)
    (planned : List CapabilitiesAwareNodeSet) (paths : StringMap)
    (hplan : planTopology cfg topologyFlag img extraBinaries = .ok (planned, paths)) :
    (topologyFlag = TopologySimplified →
      planned.map (fun s => (s.DONTypes, s.BootstrapNodeIndex)) =
        [([WorkflowDON, GatewayDON], 0)]) ∧
    (topologyFlag ≠ TopologySimplified →
      planned.map (fun s => (s.DONTypes, s.BootstrapNodeIndex)) =
        [([WorkflowDON], 0), ([CapabilitiesDON], -1), ([GatewayDON], -1)]) ∧
    (∀ s ∈ planned,
      (WorkflowDON ∈ s.DONTypes ∧ 0 ≤ s.BootstrapNodeIndex) ∨
      (WorkflowDON ∉ s.DONTypes ∧ s.BootstrapNodeIndex = -1)) ∧
    (∀ si, Event.setupTestEnvironment si ∈
        (StartCLIEnvironment env cfg topologyFlag workflowTrigger img withExampleFlag ports
          extraBinaries extraJobFactoryFns).trace →
      si.CapabilitiesAwareNodeSets.map (fun s => (s.DONTypes, s.BootstrapNodeIndex)) =
        planned.map (fun s => (s.DONTypes, s.BootstrapNodeIndex))) := by
  have hroles := planTopology_roles cfg topologyFlag img extraBinaries planned paths hplan
  refine ⟨fun ht => by rw [hroles, if_pos ht], fun ht => by rw [hroles, if_neg ht], ?_, ?_⟩
  · intro s hs
    have hmem : (s.DONTypes, s.BootstrapNodeIndex) ∈
        planned.map (fun s => (s.DONTypes, s.BootstrapNodeIndex)) :=
      List.mem_map.mpr ⟨s, hs, rfl⟩
    rw [hroles] at hmem
    by_cases ht : topologyFlag = TopologySimplified
    · rw [if_pos ht] at hmem
      simp only [List.mem_singleton, Prod.mk.injEq] at hmem
      left
      rw [hmem.1, hmem.2]
      exact ⟨by simp, by decide⟩
    · rw [if_neg ht] at hmem
      simp only [List.mem_cons, Prod.mk.injEq, List.mem_singleton, List.not_mem_nil,
        or_false] at hmem
      rcases hmem with ⟨a, b⟩ | ⟨a, b⟩ | ⟨a, b⟩
      · left; rw [a, b]; exact ⟨by simp, by decide⟩
      · right; rw [a, b]; exact ⟨by decide, rfl⟩
      · right; rw [a, b]; exact ⟨by decide, rfl⟩
  · intro si h
    obtain ⟨planned', paths', hp, hframe, _⟩ := setup_descriptor_frames env cfg topologyFlag
      workflowTrigger img withExampleFlag ports extraBinaries extraJobFactoryFns si h
    rw [hplan] at hp
    simp only [Except.ok.injEq, Prod.mk.injEq] at hp
    rw [← hp.1] at hframe
    exact descriptorFrame_roles _ _ hframe

/-- C18, at an input: the full topology on the example request with three
node sets. -/
theorem descriptors_bootstrap_invariant_witness :
    [exampleNodeSet "workflow", exampleNodeSet "capabilities", exampleNodeSet "gateway"].map
        (fun n => n.Name) = ["workflow", "capabilities", "gateway"] ∧
    ∃ planned paths,
      planTopology
          (exampleConfig [exampleNodeSet "workflow", exampleNodeSet "capabilities",
            exampleNodeSet "gateway"]) "full" "" [] = .ok (planned, paths) ∧
      planned.map (fun s => (s.DONTypes, s.BootstrapNodeIndex)) =
        [(["workflow"], 0), (["capabilities"], -1), (["gateway"], -1)] := by
  refine ⟨rfl, _, _, rfl, ?_⟩
  exact (descriptors_bootstrap_invariant exampleStartEnv
    (exampleConfig [exampleNodeSet "workflow", exampleNodeSet "capabilities",
      exampleNodeSet "gateway"]) "full" "web-trigger" "" false [] [] [] _ _ rfl).2.1
    (by decide)

/-! ## C19: telemetry failures never escalate -/

theorem startFailurePath_outcome_withTrack (env : RunEnv) (f : StartFlags) (cfg : Config)
    (startErr : GoErr) (b1 b2 : List Event)
    (track : String → List (String × PropValue) → GoError) :
    (startFailurePath (env.withTrack track) f cfg startErr b1).outcome =
      (startFailurePath env f cfg startErr b2).outcome := by
  rw [startFailurePath_eq, startFailurePath_eq]
  rfl

theorem startExampleAndFinish_outcome (env1 env2 : RunEnv) (f : StartFlags)
    (homeChainOut : WrappedBlockchainOutput) (b1 b2 : List Event) :
    (startExampleAndFinish env1 f homeChainOut b1).outcome =
      (startExampleAndFinish env2 f homeChainOut b2).outcome := by
  unfold startExampleAndFinish
  split
  · split <;> rfl
  · rfl

theorem startSuccessPath_outcome_withTrack (env : RunEnv) (f : StartFlags) (cfg : Config)
    (output : Option SetupOutput) (b1 b2 : List Event)
    (track : String → List (String × PropValue) → GoError) :
    (startSuccessPath (env.withTrack track) f cfg output b1).outcome =
      (startSuccessPath env f cfg output b2).outcome := by
  unfold startSuccessPath
  cases output with
  | none => rfl
  | some out =>
    simp only
    cases out.BlockchainOutput with
    | nil => rfl
    | cons homeChainOut rest =>
      simp only
      have hs : StartCmdGenerateSettingsFile (env.withTrack track) homeChainOut out =
          StartCmdGenerateSettingsFile env homeChainOut out := rfl
      rw [hs]
      generalize (StartCmdGenerateSettingsFile env homeChainOut out).outcome = so
      cases so with
      | panic p => rfl
      | ret sErr =>
        simp only
        have hb : (env.withTrack track).startBeholder = env.startBeholder := rfl
        rw [hb]
        by_cases hw : f.withBeholder = true
        · simp only [hw, if_true]
          cases env.startBeholder with
          | none => exact startExampleAndFinish_outcome _ _ _ _ _ _
          | some e => rfl
        · simp only [hw]
          exact startExampleAndFinish_outcome _ _ _ _ _ _

theorem loadAndStart_outcome_withTrack (env : RunEnv) (f : StartFlags) (ctf : String)
    (b1 b2 : List Event) (track : String → List (String × PropValue) → GoError) :
    (loadAndStart (env.withTrack track) f ctf b1).outcome =
      (loadAndStart env f ctf b2).outcome := by
  unfold loadAndStart
  have hl : (env.withTrack track).Load = env.Load := rfl
  have hs : (env.withTrack track).start = env.start := rfl
  rw [hl, hs]
  cases env.Load with
  | error e => rfl
  | ok cfg =>
    simp only
    cases cfg.Validate with
    | some e => rfl
    | none =>
      simp only
      generalize StartCLIEnvironment { env.start with CTF_CONFIGS := ctf } cfg f.topology
        f.exampleWorkflowTrigger f.withPluginsDockerImage f.withExampleFlag
        f.extraAllowedGatewayPorts [] [] = started
      rcases hso : started.outcome with ⟨o, _ | startErr⟩ | p
      · simp only [hso]
        exact startSuccessPath_outcome_withTrack _ _ _ _ _ _ _
      · simp only [hso]
        exact startFailurePath_outcome_withTrack _ _ _ _ _ _ _
      · simp only [hso]

theorem setVariablesAndStart_outcome_withTrack (env : RunEnv) (f : StartFlags) (ctf : String)
    (b1 b2 : List Event) (track : String → List (String × PropValue) → GoError) :
    (setVariablesAndStart (env.withTrack track) f ctf b1).outcome =
      (setVariablesAndStart env f ctf b2).outcome := by
  unfold setVariablesAndStart
  have h1 : (env.withTrack track).getenvPrivateKey = env.getenvPrivateKey := rfl
  have h2 : (env.withTrack track).Setenv = env.Setenv := rfl
  simp only [h1, h2]
  by_cases hp : env.getenvPrivateKey = ""
  · simp only [hp, if_true]
    cases env.Setenv "PRIVATE_KEY" defaultPrivateKey with
    | some e => rfl
    | none =>
      simp only
      cases env.Setenv "TESTCONTAINERS_RYUK_DISABLED" "true" with
      | some e => rfl
      | none => exact loadAndStart_outcome_withTrack _ _ _ _ _ _
  · simp only [hp, if_false]
    cases env.Setenv "TESTCONTAINERS_RYUK_DISABLED" "true" with
    | some e => rfl
    | none => exact loadAndStart_outcome_withTrack _ _ _ _ _ _

theorem startCmdBody_outcome_withTrack (env : RunEnv) (f : StartFlags)
    (track : String → List (String × PropValue) → GoError) :
    (startCmdBody (env.withTrack track) f).outcome = (startCmdBody env f).outcome := by
  unfold startCmdBody
  have h1 : (env.withTrack track).getenvCTF = env.getenvCTF := rfl
  have h2 : (env.withTrack track).Setenv = env.Setenv := rfl
  have h3 : (env.withTrack track).RunSetup = env.RunSetup := rfl
  simp only [h1, h2, h3]
  have key : ∀ t : List Event,
      (if f.topology ≠ TopologySimplified ∧ f.topology ≠ TopologyFull then
          ({ trace := t,
             outcome := .ret (some (.new ("invalid topology: " ++ f.topology ++
               ". Valid topologies are: " ++ TopologySimplified ++ ", " ++ TopologyFull))) } :
            RunResult)
        else if env.getenvCTF = "" then
          match env.Setenv "CTF_CONFIGS" (defaultCtfConfigsValue f.topology) with
          | some setErr =>
            { trace := t ++ [.printCRELogo,
                .setenv "CTF_CONFIGS" (defaultCtfConfigsValue f.topology)],
              outcome := .ret (some (.wrap
                (.wrap setErr "failed to set CTF_CONFIGS environment variable")
                "failed to set default CTF configs")) }
          | none =>
            setVariablesAndStart (env.withTrack track) f (defaultCtfConfigsValue f.topology)
              (t ++ [.printCRELogo,
                .setenv "CTF_CONFIGS" (defaultCtfConfigsValue f.topology),
                .stdout ("Set CTF_CONFIGS environment variable to default value: " ++
                  defaultCtfConfigsValue f.topology ++ "\n")])
        else setVariablesAndStart (env.withTrack track) f env.getenvCTF
          (t ++ [.printCRELogo])).outcome =
      (if f.topology ≠ TopologySimplified ∧ f.topology ≠ TopologyFull then
          ({ trace := t,
             outcome := .ret (some (.new ("invalid topology: " ++ f.topology ++
               ". Valid topologies are: " ++ TopologySimplified ++ ", " ++ TopologyFull))) } :
            RunResult)
        else if env.getenvCTF = "" then
          match env.Setenv "CTF_CONFIGS" (defaultCtfConfigsValue f.topology) with
          | some setErr =>
            { trace := t ++ [.printCRELogo,
                .setenv "CTF_CONFIGS" (defaultCtfConfigsValue f.topology)],
              outcome := .ret (some (.wrap
                (.wrap setErr "failed to set CTF_CONFIGS environment variable")
                "failed to set default CTF configs")) }
          | none =>
            setVariablesAndStart env f (defaultCtfConfigsValue f.topology)
              (t ++ [.printCRELogo,
                .setenv "CTF_CONFIGS" (defaultCtfConfigsValue f.topology),
                .stdout ("Set CTF_CONFIGS environment variable to default value: " ++
                  defaultCtfConfigsValue f.topology ++ "\n")])
        else setVariablesAndStart env f env.getenvCTF (t ++ [.printCRELogo])).outcome := by
    intro t
    split
    · rfl
    · split
      · cases env.Setenv "CTF_CONFIGS" (defaultCtfConfigsValue f.topology) with
        | some e => rfl
        | none => exact setVariablesAndStart_outcome_withTrack _ _ _ _ _ _
      · exact setVariablesAndStart_outcome_withTrack _ _ _ _ _ _
  by_cases hd : f.doSetup = true
  · simp only [hd, if_true]
    cases env.RunSetup with
    | some e => rfl
    | none => exact key _
  · simp only [hd]
    exact key _

/-- C19: for every input and every behaviour of the tracker, `trackStartup`
returns a nil error; and replacing the tracker by any other one, for instance
one whose `Track` fails on every call, changes neither the error that the run
function of the start command returns nor whether it recovered from a
panic. -/
theorem trackStartup_never_escalates (env : RunEnv) :
    (∀ (success hasBuilt : Bool) (infraType : String) (errorMessage : Option String)
      (panicked : Option Bool),
      (trackStartup env success hasBuilt infraType errorMessage panicked).2 = none) ∧
    (∀ (f : StartFlags) (track : String → List (String × PropValue) → GoError),
      (startCmdRunE (env.withTrack track) f).returned = (startCmdRunE env f).returned ∧
      (startCmdRunE (env.withTrack track) f).recovered = (startCmdRunE env f).recovered) := by
  constructor
  · intro success hasBuilt infraType errorMessage panicked
    unfold trackStartup
    cases success <;> rfl
  · intro f track
    have h := startCmdBody_outcome_withTrack env f track
    cases hout : (startCmdBody env f).outcome with
    | ret err =>
      rw [startCmdRunE_of_ret env f err hout,
        startCmdRunE_of_ret (env.withTrack track) f err (h.trans hout)]
      exact ⟨rfl, rfl⟩
    | panic p =>
      rw [startCmdRunE_of_panic env f p hout,
        startCmdRunE_of_panic (env.withTrack track) f p (h.trans hout)]
      exact ⟨rfl, rfl⟩

/-! ## C20: a failed settings file does not roll back -/

theorem collectRpcs_head_nodes (home : WrappedBlockchainOutput)
    (rest : List WrappedBlockchainOutput) (acc rpcs : List (Nat × String))
    (h : collectRpcs (home :: rest) acc = .ret rpcs) : home.Nodes ≠ [] := by
  intro hn
  simp [collectRpcs, hn] at h

theorem StartCmdGenerateSettingsFile_ret_nodes (env : RunEnv) (home : WrappedBlockchainOutput)
    (rest : List WrappedBlockchainOutput) (out : SetupOutput) (sErr : GoError)
    (hhome : out.BlockchainOutput = home :: rest)
    (h : (StartCmdGenerateSettingsFile env home out).outcome = .ret sErr) :
    home.Nodes ≠ [] := by
  unfold StartCmdGenerateSettingsFile at h
  cases hc : collectRpcs out.BlockchainOutput [] with
  | panic p => simp [hc] at h
  | ret rpcs =>
    rw [hhome] at hc
    exact collectRpcs_head_nodes home rest [] rpcs hc

theorem startExampleAndFinish_of_nodes (env : RunEnv) (f : StartFlags)
    (homeChainOut : WrappedBlockchainOutput) (before : List Event)
    (hn : homeChainOut.Nodes ≠ []) :
    (startExampleAndFinish env f homeChainOut before).outcome = .ret none ∧
    ∀ ev ∈ before, ev ∈ (startExampleAndFinish env f homeChainOut before).trace := by
  unfold startExampleAndFinish
  split
  · split
    · next hnil => exact absurd hnil hn
    · exact ⟨rfl, fun ev hev => by simp [hev]⟩
  · exact ⟨rfl, fun ev hev => by simp [hev]⟩

theorem trackStartupAt_success_mem (env : RunEnv) (hasBuilt : Bool) (infraType : String) :
    Event.track "cre.local.startup.result"
        [("success", .bool true), ("infra", .str infraType)] ∈
      trackStartupAt env true hasBuilt infraType none none := by
  simp [trackStartupAt, trackStartup]

/-- After a settings file that could not be written, the success path goes
on: it returns (the error of Beholder, if that fails, and nil otherwise)
without a panic, having reported the settings error on standard error and the
successful start to telemetry. -/
theorem startSuccessPath_settings_failed (env : RunEnv) (f : StartFlags) (cfg : Config)
    (out : SetupOutput) (home : WrappedBlockchainOutput)
    (rest : List WrappedBlockchainOutput) (sErr : GoErr) (before : List Event)
    (hhome : out.BlockchainOutput = home :: rest)
    (hset : (StartCmdGenerateSettingsFile env home out).outcome = .ret (some sErr)) :
    (∃ err, (startSuccessPath env f cfg (some out) before).outcome = .ret err) ∧
    Event.track "cre.local.startup.result"
        [("success", .bool true), ("infra", .str out.InfraType)] ∈
      (startSuccessPath env f cfg (some out) before).trace ∧
    Event.stderr ("failed to create CRE CLI settings file: " ++ sErr.Error ++
        ". You need to create it manually.") ∈
      (startSuccessPath env f cfg (some out) before).trace := by
  have hn := StartCmdGenerateSettingsFile_ret_nodes env home rest out _ hhome hset
  have ht := trackStartupAt_success_mem env
    (hasBuiltDockerImage cfg f.withPluginsDockerImage) out.InfraType
  simp only [startSuccessPath, hhome, hset]
  by_cases hw : f.withBeholder = true
  · simp only [hw, if_true]
    cases env.startBeholder with
    | some e =>
      simp only
      refine ⟨⟨_, rfl⟩, ?_, ?_⟩
      · simp [ht]
      · simp [whenErr]
    | none =>
      simp only
      obtain ⟨h1, h2⟩ := startExampleAndFinish_of_nodes env f home
        (before ++ (StartCmdGenerateSettingsFile env home out).trace ++
          whenErr (some sErr) (fun e =>
            .stderr ("failed to create CRE CLI settings file: " ++ e.Error ++
              ". You need to create it manually.")) ++
          trackStartupAt env true (hasBuiltDockerImage cfg f.withPluginsDockerImage)
            out.InfraType none none ++ [.startBeholder]) hn
      refine ⟨⟨_, h1⟩, h2 _ ?_, h2 _ ?_⟩
      · simp [ht]
      · simp [whenErr]
  · simp only [hw]
    obtain ⟨h1, h2⟩ := startExampleAndFinish_of_nodes env f home
      (before ++ (StartCmdGenerateSettingsFile env home out).trace ++
        whenErr (some sErr) (fun e =>
          .stderr ("failed to create CRE CLI settings file: " ++ e.Error ++
            ". You need to create it manually.")) ++
        trackStartupAt env true (hasBuiltDockerImage cfg f.withPluginsDockerImage)
          out.InfraType none none) hn
    refine ⟨⟨_, h1⟩, h2 _ ?_, h2 _ ?_⟩
    · simp [ht]
    · simp [whenErr]

/-- C20: on a run of the start command that gets as far as the call of
`StartCLIEnvironment`, when the call succeeds with the output `out` and
`StartCmdGenerateSettingsFile` returns an error for the home chain (the first
chain of `out`), the run function does not panic, no container is removed in
the whole run, the settings error is written to standard error, and the
`cre.local.startup.result` event with `success` = true is emitted. -/
theorem settings_failure_no_rollback (env : RunEnv) (f : StartFlags) (cfg : Config)
    (out : SetupOutput) (home : WrappedBlockchainOutput)
    (rest : List WrappedBlockchainOutput) (sErr : GoErr)
    (hreach : ReachesStart env f cfg)
    (hstart : (startCallOf env f cfg).outcome = .ret (some out, none))
    (hhome : out.BlockchainOutput = home :: rest)
    (hset : (StartCmdGenerateSettingsFile env home out).outcome = .ret (some sErr)) :
    (startCmdRunE env f).recovered = none ∧
    Event.removeTestContainers ∉ (startCmdRunE env f).trace ∧
    Event.track "cre.local.startup.result"
        [("success", .bool true), ("infra", .str out.InfraType)] ∈
      (startCmdRunE env f).trace ∧
    Event.stderr ("failed to create CRE CLI settings file: " ++ sErr.Error ++
        ". You need to create it manually.") ∈ (startCmdRunE env f).trace := by
  have hb : startCmdBody env f =
      startSuccessPath env f (startCallOf env f cfg).cfg (some out)
        (preStartTrace env f ++ (startCallOf env f cfg).trace) := by
    rw [startCmdBody_of_reaches env f cfg hreach]; simp only [afterStart, hstart]
  obtain ⟨⟨err, he⟩, ht, hs⟩ := startSuccessPath_settings_failed env f
    (startCallOf env f cfg).cfg out home rest sErr
    (preStartTrace env f ++ (startCallOf env f cfg).trace) hhome hset
  have hnc : Event.removeTestContainers ∉ (startCmdBody env f).trace := by
    rw [hb]
    apply startSuccessPath_no_cleanup
    have h1 := preStartTrace_no_cleanup env f
    have h2 : Event.removeTestContainers ∉ (startCallOf env f cfg).trace :=
      StartCLIEnvironment_no_cleanup _ _ _ _ _ _ _ _ _
    simp [h1, h2]
  rw [startCmdRunE_of_ret env f err (by rw [hb]; exact he)]
  refine ⟨rfl, hnc, ?_, ?_⟩
  · show _ ∈ (startCmdBody env f).trace
    rw [hb]; exact ht
  · show _ ∈ (startCmdBody env f).trace
    rw [hb]; exact hs

/-- C20, at an input: provisioning succeeds and the settings file cannot be
written to the current directory. -/
theorem settings_failure_no_rollback_witness :
    ReachesStart exampleRunEnvReadOnlyDir exampleFlags exampleLoadedConfig ∧
    (StartCmdGenerateSettingsFile exampleRunEnvReadOnlyDir
        { ChainSelector := 3379446385462418246, ChainID := 1337,
          Nodes := [{ ExternalHTTPUrl := "http://localhost:8545" }],
          RootKeyAddress := "0xf39Fd6e51aad88F6F4ce6aB8827279cffFb92266" }
        exampleOutput).outcome =
      .ret (some (.new "open /work/cre.yaml: permission denied")) ∧
    Event.removeTestContainers ∉ (startCmdRunE exampleRunEnvReadOnlyDir exampleFlags).trace ∧
    Event.track "cre.local.startup.result"
        [("success", .bool true), ("infra", .str "docker")] ∈
      (startCmdRunE exampleRunEnvReadOnlyDir exampleFlags).trace := by
  have hreach : ReachesStart exampleRunEnvReadOnlyDir exampleFlags exampleLoadedConfig :=
    ⟨fun _ => rfl, Or.inl rfl, fun _ => rfl, fun _ => rfl, rfl, rfl, rfl⟩
  have h := settings_failure_no_rollback exampleRunEnvReadOnlyDir exampleFlags
    exampleLoadedConfig exampleOutput
    { ChainSelector := 3379446385462418246, ChainID := 1337,
      Nodes := [{ ExternalHTTPUrl := "http://localhost:8545" }],
      RootKeyAddress := "0xf39Fd6e51aad88F6F4ce6aB8827279cffFb92266" }
    [] (.new "open /work/cre.yaml: permission denied") hreach rfl rfl rfl
  exact ⟨hreach, rfl, h.2.1, h.2.2.1⟩

/-! ## C21: a Job Distributor that cannot be created -/

theorem containsChars_iff (sub s : List Char) :
    containsChars sub s = true ↔ sub <:+: s := by
  induction s with
  | nil =>
    simp [containsChars, List.isEmpty_iff]
  | cons c cs ih =>
    simp only [containsChars, Bool.or_eq_true, ih, List.isPrefixOf_iff_prefix]
    constructor
    · rintro (h | h)
      · exact h.isInfix
      · exact List.IsInfix.trans h (List.suffix_cons c cs).isInfix
    · intro h
      rcases List.infix_cons_iff.mp h with h | h
      · exact Or.inl h
      · exact Or.inr h

/-- The error of `StartJD` for a provider error `e` and an image: the
provider error wrapped with the image name. -/
theorem createJD_failure (env : JobsEnv) (jdInput : JdInput) (before : List Event) (e : GoErr)
    (h : env.CreateJobDistributor jdInput = .error e) :
    (createJD env jdInput before).out = none ∧
    (createJD env jdInput before).err =
      some (if stringsContains
              (GoErr.wrap e ("failed to start JD container for image " ++ jdInput.Image)).Error
              "pull access denied" = true ∨
            stringsContains
              (GoErr.wrap e ("failed to start JD container for image " ++ jdInput.Image)).Error
              "may require 'docker login'" = true
        then .join (.wrap e ("failed to start JD container for image " ++ jdInput.Image))
          (.new jdImageHint)
        else .wrap e ("failed to start JD container for image " ++ jdInput.Image)) := by
  simp only [createJD, h]
  split
  · next hc =>
    simp only [Bool.or_eq_true] at hc
    rw [if_pos hc]
    exact ⟨rfl, rfl⟩
  · next hc =>
    simp only [Bool.or_eq_true] at hc
    rw [if_neg hc]
    exact ⟨rfl, rfl⟩

/-- C21: when the creation of the Job Distributor fails with the provider
error `e`, on the local infrastructure and, after a successful deployment, on
CRIB, `StartJD` returns a nil output and an error built from `e` wrapped under
`failed to start JD container for image <image>`, whose message is that text,
a colon and the message of `e`. The remediation hint is joined to the wrapped
error if and only if the message of the wrapped error contains
`pull access denied` or `may require 'docker login'` as a substring; otherwise
the wrapped error is returned as it is. -/
theorem StartJD_create_failure (env : JobsEnv) (jdInput : JdInput) (infraInput : InfraInput)
    (e : GoErr) :
    (GoErr.wrap e ("failed to start JD container for image " ++ jdInput.Image)).Error =
      "failed to start JD container for image " ++ jdInput.Image ++ ": " ++ e.Error ∧
    (∀ created : JdInput,
      ((infraInput.InfraType ≠ CRIB ∧ created = jdInput) ∨
        (infraInput.InfraType = CRIB ∧ ∃ out,
          env.DeployJd jdInput infraInput.CRIB.Namespace = .ok out ∧
          created = { jdInput with Out := some out })) →
      env.CreateJobDistributor created = .error e →
      (StartJD env jdInput infraInput).out = none ∧
      ((StartJD env jdInput infraInput).err =
          some (.join (.wrap e ("failed to start JD container for image " ++ jdInput.Image))
            (.new jdImageHint)) ↔
        ("pull access denied".toList <:+:
            (GoErr.wrap e
              ("failed to start JD container for image " ++ jdInput.Image)).Error.toList ∨
          "may require 'docker login'".toList <:+:
            (GoErr.wrap e
              ("failed to start JD container for image " ++ jdInput.Image)).Error.toList)) ∧
      ((StartJD env jdInput infraInput).err =
          some (.wrap e ("failed to start JD container for image " ++ jdInput.Image)) ↔
        ¬ ("pull access denied".toList <:+:
            (GoErr.wrap e
              ("failed to start JD container for image " ++ jdInput.Image)).Error.toList ∨
          "may require 'docker login'".toList <:+:
            (GoErr.wrap e
              ("failed to start JD container for image " ++ jdInput.Image)).Error.toList))) := by
  refine ⟨rfl, ?_⟩
  intro created hc hfail
  have key : ∀ before, (createJD env created before).out = none ∧
      (createJD env created before).err =
        some (if stringsContains
              (GoErr.wrap e ("failed to start JD container for image " ++ jdInput.Image)).Error
              "pull access denied" = true ∨
            stringsContains
              (GoErr.wrap e ("failed to start JD container for image " ++ jdInput.Image)).Error
              "may require 'docker login'" = true
        then .join (.wrap e ("failed to start JD container for image " ++ jdInput.Image))
          (.new jdImageHint)
        else .wrap e ("failed to start JD container for image " ++ jdInput.Image)) := by
    intro before
    have himg : created.Image = jdInput.Image := by
      rcases hc with ⟨_, rfl⟩ | ⟨_, out, _, rfl⟩ <;> rfl
    have := createJD_failure env created before e hfail
    rw [himg] at this
    exact this
  have hst : (StartJD env jdInput infraInput).out = none ∧
      (StartJD env jdInput infraInput).err =
        some (if stringsContains
              (GoErr.wrap e ("failed to start JD container for image " ++ jdInput.Image)).Error
              "pull access denied" = true ∨
            stringsContains
              (GoErr.wrap e ("failed to start JD container for image " ++ jdInput.Image)).Error
              "may require 'docker login'" = true
        then .join (.wrap e ("failed to start JD container for image " ++ jdInput.Image))
          (.new jdImageHint)
        else .wrap e ("failed to start JD container for image " ++ jdInput.Image)) := by
    rcases hc with ⟨hl, rfl⟩ | ⟨hcrib, out, hd, rfl⟩
    · simp only [StartJD, hl, if_false]
      exact key []
    · simp only [StartJD, hcrib, if_true, hd]
      exact key [.deployJd]
  obtain ⟨h1, h2⟩ := hst
  simp only [stringsContains, containsChars_iff] at h2
  refine ⟨h1, ?_, ?_⟩
  · rw [h2]
    split <;> simp_all
  · rw [h2]
    split <;> simp_all

/-- C21, at an input: the provider reports a denied pull, and the hint is
joined. -/
theorem StartJD_create_failure_witness :
    (StartJD (exampleJobsEnvJDFails
        (.new "Error response from daemon: pull access denied for job-distributor"))
      exampleLoadedConfig.JD exampleLoadedConfig.Infra).out = none ∧
    (StartJD (exampleJobsEnvJDFails
        (.new "Error response from daemon: pull access denied for job-distributor"))
      exampleLoadedConfig.JD exampleLoadedConfig.Infra).err =
      some (.join
        (.wrap (.new "Error response from daemon: pull access denied for job-distributor")
          "failed to start JD container for image job-distributor:0.12.7")
        (.new jdImageHint)) := by
  have h := (StartJD_create_failure (exampleJobsEnvJDFails
      (.new "Error response from daemon: pull access denied for job-distributor"))
    exampleLoadedConfig.JD exampleLoadedConfig.Infra
    (.new "Error response from daemon: pull access denied for job-distributor")).2
    exampleLoadedConfig.JD (Or.inl ⟨by decide, rfl⟩) rfl
  exact ⟨h.1, rfl⟩

/-! ## C22: the panic recovery handler -/

theorem whenErr_stderr_no_track (err : GoError) (g : GoErr → String) :
    (whenErr err (fun e => .stderr (g e))).filter Event.isTrack = [] :=
  whenErr_no_track _ _ (fun _ => rfl)

/-- C22: the recover handler does nothing for a nil recovered value. For a
non-nil one, whatever the tracker and the container removal return, its
actions are, in this order: the messages about the panic and the stack trace,
one telemetry call `startup.result` with `success` = false, the text of the
panic and `panicked` = true, a message if that call failed, the cleanup wait
of the configured grace period, one removal of the containers, and a message
if the removal failed. So there is exactly one telemetry call and exactly one
removal, the wait is between them, and a failure of either does not stop the
sequence. -/
theorem StartCmdRecoverHandlerFunc_sequence (env : RunEnv) (cleanupWait : Nat) :
    StartCmdRecoverHandlerFunc env none cleanupWait = [] ∧
    ∀ pv : PanicValue, ∃ errText before trackFailed removeFailed,
      StartCmdRecoverHandlerFunc env (some pv) cleanupWait =
        before ++
        [.track "startup.result"
          [("success", .bool false), ("error", .str errText), ("panicked", .bool true)]] ++
        trackFailed ++
        [.waitToCleanUp cleanupWait, .removeTestContainers] ++
        removeFailed ∧
      (∀ ev ∈ before ++ trackFailed ++ removeFailed,
        (∃ m, ev = .stdout m) ∨ (∃ m, ev = .stderr m) ∨ ev = .stackTrace) ∧
      (trackFailed = [] ↔ env.Track "startup.result"
          [("success", .bool false), ("error", .str errText), ("panicked", .bool true)]
        = none) ∧
      (removeFailed = [] ↔ env.RemoveTestContainers = none) ∧
      (StartCmdRecoverHandlerFunc env (some pv) cleanupWait).filter Event.isTrack =
        [.track "startup.result"
          [("success", .bool false), ("error", .str errText), ("panicked", .bool true)]] ∧
      (StartCmdRecoverHandlerFunc env (some pv) cleanupWait).count .removeTestContainers = 1 ∧
      (StartCmdRecoverHandlerFunc env (some pv) cleanupWait).count
        (.waitToCleanUp cleanupWait) = 1 := by
  refine ⟨rfl, ?_⟩
  intro pv
  refine ⟨_, _, _, _, StartCmdRecoverHandlerFunc_eq env pv cleanupWait, ?_, ?_, ?_, ?_, ?_, ?_⟩
  · intro ev hev
    simp only [List.mem_append] at hev
    rcases hev with (hev | hev) | hev
    · cases pv <;> simp at hev <;> rcases hev with h | h | h <;> simp [h]
    · obtain ⟨m, hm⟩ := whenErr_stderr_mem _ _ ev hev
      exact Or.inr (Or.inl ⟨m, hm⟩)
    · obtain ⟨m, hm⟩ := whenErr_stderr_mem _ _ ev hev
      exact Or.inr (Or.inl ⟨m, hm⟩)
  · cases hT : env.Track "startup.result"
        [("success", .bool false),
         ("error", .str (match pv with
           | .err err => err.Error
           | .value rendered => rendered)),
         ("panicked", .bool true)] <;> simp [whenErr]
  · cases hR : env.RemoveTestContainers <;> simp [whenErr]
  · rw [StartCmdRecoverHandlerFunc_eq]
    simp only [List.filter_append]
    simp only [whenErr_stderr_no_track]
    cases pv <;> simp [Event.isTrack]
  · rw [StartCmdRecoverHandlerFunc_eq]
    simp only [List.count_append]
    rw [List.count_eq_zero_of_not_mem (whenErr_no_cleanup _ _ (fun _ => by simp)),
      List.count_eq_zero_of_not_mem (whenErr_no_cleanup _ _ (fun _ => by simp))]
    cases pv <;> simp [List.count_cons]
  · rw [StartCmdRecoverHandlerFunc_eq]
    simp only [List.count_append]
    have hw : ∀ (err : GoError) (report : GoErr → Event),
        (∀ e, report e ≠ .waitToCleanUp cleanupWait) →
        (whenErr err report).count (.waitToCleanUp cleanupWait) = 0 := by
      intro err report hr
      cases err with
      | none => simp [whenErr]
      | some e => simpa [whenErr, List.count_cons] using hr e
    rw [hw _ _ (fun _ => by simp), hw _ _ (fun _ => by simp)]
    cases pv <;> simp [List.count_cons]

/-! ## C23: node groups are started one after the other -/

theorem startNodeSets_ok (env : JobsEnv) (sets : List CapabilitiesAwareNodeSet)
    (outs : List NodeSetOutput) (acc : List WrappedNodeOutput) (trace : List Event)
    (h : sets.map (fun s => env.NewSharedDBNodeSet s.Input) = outs.map Except.ok) :
    startNodeSets env sets acc trace =
      { trace := trace ++ sets.map (fun s => .newSharedDBNodeSet s.Input),
        out := some (acc ++ List.zipWith wrapNodeOutput sets outs), err := none } := by
  induction sets generalizing outs acc trace with
  | nil =>
    cases outs with
    | nil => simp [startNodeSets]
    | cons o os => simp at h
  | cons s rest ih =>
    cases outs with
    | nil => simp at h
    | cons o os =>
      simp only [List.map_cons, List.cons.injEq] at h
      obtain ⟨h1, h2⟩ := h
      simp only [startNodeSets, h1]
      rw [ih os _ _ h2]
      simp [wrapNodeOutput]

theorem startNodeSets_fail (env : JobsEnv) (pre : List CapabilitiesAwareNodeSet)
    (s : CapabilitiesAwareNodeSet) (post : List CapabilitiesAwareNodeSet)
    (outs : List NodeSetOutput) (e : GoErr) (acc : List WrappedNodeOutput)
    (trace : List Event)
    (hpre : pre.map (fun s => env.NewSharedDBNodeSet s.Input) = outs.map Except.ok)
    (hs : env.NewSharedDBNodeSet s.Input = .error e) :
    startNodeSets env (pre ++ s :: post) acc trace =
      { trace := trace ++ (pre ++ [s]).map (fun s => .newSharedDBNodeSet s.Input),
        out := none,
        err := some (.wrap e ("failed to create node set named " ++ s.Input.Name)) } := by
  induction pre generalizing outs acc trace with
  | nil => simp [startNodeSets, hs]
  | cons p rest ih =>
    cases outs with
    | nil => simp at hpre
    | cons o os =>
      simp only [List.map_cons, List.cons.injEq] at hpre
      obtain ⟨h1, h2⟩ := hpre
      simp only [List.cons_append, startNodeSets, h1]
      show startNodeSets env (rest ++ s :: post) _ _ = _
      rw [ih os _ _ h2]
      simp

/-- C23: on an infrastructure other than CRIB, `StartDONs` creates the node
sets one after the other in the order of its input. When every creation
succeeds it returns a nil error and a list as long as the input whose i-th
element carries the output of the i-th creation and the node-set name and the
capability list of the i-th input. When the creation of a node set fails
after all earlier ones succeeded, it returns a nil list and the provider's
error wrapped under `failed to create node set named <name>` with the name of
that node set, and the only node sets whose creation was attempted are the
earlier ones and the failing one, in input order: no later node set is
started. -/
theorem StartDONs_sequential (env : JobsEnv) (infraInput : InfraInput)
    (sets : List CapabilitiesAwareNodeSet) (hlocal : infraInput.InfraType ≠ CRIB) :
    (∀ outs : List NodeSetOutput,
      sets.map (fun s => env.NewSharedDBNodeSet s.Input) = outs.map Except.ok →
      (StartDONs env infraInput sets).err = none ∧
      (StartDONs env infraInput sets).out = some (List.zipWith wrapNodeOutput sets outs) ∧
      (List.zipWith wrapNodeOutput sets outs).length = sets.length ∧
      (List.zipWith wrapNodeOutput sets outs).map (fun o => (o.NodeSetName, o.Capabilities)) =
        sets.map (fun s => (s.Input.Name, s.Capabilities)) ∧
      (List.zipWith wrapNodeOutput sets outs).map (fun o => o.Output) = outs ∧
      (StartDONs env infraInput sets).trace =
        sets.map (fun s => .newSharedDBNodeSet s.Input)) ∧
    (∀ (pre : List CapabilitiesAwareNodeSet) (s : CapabilitiesAwareNodeSet)
      (post : List CapabilitiesAwareNodeSet) (outs : List NodeSetOutput) (e : GoErr),
      sets = pre ++ s :: post →
      pre.map (fun s => env.NewSharedDBNodeSet s.Input) = outs.map Except.ok →
      env.NewSharedDBNodeSet s.Input = .error e →
      (StartDONs env infraInput sets).out = none ∧
      (StartDONs env infraInput sets).err =
        some (.wrap e ("failed to create node set named " ++ s.Input.Name)) ∧
      (StartDONs env infraInput sets).trace =
        (pre ++ [s]).map (fun s => .newSharedDBNodeSet s.Input)) := by
  constructor
  · intro outs h
    have hlen : outs.length = sets.length := by
      have := congrArg List.length h
      simpa using this.symm
    simp only [StartDONs, hlocal, if_false]
    rw [startNodeSets_ok env sets outs [] [] h]
    refine ⟨rfl, by simp, by simp [hlen], ?_, ?_, by simp⟩
    · clear h
      induction sets generalizing outs with
      | nil => simp
      | cons s rest ih =>
        cases outs with
        | nil => simp at hlen
        | cons o os =>
          simp only [List.length_cons, Nat.add_right_cancel_iff] at hlen
          simp [wrapNodeOutput, ih os hlen]
    · clear h
      induction sets generalizing outs with
      | nil =>
        cases outs with
        | nil => simp
        | cons o os => simp at hlen
      | cons s rest ih =>
        cases outs with
        | nil => simp at hlen
        | cons o os =>
          simp only [List.length_cons, Nat.add_right_cancel_iff] at hlen
          simp [wrapNodeOutput, ih os hlen]
  · intro pre s post outs e hsets hpre hs
    subst hsets
    simp only [StartDONs, hlocal, if_false]
    rw [startNodeSets_fail env pre s post outs e [] [] hpre hs]
    exact ⟨rfl, rfl, by simp⟩

/-- C23, at an input: three node groups on the local infrastructure, of which
the third, `gateway`, cannot be created; and the first two alone, which
start. -/
theorem StartDONs_sequential_witness :
    ((StartDONs exampleJobsEnvGatewayFails exampleLoadedConfig.Infra
        [exampleDescriptorNamed "workflow" ["ocr3"],
         exampleDescriptorNamed "gateway" [],
         exampleDescriptorNamed "capabilities" ["write-evm"]]).err =
      some (.wrap (.new "port 5002 already allocated")
        "failed to create node set named gateway") ∧
     (StartDONs exampleJobsEnvGatewayFails exampleLoadedConfig.Infra
        [exampleDescriptorNamed "workflow" ["ocr3"],
         exampleDescriptorNamed "gateway" [],
         exampleDescriptorNamed "capabilities" ["write-evm"]]).trace =
      [.newSharedDBNodeSet (exampleNodeSet "workflow"),
       .newSharedDBNodeSet (exampleNodeSet "gateway")]) ∧
    (StartDONs exampleJobsEnvGatewayFails exampleLoadedConfig.Infra
        [exampleDescriptorNamed "workflow" ["ocr3"],
         exampleDescriptorNamed "capabilities" ["write-evm"]]).out =
      some [{ Output := { ExternalEndpoints := ["http://workflow:6688"] },
              NodeSetName := "workflow", Capabilities := ["ocr3"] },
            { Output := { ExternalEndpoints := ["http://capabilities:6688"] },
              NodeSetName := "capabilities", Capabilities := ["write-evm"] }] := by
  have h1 := (StartDONs_sequential exampleJobsEnvGatewayFails exampleLoadedConfig.Infra
    [exampleDescriptorNamed "workflow" ["ocr3"], exampleDescriptorNamed "gateway" [],
     exampleDescriptorNamed "capabilities" ["write-evm"]] (by decide)).2
    [exampleDescriptorNamed "workflow" ["ocr3"]] (exampleDescriptorNamed "gateway" [])
    [exampleDescriptorNamed "capabilities" ["write-evm"]]
    [{ ExternalEndpoints := ["http://workflow:6688"] }]
    (.new "port 5002 already allocated") rfl rfl rfl
  have h2 := (StartDONs_sequential exampleJobsEnvGatewayFails exampleLoadedConfig.Infra
    [exampleDescriptorNamed "workflow" ["ocr3"],
     exampleDescriptorNamed "capabilities" ["write-evm"]] (by decide)).1
    [{ ExternalEndpoints := ["http://workflow:6688"] },
     { ExternalEndpoints := ["http://capabilities:6688"] }] rfl
  exact ⟨⟨h1.2.1, h1.2.2⟩, h2.2.1⟩

/-! ## C24: the telemetry events of `trackStartup` -/

/-- C24, counterexample: a successful startup that built an image. The
startup-time event carries the properties `duration_seconds` and
`has_built_docker_image`; no event of the call has a property named
`has_built_image`. -/
theorem trackStartup_has_no_has_built_image :
    (trackStartup (exampleRunEnv (.ok exampleOutput) none) true true "docker" none none).1 =
      [.track "cre.local.startup.result" [("success", .bool true), ("infra", .str "docker")],
       .track "cre.local.startup.time"
         [("duration_seconds", .num 95), ("has_built_docker_image", .bool true)]] ∧
    ∀ ev ∈ (trackStartup (exampleRunEnv (.ok exampleOutput) none) true true "docker"
        none none).1, "has_built_image" ∉ ev.propertyKeys := by
  refine ⟨rfl, ?_⟩
  decide

/-- C24, amended: `trackStartup` returns nil and calls the tracker once with
the event `cre.local.startup.result`, whose properties are `success` and
`infra` with the values given, then `error` with the message if and only if a
message is supplied, then `panicked` with the flag if and only if a flag is
supplied, and nothing else. If and only if `success` is true it calls the
tracker a second time, with the event `cre.local.startup.time` whose
properties are `duration_seconds` and `has_built_docker_image`. There is no
other tracker call, whatever the tracker returns. -/
theorem trackStartup_events (env : RunEnv) (success hasBuilt : Bool) (infraType : String)
    (errorMessage : Option String) (panicked : Option Bool) :
    (trackStartup env success hasBuilt infraType errorMessage panicked).2 = none ∧
    ∃ metadata : List (String × PropValue),
      (trackStartup env success hasBuilt infraType errorMessage panicked).1.filter Event.isTrack =
        .track "cre.local.startup.result" metadata ::
          (if success then
            [.track "cre.local.startup.time"
              [("duration_seconds", .num env.elapsedSeconds),
               ("has_built_docker_image", .bool hasBuilt)]]
           else []) ∧
      metadata.map Prod.fst =
        ["success", "infra"] ++ (if errorMessage.isSome then ["error"] else []) ++
          (if panicked.isSome then ["panicked"] else []) ∧
      ("success", PropValue.bool success) ∈ metadata ∧
      ("infra", PropValue.str infraType) ∈ metadata ∧
      (∀ v, ("error", v) ∈ metadata ↔ ∃ m, errorMessage = some m ∧ v = .str m) ∧
      (∀ v, ("panicked", v) ∈ metadata ↔ ∃ b, panicked = some b ∧ v = .bool b) := by
  constructor
  · unfold trackStartup
    cases success <;> rfl
  · refine ⟨[("success", .bool success), ("infra", .str infraType)] ++
      (match errorMessage with
       | some m => [("error", .str m)]
       | none => []) ++
      (match panicked with
       | some b => [("panicked", .bool b)]
       | none => []), ?_, ?_, ?_, ?_, ?_, ?_⟩
    · cases success <;>
        simp [trackStartup, whenErr_stderr_no_track, Event.isTrack, List.filter_cons]
    · cases errorMessage <;> cases panicked <;> simp
    · simp
    · simp
    · intro v
      cases errorMessage <;> cases panicked <;> simp
    · intro v
      cases errorMessage <;> cases panicked <;> simp

/-- C24, at an input: a failed startup on `docker` after a panic-free run,
with a tracker that fails. -/
theorem trackStartup_events_witness :
    (trackStartup ((exampleRunEnv (.ok exampleOutput) none).withTrack
        (fun _ _ => some (.new "telemetry endpoint unreachable")))
      false false "docker" (some "node set unhealthy") (some false)).1 =
      [.track "cre.local.startup.result"
         [("success", .bool false), ("infra", .str "docker"),
          ("error", .str "node set unhealthy"), ("panicked", .bool false)],
       .stderr "failed to track startup: telemetry endpoint unreachable\n"] ∧
    (trackStartup ((exampleRunEnv (.ok exampleOutput) none).withTrack
        (fun _ _ => some (.new "telemetry endpoint unreachable")))
      false false "docker" (some "node set unhealthy") (some false)).2 = none :=
  ⟨rfl, (trackStartup_events ((exampleRunEnv (.ok exampleOutput) none).withTrack
      (fun _ _ => some (.new "telemetry endpoint unreachable")))
    false false "docker" (some "node set unhealthy") (some false)).1⟩

/-! ## C25: the start command validates the key before provisioning -/

theorem whenErr_no_generateKey (err : GoError) (report : GoErr → Event)
    (h : ∀ e, report e ≠ .generateKey) :
    Event.generateKey ∉ whenErr err report := by
  cases err with
  | none => simp [whenErr]
  | some e => simpa [whenErr] using (h e).symm

theorem trackStartupAt_no_generateKey (env : RunEnv) (success hasBuilt : Bool)
    (infraType : String) (errorMessage : Option String) (panicked : Option Bool) :
    Event.generateKey ∉
      trackStartupAt env success hasBuilt infraType errorMessage panicked := by
  simp only [trackStartupAt, trackStartup]
  cases success <;>
    simp [whenErr_no_generateKey]

theorem StartCmdGenerateSettingsFile_no_generateKey (env : RunEnv)
    (homeChainOut : WrappedBlockchainOutput) (output : SetupOutput) :
    Event.generateKey ∉ (StartCmdGenerateSettingsFile env homeChainOut output).trace := by
  unfold StartCmdGenerateSettingsFile
  split
  · simp
  · split
    · simp
    · split
      · simp
      · split
        · simp
        · dsimp only
          split <;> simp

theorem startExampleAndFinish_no_generateKey (env : RunEnv) (f : StartFlags)
    (homeChainOut : WrappedBlockchainOutput) (before : List Event)
    (h : Event.generateKey ∉ before) :
    Event.generateKey ∉ (startExampleAndFinish env f homeChainOut before).trace := by
  unfold startExampleAndFinish
  split
  · split
    · exact h
    · simp [h, whenErr_no_generateKey]
  · simp [h]

theorem startSuccessPath_no_generateKey (env : RunEnv) (f : StartFlags) (cfg : Config)
    (output : Option SetupOutput) (before : List Event)
    (h : Event.generateKey ∉ before) :
    Event.generateKey ∉ (startSuccessPath env f cfg output before).trace := by
  unfold startSuccessPath
  cases output with
  | none => exact h
  | some out =>
    simp only
    cases hbo : out.BlockchainOutput with
    | nil => exact h
    | cons homeChainOut rest =>
      have hs := StartCmdGenerateSettingsFile_no_generateKey env homeChainOut out
      have ht := trackStartupAt_no_generateKey env true
        (hasBuiltDockerImage cfg f.withPluginsDockerImage) out.InfraType none none
      simp only
      generalize (StartCmdGenerateSettingsFile env homeChainOut out).outcome = so
      cases so with
      | panic p => simp [h, hs]
      | ret sErr =>
        have h1 : Event.generateKey ∉
            before ++ (StartCmdGenerateSettingsFile env homeChainOut out).trace ++
              whenErr sErr (fun e =>
                .stderr ("failed to create CRE CLI settings file: " ++ e.Error ++
                  ". You need to create it manually.")) ++
              trackStartupAt env true (hasBuiltDockerImage cfg f.withPluginsDockerImage)
                out.InfraType none none := by
          simp [h, hs, ht, whenErr_no_generateKey]
        simp only [List.mem_append, not_or] at h1
        obtain ⟨⟨⟨a, b⟩, c⟩, d⟩ := h1
        simp only
        by_cases hb : f.withBeholder = true
        · simp only [hb, if_true]
          cases hsb : env.startBeholder with
          | none =>
            simp only
            apply startExampleAndFinish_no_generateKey
            simp [a, b, c, d]
          | some startBeholderErr =>
            simp only [List.mem_append, not_or]
            refine ⟨⟨⟨⟨⟨a, b⟩, c⟩, d⟩, by simp⟩, ?_⟩
            split
            · simp
            · simp [whenErr_no_generateKey]
        · simp only [hb]
          apply startExampleAndFinish_no_generateKey
          simp [a, b, c, d]

theorem startFailurePath_no_generateKey (env : RunEnv) (f : StartFlags) (cfg : Config)
    (startErr : GoErr) (before : List Event) (h : Event.generateKey ∉ before) :
    Event.generateKey ∉ (startFailurePath env f cfg startErr before).trace := by
  have ht := trackStartupAt_no_generateKey env false
    (hasBuiltDockerImage cfg f.withPluginsDockerImage) cfg.Infra.InfraType
    (some startErr.Error) (some false)
  simp only [startFailurePath, telemetryErrText_eq]
  cases env.RemoveTestContainers <;> simp [h, ht]

theorem StartCmdRecoverHandlerFunc_no_generateKey (env : RunEnv) (p : Option PanicValue)
    (cleanupWait : Nat) :
    Event.generateKey ∉ StartCmdRecoverHandlerFunc env p cleanupWait := by
  cases p with
  | none => simp [StartCmdRecoverHandlerFunc]
  | some pv =>
    cases pv <;>
      simp [StartCmdRecoverHandlerFunc, telemetryErrText_eq, whenErr_no_generateKey]

/-- With a non-empty key in the request, `StartCLIEnvironment` generates no
key, leaves the key of the request as it is and hands it to the provider. -/
theorem StartCLIEnvironment_with_key (env : StartEnv) (cfg : Config)
    (topologyFlag workflowTrigger img : String) (withExampleFlag : Bool)
    (ports : List Int) (extraBinaries : List (String × String))
    (extraJobFactoryFns : List JobSpecFactory) (hk : cfg.JD.CSAEncryptionKey ≠ "") :
    Event.generateKey ∉
      (StartCLIEnvironment env cfg topologyFlag workflowTrigger img withExampleFlag ports
        extraBinaries extraJobFactoryFns).trace ∧
    (StartCLIEnvironment env cfg topologyFlag workflowTrigger img withExampleFlag ports
        extraBinaries extraJobFactoryFns).cfg.JD = cfg.JD ∧
    ∀ si, Event.setupTestEnvironment si ∈
      (StartCLIEnvironment env cfg topologyFlag workflowTrigger img withExampleFlag ports
        extraBinaries extraJobFactoryFns).trace → si.JdInput = cfg.JD := by
  unfold StartCLIEnvironment
  split
  · simp
  · split
    · simp
    · simp only
      split
      · simp
      · split
        · simp
        · simp
        · simp only [keyStage, hk, if_false, provision_trace, provision_cfg]
          simp [universalSetupInput]

theorem loadAndStart_no_generateKey (env : RunEnv) (f : StartFlags) (ctf : String)
    (before : List Event) (h : Event.generateKey ∉ before) :
    Event.generateKey ∉ (loadAndStart env f ctf before).trace := by
  unfold loadAndStart
  cases env.Load with
  | error err => simp [h]
  | ok cfg =>
    simp only
    by_cases hk : cfg.JD.CSAEncryptionKey = ""
    · simp [Config.Validate, hk, h]
    · simp only [Config.Validate, hk, if_false]
      have hs := (StartCLIEnvironment_with_key { env.start with CTF_CONFIGS := ctf } cfg
        f.topology f.exampleWorkflowTrigger f.withPluginsDockerImage f.withExampleFlag
        f.extraAllowedGatewayPorts [] [] hk).1
      have ht : Event.generateKey ∉ before ++ [Event.load] ++
          (StartCLIEnvironment { env.start with CTF_CONFIGS := ctf } cfg
            f.topology f.exampleWorkflowTrigger f.withPluginsDockerImage f.withExampleFlag
            f.extraAllowedGatewayPorts [] []).trace := by
        simp [h, hs]
      split
      · exact ht
      · exact startFailurePath_no_generateKey _ _ _ _ _ ht
      · exact startSuccessPath_no_generateKey _ _ _ _ _ ht

theorem setVariablesAndStart_no_generateKey (env : RunEnv) (f : StartFlags) (ctf : String)
    (before : List Event) (h : Event.generateKey ∉ before) :
    Event.generateKey ∉ (setVariablesAndStart env f ctf before).trace := by
  have hryuk : ∀ t, Event.generateKey ∉ t →
      Event.generateKey ∉
        (match env.Setenv "TESTCONTAINERS_RYUK_DISABLED" "true" with
         | some setErr =>
           ({ trace := t ++ [Event.setenv "TESTCONTAINERS_RYUK_DISABLED" "true"],
              outcome := .ret (some (.wrap setErr
                "failed to set TESTCONTAINERS_RYUK_DISABLED environment variable")) } :
             RunResult)
         | none =>
           loadAndStart env f ctf
             (t ++ [Event.setenv "TESTCONTAINERS_RYUK_DISABLED" "true"])).trace := by
    intro t ht
    cases env.Setenv "TESTCONTAINERS_RYUK_DISABLED" "true" with
    | some e => simp [ht]
    | none =>
      apply loadAndStart_no_generateKey
      simp [ht]
  unfold setVariablesAndStart
  simp only
  split
  · cases env.Setenv "PRIVATE_KEY" defaultPrivateKey with
    | some e => simp [h]
    | none =>
      apply hryuk
      simp [h]
  · exact hryuk before h

theorem startCmdBody_no_generateKey (env : RunEnv) (f : StartFlags) :
    Event.generateKey ∉ (startCmdBody env f).trace := by
  have hafter : ∀ t, Event.generateKey ∉ t →
      Event.generateKey ∉
        (if f.topology ≠ TopologySimplified ∧ f.topology ≠ TopologyFull then
          ({ trace := t,
             outcome := .ret (some (.new ("invalid topology: " ++ f.topology ++
               ". Valid topologies are: " ++ TopologySimplified ++ ", " ++ TopologyFull))) } :
            RunResult)
        else if env.getenvCTF = "" then
          match env.Setenv "CTF_CONFIGS" (defaultCtfConfigsValue f.topology) with
          | some setErr =>
            { trace := t ++ [.printCRELogo,
                .setenv "CTF_CONFIGS" (defaultCtfConfigsValue f.topology)],
              outcome := .ret (some (.wrap
                (.wrap setErr "failed to set CTF_CONFIGS environment variable")
                "failed to set default CTF configs")) }
          | none =>
            setVariablesAndStart env f (defaultCtfConfigsValue f.topology)
              (t ++ [.printCRELogo, .setenv "CTF_CONFIGS" (defaultCtfConfigsValue f.topology),
                .stdout ("Set CTF_CONFIGS environment variable to default value: " ++
                  defaultCtfConfigsValue f.topology ++ "\n")])
        else setVariablesAndStart env f env.getenvCTF (t ++ [.printCRELogo])).trace := by
    intro t ht
    split
    · exact ht
    · split
      · cases env.Setenv "CTF_CONFIGS" (defaultCtfConfigsValue f.topology) with
        | some e => simp [ht]
        | none =>
          apply setVariablesAndStart_no_generateKey
          simp [ht]
      · apply setVariablesAndStart_no_generateKey
        simp [ht]
  unfold startCmdBody
  simp only
  split
  · cases env.RunSetup with
    | some e => simp
    | none => exact hafter _ (by simp)
  · exact hafter _ (by simp)

/-- With an empty key in the configuration, the run function ends at the
validation: it returns an error, and its only events are those of the steps
before `StartCLIEnvironment`. -/
theorem startCmdBody_invalid_key (env : RunEnv) (f : StartFlags) (cfg : Config)
    (hload : env.Load = .ok cfg) (hk : cfg.JD.CSAEncryptionKey = "") :
    (∃ err, (startCmdBody env f).outcome = .ret (some err)) ∧
    ∀ ev ∈ (startCmdBody env f).trace,
      ev = .runSetup ∨ ev = .printCRELogo ∨ ev = .load ∨ (∃ k v, ev = .setenv k v) ∨
        ∃ m, ev = .stdout m := by
  have hla : ∀ ctf before, loadAndStart env f ctf before =
      { trace := before ++ [.load],
        outcome := .ret (some (.wrap (.new "jd.csa_encryption_key must be provided")
          "failed to validate test configuration")) } := by
    intro ctf before
    simp [loadAndStart, hload, Config.Validate, hk]
  have hsv : ∀ ctf before,
      (∀ ev ∈ before, ev = .runSetup ∨ ev = .printCRELogo ∨ ev = .load ∨
        (∃ k v, ev = .setenv k v) ∨ ∃ m, ev = .stdout m) →
      (∃ err, (setVariablesAndStart env f ctf before).outcome = .ret (some err)) ∧
      ∀ ev ∈ (setVariablesAndStart env f ctf before).trace,
        ev = .runSetup ∨ ev = .printCRELogo ∨ ev = .load ∨ (∃ k v, ev = .setenv k v) ∨
          ∃ m, ev = .stdout m := by
    intro ctf before hb
    simp only [setVariablesAndStart, hla]
    by_cases hp : env.getenvPrivateKey = ""
    · simp only [hp, if_true]
      cases env.Setenv "PRIVATE_KEY" defaultPrivateKey with
      | some e =>
        refine ⟨⟨_, rfl⟩, ?_⟩
        intro ev hev
        simp only [List.mem_append, List.mem_singleton] at hev
        rcases hev with hev | hev
        · exact hb ev hev
        · exact Or.inr (Or.inr (Or.inr (Or.inl ⟨_, _, hev⟩)))
      | none =>
        simp only
        cases env.Setenv "TESTCONTAINERS_RYUK_DISABLED" "true" with
        | some e =>
          refine ⟨⟨_, rfl⟩, ?_⟩
          intro ev hev
          simp only [List.mem_append, List.mem_cons, List.mem_singleton, List.not_mem_nil,
            or_false] at hev
          rcases hev with (hev | hev | hev) | hev
          · exact hb ev hev
          · exact Or.inr (Or.inr (Or.inr (Or.inl ⟨_, _, hev⟩)))
          · exact Or.inr (Or.inr (Or.inr (Or.inr ⟨_, hev⟩)))
          · exact Or.inr (Or.inr (Or.inr (Or.inl ⟨_, _, hev⟩)))
        | none =>
          refine ⟨⟨_, rfl⟩, ?_⟩
          intro ev hev
          simp only [List.mem_append, List.mem_cons, List.mem_singleton, List.not_mem_nil,
            or_false] at hev
          rcases hev with ((hev | hev | hev) | hev) | hev
          · exact hb ev hev
          · exact Or.inr (Or.inr (Or.inr (Or.inl ⟨_, _, hev⟩)))
          · exact Or.inr (Or.inr (Or.inr (Or.inr ⟨_, hev⟩)))
          · exact Or.inr (Or.inr (Or.inr (Or.inl ⟨_, _, hev⟩)))
          · exact Or.inr (Or.inr (Or.inl hev))
    · simp only [hp, if_false]
      cases env.Setenv "TESTCONTAINERS_RYUK_DISABLED" "true" with
      | some e =>
        refine ⟨⟨_, rfl⟩, ?_⟩
        intro ev hev
        simp only [List.mem_append, List.mem_singleton] at hev
        rcases hev with hev | hev
        · exact hb ev hev
        · exact Or.inr (Or.inr (Or.inr (Or.inl ⟨_, _, hev⟩)))
      | none =>
        refine ⟨⟨_, rfl⟩, ?_⟩
        intro ev hev
        simp only [List.mem_append, List.mem_singleton] at hev
        rcases hev with (hev | hev) | hev
        · exact hb ev hev
        · exact Or.inr (Or.inr (Or.inr (Or.inl ⟨_, _, hev⟩)))
        · exact Or.inr (Or.inr (Or.inl hev))
  have hafter : ∀ t,
      (∀ ev ∈ t, ev = .runSetup ∨ ev = .printCRELogo ∨ ev = .load ∨
        (∃ k v, ev = .setenv k v) ∨ ∃ m, ev = .stdout m) →
      (∃ err,
        (if f.topology ≠ TopologySimplified ∧ f.topology ≠ TopologyFull then
          ({ trace := t,
             outcome := .ret (some (.new ("invalid topology: " ++ f.topology ++
               ". Valid topologies are: " ++ TopologySimplified ++ ", " ++ TopologyFull))) } :
            RunResult)
        else if env.getenvCTF = "" then
          match env.Setenv "CTF_CONFIGS" (defaultCtfConfigsValue f.topology) with
          | some setErr =>
            { trace := t ++ [Event.printCRELogo,
                Event.setenv "CTF_CONFIGS" (defaultCtfConfigsValue f.topology)],
              outcome := .ret (some (.wrap
                (.wrap setErr "failed to set CTF_CONFIGS environment variable")
                "failed to set default CTF configs")) }
          | none =>
            setVariablesAndStart env f (defaultCtfConfigsValue f.topology)
              (t ++ [Event.printCRELogo,
                Event.setenv "CTF_CONFIGS" (defaultCtfConfigsValue f.topology),
                Event.stdout ("Set CTF_CONFIGS environment variable to default value: " ++
                  defaultCtfConfigsValue f.topology ++ "\n")])
        else setVariablesAndStart env f env.getenvCTF (t ++ [Event.printCRELogo])).outcome =
          .ret (some err)) ∧
      ∀ ev ∈
        (if f.topology ≠ TopologySimplified ∧ f.topology ≠ TopologyFull then
          ({ trace := t,
             outcome := .ret (some (.new ("invalid topology: " ++ f.topology ++
               ". Valid topologies are: " ++ TopologySimplified ++ ", " ++ TopologyFull))) } :
            RunResult)
        else if env.getenvCTF = "" then
          match env.Setenv "CTF_CONFIGS" (defaultCtfConfigsValue f.topology) with
          | some setErr =>
            { trace := t ++ [Event.printCRELogo,
                Event.setenv "CTF_CONFIGS" (defaultCtfConfigsValue f.topology)],
              outcome := .ret (some (.wrap
                (.wrap setErr "failed to set CTF_CONFIGS environment variable")
                "failed to set default CTF configs")) }
          | none =>
            setVariablesAndStart env f (defaultCtfConfigsValue f.topology)
              (t ++ [Event.printCRELogo,
                Event.setenv "CTF_CONFIGS" (defaultCtfConfigsValue f.topology),
                Event.stdout ("Set CTF_CONFIGS environment variable to default value: " ++
                  defaultCtfConfigsValue f.topology ++ "\n")])
        else setVariablesAndStart env f env.getenvCTF (t ++ [Event.printCRELogo])).trace,
        ev = .runSetup ∨ ev = .printCRELogo ∨ ev = .load ∨ (∃ k v, ev = .setenv k v) ∨
          ∃ m, ev = .stdout m := by
    intro t ht
    split
    · exact ⟨⟨_, rfl⟩, ht⟩
    · split
      · cases env.Setenv "CTF_CONFIGS" (defaultCtfConfigsValue f.topology) with
        | some e =>
          refine ⟨⟨_, rfl⟩, ?_⟩
          intro ev hev
          simp only [List.mem_append, List.mem_cons, List.mem_singleton, List.not_mem_nil,
            or_false] at hev
          rcases hev with hev | hev | hev
          · exact ht ev hev
          · exact Or.inr (Or.inl hev)
          · exact Or.inr (Or.inr (Or.inr (Or.inl ⟨_, _, hev⟩)))
        | none =>
          apply hsv
          intro ev hev
          simp only [List.mem_append, List.mem_cons, List.mem_singleton, List.not_mem_nil,
            or_false] at hev
          rcases hev with hev | hev | hev | hev
          · exact ht ev hev
          · exact Or.inr (Or.inl hev)
          · exact Or.inr (Or.inr (Or.inr (Or.inl ⟨_, _, hev⟩)))
          · exact Or.inr (Or.inr (Or.inr (Or.inr ⟨_, hev⟩)))
      · apply hsv
        intro ev hev
        simp only [List.mem_append, List.mem_singleton] at hev
        rcases hev with hev | hev
        · exact ht ev hev
        · exact Or.inr (Or.inl hev)
  unfold startCmdBody
  simp only
  split
  · cases env.RunSetup with
    | some e =>
      refine ⟨⟨_, rfl⟩, ?_⟩
      intro ev hev
      simp only [List.mem_singleton] at hev
      exact Or.inl hev
    | none =>
      apply hafter
      intro ev hev
      simp only [List.mem_singleton] at hev
      exact Or.inl hev
  · apply hafter
    intro ev hev
    simp at hev

/-- C25: `Config.Validate` returns an error if and only if the CSA encryption
key of the Job Distributor is empty. The run function of the start command
calls `StartCLIEnvironment` only after the validation passed: on a run that
gets as far as the call, the request has a non-empty key, the call generates
no key, leaves the key as it is and hands it to the provider; with an empty
key in the loaded configuration the run function returns an error without
generating a key and without calling the provider. Hence no run of the start
command, whatever the collaborators and flags, generates a key. -/
theorem start_command_never_generates_key (env : RunEnv) (f : StartFlags) :
    (∀ cfg : Config, cfg.Validate ≠ none ↔ cfg.JD.CSAEncryptionKey = "") ∧
    Event.generateKey ∉ (startCmdRunE env f).trace ∧
    (∀ cfg, ReachesStart env f cfg →
      cfg.JD.CSAEncryptionKey ≠ "" ∧
      startCmdBody env f = afterStart env f (startCallOf env f cfg) (preStartTrace env f) ∧
      Event.generateKey ∉ (startCallOf env f cfg).trace ∧
      (startCallOf env f cfg).cfg.JD = cfg.JD ∧
      ∀ si, Event.setupTestEnvironment si ∈ (startCallOf env f cfg).trace →
        si.JdInput = cfg.JD) ∧
    (∀ cfg, env.Load = .ok cfg → cfg.JD.CSAEncryptionKey = "" →
      (∃ err, (startCmdRunE env f).returned = some err) ∧
      ∀ ev ∈ (startCmdRunE env f).trace,
        ev ≠ .generateKey ∧ ∀ si, ev ≠ .setupTestEnvironment si) := by
  refine ⟨?_, ?_, ?_, ?_⟩
  · intro cfg
    by_cases hk : cfg.JD.CSAEncryptionKey = "" <;> simp [Config.Validate, hk]
  · have hb := startCmdBody_no_generateKey env f
    cases hout : (startCmdBody env f).outcome with
    | ret err =>
      rw [startCmdRunE_of_ret env f err hout]
      exact hb
    | panic p =>
      rw [startCmdRunE_of_panic env f p hout]
      simp [hb, StartCmdRecoverHandlerFunc_no_generateKey]
  · intro cfg hr
    have hk : cfg.JD.CSAEncryptionKey ≠ "" := by
      have hv := hr.2.2.2.2.2.2
      intro hk
      simp [Config.Validate, hk] at hv
    have h := StartCLIEnvironment_with_key { env.start with CTF_CONFIGS := ctfAtStart env f }
      cfg f.topology f.exampleWorkflowTrigger f.withPluginsDockerImage f.withExampleFlag
      f.extraAllowedGatewayPorts [] [] hk
    exact ⟨hk, startCmdBody_of_reaches env f cfg hr, h.1, h.2.1, h.2.2⟩
  · intro cfg hload hk
    obtain ⟨⟨err, herr⟩, hev⟩ := startCmdBody_invalid_key env f cfg hload hk
    rw [startCmdRunE_of_ret env f (some err) herr]
    refine ⟨⟨err, rfl⟩, ?_⟩
    intro ev hmem
    rcases hev ev hmem with h | h | h | ⟨_, _, h⟩ | ⟨_, h⟩ <;> subst h <;> simp

/-- C25, at an input: the example run, whose configuration has a key, and the
run on the example configuration without a key, which ends at the
validation. -/
theorem start_command_never_generates_key_witness :
    exampleLoadedConfig.JD.CSAEncryptionKey ≠ "" ∧
    Event.generateKey ∉ (startCmdRunE (exampleRunEnv (.ok exampleOutput) none)
      exampleFlags).trace ∧
    (startCmdRunE exampleRunEnvNoKey exampleFlags).returned =
      some (.wrap (.new "jd.csa_encryption_key must be provided")
        "failed to validate test configuration") ∧
    ∀ ev ∈ (startCmdRunE exampleRunEnvNoKey exampleFlags).trace,
      ev ≠ .generateKey ∧ ∀ si, ev ≠ .setupTestEnvironment si :=
  ⟨((start_command_never_generates_key (exampleRunEnv (.ok exampleOutput) none)
      exampleFlags).2.2.1 exampleLoadedConfig (exampleRunEnv_reaches _ _)).1,
   (start_command_never_generates_key (exampleRunEnv (.ok exampleOutput) none)
      exampleFlags).2.1,
   rfl,
   ((start_command_never_generates_key exampleRunEnvNoKey exampleFlags).2.2.2
      (exampleConfig [exampleNodeSet "workflow"]) rfl rfl).2⟩

/-! ## C26: the error text reported to telemetry -/

theorem cutAt_takeWhile (sep : Char) (s : List Char) :
    (match cutAt sep s with
     | none => s
     | some (a, _) => a) = s.takeWhile (fun c => c ≠ sep) := by
  induction s with
  | nil => rfl
  | cons c cs ih =>
    by_cases hc : c = sep
    · simp [cutAt, hc]
    · simp only [cutAt, hc, if_false]
      cases hcut : cutAt sep cs with
      | none =>
        rw [hcut] at ih
        simp only at ih
        simp only [List.takeWhile_cons, ne_eq, hc, not_false_eq_true, decide_True, if_true]
        exact congrArg (List.cons c) ih
      | some ab =>
        obtain ⟨a, b⟩ := ab
        rw [hcut] at ih
        simp only at ih
        simp only [List.takeWhile_cons, ne_eq, hc, not_false_eq_true, decide_True, if_true]
        exact congrArg (List.cons c) ih

theorem SplitN_two_head (msg : String) : index0 (SplitN msg '\n' 2) = .ret (firstLine msg) := by
  obtain ⟨l⟩ := msg
  have h := cutAt_takeWhile '\n' l
  have h2 : SplitN ⟨l⟩ '\n' 2 = (splitAtMost '\n' 1 l).map String.mk := by
    simp [SplitN]
  rw [h2]
  show _ = Outcome.ret (String.mk (l.takeWhile (fun c => c ≠ '\n')))
  rw [← h]
  cases hcut : cutAt '\n' l with
  | none => simp [splitAtMost, hcut, index0]
  | some ab =>
    obtain ⟨a, b⟩ := ab
    simp [splitAtMost, hcut, index0]

/-- C26: splitting a message at the newline with a limit of 1 gives the one
piece that is the whole message, so the text computed for telemetry is the
message itself; it is the first line of the message (the first piece of a
split with a limit of 2) if and only if the message has no newline. On the
panic path the only telemetry call of the recover handler carries as `error`
the whole message of the recovered error, or the whole rendering of another
recovered value; on the ordinary failure path the only telemetry call after
the events before it carries as `error` the whole message of the error
returned by `StartCLIEnvironment`. -/
theorem telemetry_error_text_is_whole_message (env : RunEnv) (f : StartFlags) :
    (∀ msg : String, SplitN msg '\n' 1 = [msg] ∧ telemetryErrText msg = .ret msg ∧
      index0 (SplitN msg '\n' 2) = .ret (firstLine msg) ∧
      (telemetryErrText msg = .ret (firstLine msg) ↔ '\n' ∉ msg.toList)) ∧
    (∀ (pv : PanicValue) (cleanupWait : Nat),
      (StartCmdRecoverHandlerFunc env (some pv) cleanupWait).filter Event.isTrack =
        [.track "startup.result"
          [("success", .bool false),
           ("error", .str (match pv with
             | .err err => err.Error
             | .value rendered => rendered)),
           ("panicked", .bool true)]]) ∧
    (∀ (cfg : Config) (startErr : GoErr) (before : List Event),
      (startFailurePath env f cfg startErr before).trace.filter Event.isTrack =
        before.filter Event.isTrack ++
          [.track "cre.local.startup.result"
            [("success", .bool false), ("infra", .str cfg.Infra.InfraType),
             ("error", .str startErr.Error), ("panicked", .bool false)]]) := by
  refine ⟨?_, ?_, ?_⟩
  · intro msg
    refine ⟨SplitN_one msg _, telemetryErrText_eq msg, SplitN_two_head msg, ?_⟩
    rw [telemetryErrText_eq]
    simp only [firstLine, Outcome.ret.injEq]
    constructor
    · intro h hmem
      have h2 : msg.toList = msg.toList.takeWhile (fun c => c ≠ '\n') := by
        have := congrArg String.toList h
        simpa using this
      have h3 := (List.takeWhile_eq_self_iff.mp h2.symm) '\n' hmem
      simp at h3
    · intro h
      have h2 : msg.toList.takeWhile (fun c => c ≠ '\n') = msg.toList := by
        rw [List.takeWhile_eq_self_iff]
        intro c hc
        have : c ≠ '\n' := fun hcn => h (hcn ▸ hc)
        simpa using this
      rw [h2]
      cases msg
      rfl
  · intro pv cleanupWait
    rw [StartCmdRecoverHandlerFunc_eq]
    cases pv <;>
      simp [whenErr_stderr_no_track, Event.isTrack, List.filter_cons]
  · intro cfg startErr before
    rw [startFailurePath_eq]
    simp [trackStartupAt, trackStartup, whenErr_stderr_no_track, Event.isTrack,
      List.filter_cons]

/-- C26, at an input: an error message of two lines. Its split with a limit
of 1 has one piece, the two lines; its first line is the first piece of the
split with a limit of 2. The recover handler reports both lines. -/
theorem telemetry_error_text_is_whole_message_witness :
    SplitN "node set unhealthy\ncontainer exited" '\n' 1 =
      ["node set unhealthy\ncontainer exited"] ∧
    SplitN "node set unhealthy\ncontainer exited" '\n' 2 =
      ["node set unhealthy", "container exited"] ∧
    (StartCmdRecoverHandlerFunc (exampleRunEnv (.ok exampleOutput) none)
        (some (.err (.new "node set unhealthy\ncontainer exited"))) 15).filter Event.isTrack =
      [.track "startup.result"
        [("success", .bool false), ("error", .str "node set unhealthy\ncontainer exited"),
         ("panicked", .bool true)]] :=
  ⟨((telemetry_error_text_is_whole_message (exampleRunEnv (.ok exampleOutput) none)
      exampleFlags).1 "node set unhealthy\ncontainer exited").1,
   by decide,
   (telemetry_error_text_is_whole_message (exampleRunEnv (.ok exampleOutput) none)
      exampleFlags).2.1 (.err (.new "node set unhealthy\ncontainer exited")) 15⟩

/-! ## C27: the binary-path map follows the capability lists -/

/-- C28: whatever the two removals return, `removeAllContainers` first
removes the test containers, then the Beholder stack, each exactly once; a
removal that fails only adds a message on standard error, right after it; and
the function returns nil. The run function of the stop command therefore
returns nil and ends with the message `Environment stopped successfully`. -/
theorem stopCmd_never_fails (env : RunEnv) :
    (removeAllContainers env).2 = none ∧
    (∃ ctfFailed beholderFailed : List Event,
      (removeAllContainers env).1 =
        [.removeTestContainers] ++ ctfFailed ++
          [.removeTestStack env.DEFAULT_STACK_NAME] ++ beholderFailed ∧
      (ctfFailed = [] ↔ env.RemoveTestContainers = none) ∧
      (beholderFailed = [] ↔ env.RemoveTestStack env.DEFAULT_STACK_NAME = none) ∧
      (∀ e, env.RemoveTestContainers = some e →
        ctfFailed = [.stderr (GoErr.wrap e manualCtfCleanupMsg).Error]) ∧
      (∀ e, env.RemoveTestStack env.DEFAULT_STACK_NAME = some e →
        beholderFailed = [.stderr (GoErr.wrap e manualBeholderCleanupMsg).Error]) ∧
      (∀ ev ∈ ctfFailed ++ beholderFailed, ∃ m, ev = .stderr m)) ∧
    (stopCmdRunE env).2 = none ∧
    (stopCmdRunE env).1 =
      (removeAllContainers env).1 ++ [.stdout "Environment stopped successfully\n"] := by
  refine ⟨rfl, ⟨_, _, rfl, ?_, ?_, ?_, ?_, ?_⟩, rfl, rfl⟩
  · cases env.RemoveTestContainers <;> simp [whenErr]
  · cases env.RemoveTestStack env.DEFAULT_STACK_NAME <;> simp [whenErr]
  · intro e he
    rw [he]
    rfl
  · intro e he
    rw [he]
    rfl
  · intro ev hev
    rcases List.mem_append.mp hev with h | h
    · exact whenErr_stderr_mem _ _ ev h
    · exact whenErr_stderr_mem _ _ ev h

/-- C28, at an input: both removals fail. -/
theorem stopCmd_never_fails_witness :
    stopCmdRunE exampleRunEnvRemovalsFail =
      ([.removeTestContainers,
        .stderr (GoErr.wrap (.new "docker daemon unreachable") manualCtfCleanupMsg).Error,
        .removeTestStack "chip-ingress",
        .stderr (GoErr.wrap (.new "no such stack") manualBeholderCleanupMsg).Error,
        .stdout "Environment stopped successfully\n"], none) ∧
    (removeAllContainers exampleRunEnvRemovalsFail).2 = none :=
  ⟨rfl, (stopCmd_never_fails exampleRunEnvRemovalsFail).1⟩

/-! ## C29: whether an image was built -/

theorem hasBuiltInNodeSpecs_true (hasBuilt : Bool) (specs : List NodeSpec) :
    hasBuiltInNodeSpecs hasBuilt specs = true ↔
      hasBuilt = true ∨
        ∃ spec ∈ specs, ∃ n, spec.Node = some n ∧ n.DockerFilePath ≠ "" := by
  induction specs with
  | nil => simp [hasBuiltInNodeSpecs]
  | cons spec rest ih =>
    cases hn : spec.Node with
    | none =>
      simp only [hasBuiltInNodeSpecs, hn, ih]
      constructor
      · rintro (h | ⟨s, hs, n, h1, h2⟩)
        · exact Or.inl h
        · exact Or.inr ⟨s, List.mem_cons_of_mem _ hs, n, h1, h2⟩
      · rintro (h | ⟨s, hs, n, h1, h2⟩)
        · exact Or.inl h
        · rcases List.mem_cons.mp hs with e | e
          · rw [e, hn] at h1
            cases h1
          · exact Or.inr ⟨s, e, n, h1, h2⟩
    | some node =>
      by_cases hd : node.DockerFilePath = ""
      · simp only [hasBuiltInNodeSpecs, hn, hd, ne_eq, not_true_eq_false, if_false, ih]
        constructor
        · rintro (h | ⟨s, hs, n, h1, h2⟩)
          · exact Or.inl h
          · exact Or.inr ⟨s, List.mem_cons_of_mem _ hs, n, h1, h2⟩
        · rintro (h | ⟨s, hs, n, h1, h2⟩)
          · exact Or.inl h
          · rcases List.mem_cons.mp hs with e | e
            · rw [e, hn] at h1
              cases h1
              exact absurd hd h2
            · exact Or.inr ⟨s, e, n, h1, h2⟩
      · simp only [hasBuiltInNodeSpecs, hn, ne_eq, hd, not_false_eq_true, if_true, true_iff]
        exact Or.inr ⟨spec, List.mem_cons_self _ _, node, hn, hd⟩

theorem hasBuilt_foldl_true (sets : List NsInput) (hasBuilt : Bool) :
    sets.foldl (fun hasBuilt nodeset => hasBuiltInNodeSpecs hasBuilt nodeset.NodeSpecs)
        hasBuilt = true ↔
      hasBuilt = true ∨
        ∃ ns ∈ sets, ∃ spec ∈ ns.NodeSpecs, ∃ n, spec.Node = some n ∧ n.DockerFilePath ≠ "" := by
  induction sets generalizing hasBuilt with
  | nil => simp
  | cons ns rest ih =>
    rw [List.foldl_cons, ih, hasBuiltInNodeSpecs_true]
    constructor
    · rintro ((h | ⟨spec, hs, hx⟩) | ⟨s, hs, hx⟩)
      · exact Or.inl h
      · exact Or.inr ⟨ns, List.mem_cons_self _ _, spec, hs, hx⟩
      · exact Or.inr ⟨s, List.mem_cons_of_mem _ hs, hx⟩
    · rintro (h | ⟨s, hs, hx⟩)
      · exact Or.inl (Or.inl h)
      · rcases List.mem_cons.mp hs with e | e
        · subst e
          exact Or.inl (Or.inr hx)
        · exact Or.inr ⟨s, e, hx⟩

/-- C29: `hasBuiltDockerImage` returns false whenever the shared plugins image
flag is non-empty. With an empty flag it returns true if and only if some node
spec of some node set of the configuration has a non-nil node with a non-empty
Docker file path; node specs with a nil node count for nothing, and the
function returns a value for every configuration. -/
theorem hasBuiltDockerImage_spec (cfg : Config) (withPluginsDockerImageFlag : String) :
    (withPluginsDockerImageFlag ≠ "" →
      hasBuiltDockerImage cfg withPluginsDockerImageFlag = false) ∧
    (withPluginsDockerImageFlag = "" →
      (hasBuiltDockerImage cfg withPluginsDockerImageFlag = true ↔
        ∃ ns ∈ cfg.NodeSets, ∃ spec ∈ ns.NodeSpecs, ∃ n,
          spec.Node = some n ∧ n.DockerFilePath ≠ "")) := by
  constructor
  · intro h
    simp [hasBuiltDockerImage, h]
  · intro h
    simp only [hasBuiltDockerImage, h, ne_eq, not_true_eq_false, if_false]
    rw [hasBuilt_foldl_true]
    simp

/-- C29, at an input: a configuration with nil nodes, a node with a prebuilt
image, and a node built from a Dockerfile, with the shared image flag and
without it; and a configuration whose only node spec has a nil node. -/
theorem hasBuiltDockerImage_spec_witness :
    hasBuiltDockerImage exampleConfigMixedNodes "chainlink:plugins" = false ∧
    hasBuiltDockerImage exampleConfigMixedNodes "" = true ∧
    hasBuiltDockerImage
      (exampleConfig [{ Name := "workflow", NodeSpecs := [{ Node := none }] }]) "" = false :=
  ⟨(hasBuiltDockerImage_spec exampleConfigMixedNodes "chainlink:plugins").1 (by decide),
   ((hasBuiltDockerImage_spec exampleConfigMixedNodes "").2 rfl).mpr
     ⟨{ Name := "capabilities",
        NodeSpecs := [{ Node := none },
          { Node := some { Image := "", DockerContext := "../../../..",
                           DockerFilePath := "plugins/chainlink.Dockerfile" } }] },
      by simp [exampleConfigMixedNodes],
      { Node := some { Image := "", DockerContext := "../../../..",
                       DockerFilePath := "plugins/chainlink.Dockerfile" } },
      by simp, _, rfl, by decide⟩,
   rfl⟩

/-! ## C30: the action hash -/

theorem PutUint64_bigEndian (v : Nat) (h : v < 2 ^ 64) :
    (PutUint64 v).length = 8 ∧ (∀ b ∈ PutUint64 v, b < 256) ∧
      bigEndianValue (PutUint64 v) = v := by
  refine ⟨rfl, ?_, ?_⟩
  · intro b hb
    simp only [PutUint64, List.mem_cons, List.mem_singleton, List.not_mem_nil, or_false] at hb
    rcases hb with hb | hb | hb | hb | hb | hb | hb | hb <;> subst hb <;>
      exact Nat.mod_lt _ (by decide)
  · simp only [bigEndianValue, PutUint64, List.foldl_cons, List.foldl_nil]
    norm_num at h ⊢
    omega

theorem uint64_of_nonneg (nonce : Int) (h0 : 0 ≤ nonce) (h1 : nonce < 2 ^ 63) :
    uint64 nonce = nonce.toNat ∧ nonce.toNat < 2 ^ 64 := by
  unfold uint64
  constructor
  · rw [Int.emod_eq_of_lt h0 (by omega)]
  · omega

theorem stringBytes_ascii (l : List Char) (h : ∀ c ∈ l, c.toNat < 128) :
    stringBytes (String.mk l) = l.map Char.toNat := by
  show l.flatMap utf8Bytes = l.map Char.toNat
  induction l with
  | nil => rfl
  | cons c cs ih =>
    have hc : c.toNat < 128 := h c (List.mem_cons_self _ _)
    have ih1 := ih (fun d hd => h d (List.mem_cons_of_mem _ hd))
    rw [List.flatMap_cons, List.map_cons, ih1]
    simp [utf8Bytes, hc]

theorem hexDigit_ascii (n : Nat) : (hex.hexDigit n).toNat < 128 := by
  unfold hex.hexDigit
  by_cases h : n < 16
  · interval_cases n <;> decide
  · have : "0123456789abcdef".toList.length ≤ n := by
      have : "0123456789abcdef".toList.length = 16 := by decide
      omega
    rw [List.getD_eq_default _ _ this]
    decide

/-- C30: `ActionHash` returns an error for every negative nonce: the error of
the encoder when the action cannot be encoded, the error `nonce must be
non-negative` otherwise. For a nonce of the non-negative `int64` range and an
action that the encoder writes as `encoded`, it returns the Keccak-256 hash
of `encoded`, followed by the 8 bytes of the nonce, most significant first,
followed by the byte 0x00 when no vault address is given, or by the byte 0x01
and the bytes of the vault address string when one is given; the result has 32
bytes for a hash function that gives 32 bytes. The bytes of the string are
those of its characters: a vault address `0x` followed by the hexadecimal
digits of `n` bytes contributes the `2 + 2 * n` character codes of its text,
not the `n` bytes that the text denotes. -/
theorem ActionHash_spec {Action : Type} (env : HashEnv Action) (action : Action)
    (vaultAddress : Option String) (nonce : Int) :
    (nonce < 0 → ∃ e, ActionHash env action vaultAddress nonce = .error e) ∧
    (∀ e, env.msgpackEncode action = .error e →
      ActionHash env action vaultAddress nonce = .error (.wrap e "error encoding action")) ∧
    (∀ encoded, env.msgpackEncode action = .ok encoded → nonce < 0 →
      ActionHash env action vaultAddress nonce =
        .error (.new ("nonce must be non-negative, got " ++ toString nonce))) ∧
    (∀ encoded, env.msgpackEncode action = .ok encoded → 0 ≤ nonce → nonce < 2 ^ 63 →
      ActionHash env action vaultAddress nonce =
        .ok (env.Keccak256 (encoded ++ PutUint64 nonce.toNat ++
          (match vaultAddress with
           | none => [0x00]
           | some address => 0x01 :: stringBytes address))) ∧
      (PutUint64 nonce.toNat).length = 8 ∧
      (∀ b ∈ PutUint64 nonce.toNat, b < 256) ∧
      bigEndianValue (PutUint64 nonce.toNat) = nonce.toNat ∧
      ((∀ buf, (env.Keccak256 buf).length = 32) →
        ∃ hash, ActionHash env action vaultAddress nonce = .ok hash ∧ hash.length = 32)) ∧
    (∀ address : List Char, (∀ c ∈ address, c.toNat < 128) →
      stringBytes (String.mk address) = address.map Char.toNat) ∧
    (∀ bs : List Nat,
      (stringBytes ("0x" ++ hex.EncodeToString bs)).length = 2 + 2 * bs.length) := by
  refine ⟨?_, ?_, ?_, ?_, stringBytes_ascii, ?_⟩
  · intro hneg
    cases henc : env.msgpackEncode action with
    | error e => exact ⟨.wrap e "error encoding action", by simp [ActionHash, henc]⟩
    | ok encoded =>
      exact ⟨.new ("nonce must be non-negative, got " ++ toString nonce),
        by simp [ActionHash, henc, hneg]⟩
  · intro e henc
    simp [ActionHash, henc]
  · intro encoded henc hneg
    simp [ActionHash, henc, hneg]
  · intro encoded henc h0 h1
    obtain ⟨hu, hlt⟩ := uint64_of_nonneg nonce h0 h1
    obtain ⟨hlen, hbytes, hval⟩ := PutUint64_bigEndian nonce.toNat hlt
    have hres : ActionHash env action vaultAddress nonce =
        .ok (env.Keccak256 (encoded ++ PutUint64 nonce.toNat ++
          (match vaultAddress with
           | none => [0x00]
           | some address => 0x01 :: stringBytes address))) := by
      have hn : ¬ nonce < 0 := by omega
      cases vaultAddress <;> simp [ActionHash, henc, hn, hu]
    exact ⟨hres, hlen, hbytes, hval, fun h32 => ⟨_, hres, h32 _⟩⟩
  · intro bs
    have hall : ∀ c ∈ '0' :: 'x' ::
        bs.flatMap (fun b => [hex.hexDigit (b % 256 / 16), hex.hexDigit (b % 16)]),
        c.toNat < 128 := by
      intro c hc
      simp only [List.mem_cons, List.mem_flatMap, List.mem_singleton, List.not_mem_nil,
        or_false] at hc
      rcases hc with hc | hc | ⟨b, _, hc | hc⟩
      · subst hc; decide
      · subst hc; decide
      · subst hc; exact hexDigit_ascii _
      · subst hc; exact hexDigit_ascii _
    have heq : "0x" ++ hex.EncodeToString bs = String.mk ('0' :: 'x' ::
        bs.flatMap (fun b => [hex.hexDigit (b % 256 / 16), hex.hexDigit (b % 16)])) := rfl
    rw [heq, stringBytes_ascii _ hall]
    simp only [List.length_map, List.length_cons]
    have hl : ∀ l : List Nat,
        (l.flatMap (fun b => [hex.hexDigit (b % 256 / 16), hex.hexDigit (b % 16)])).length =
          2 * l.length := by
      intro l
      induction l with
      | nil => rfl
      | cons b rest ih =>
        simp only [List.flatMap_cons, List.length_append, List.length_cons, List.length_nil, ih]
        omega
    rw [hl]
    omega

/-- C30, at an input: the action `type = evmUserModify` with the nonce 258
and the vault address `0xab`. The hashed bytes end with the 8 bytes of the
nonce, the byte 1 and the four character codes of `0xab`. With the nonce -1 the
call fails. -/
theorem ActionHash_spec_witness :
    ActionHash exampleHashEnv [("type", "evmUserModify")] (some "0xab") 258 =
      .ok (exampleHashEnv.Keccak256
        ([0x81, 0xa4, 116, 121, 112, 101,
          0xad, 101, 118, 109, 85, 115, 101, 114, 77, 111, 100, 105, 102, 121] ++
         [0, 0, 0, 0, 0, 0, 1, 2] ++ [1, 48, 120, 97, 98])) ∧
    (∃ hash, ActionHash exampleHashEnv [("type", "evmUserModify")] (some "0xab") 258 =
      .ok hash ∧ hash.length = 32) ∧
    ActionHash exampleHashEnv [("type", "evmUserModify")] none (-1) =
      .error (.new "nonce must be non-negative, got -1") :=
  ⟨rfl,
   ((ActionHash_spec exampleHashEnv [("type", "evmUserModify")] (some "0xab") 258).2.2.2.1
      [0x81, 0xa4, 116, 121, 112, 101,
       0xad, 101, 118, 109, 85, 115, 101, 114, 77, 111, 100, 105, 102, 121]
      rfl (by decide) (by decide)).2.2.2.2 (fun _ => by simp [exampleHashEnv]),
   rfl⟩

end Cre
